import Mathlib

/-!
# Yalnix kernel: frame allocator, PCB queues, scheduler and locks

A shallow embedding of the kernel sources (`kernel.c`, `process.c`, `queue.c`,
`syscalls.c`, `synchronization.c`, `trap_handler.c`, `tty.c`).

* C pointers to PCBs are natural numbers (`Ptr`), `NULL` is `none`; the PCB
  heap is a total map from pointers to records.
* The intrusive `next`/`prev` links live in the PCB record, exactly as in
  `struct pcb`; a queue is the `head`/`tail`/`size` triple of `pcb_queue_t`.
* The frame bitmap is the list of its bytes.
* Machine constants that come from the hardware headers (page counts, the
  kernel stack position) are fields of `Hardware`.
-/

namespace Yalnix

/-! ## Constants -/

/-- Return code `ERROR` of the system-call interface. -/
def ERROR : Int := -1

/-- Return code `SUCCESS` of the system-call interface. -/
def SUCCESS : Int := 0

/-- Protection bit `PROT_READ`. -/
def PROT_READ : Nat := 1

/-- Protection bit `PROT_WRITE`. -/
def PROT_WRITE : Nat := 2

/-- Protection bit `PROT_EXEC`. -/
def PROT_EXEC : Nat := 4

/-- Constants of the simulated machine used by the kernel sources. -/
structure Hardware where
  /-- Number of pages of region 1 (`VMEM_1_SIZE / PAGESIZE`). -/
  NUM_PAGES_REGION1 : Nat
  /-- Number of pages of region 0 (`VMEM_0_SIZE / PAGESIZE`). -/
  VMEM_0_PAGES : Nat
  /-- Number of kernel stack pages (`KERNEL_STACK_MAXSIZE / PAGESIZE`). -/
  KSTACK_PAGES : Nat
  /-- First kernel stack page (`KERNEL_STACK_BASE >> PAGESHIFT`). -/
  KSTACK_START_PAGE : Nat
deriving Repr

/-- Virtual page of `SCRATCH_ADDR = KERNEL_STACK_BASE - PAGESIZE`. -/
def Hardware.scratch_vpn (hw : Hardware) : Nat := hw.KSTACK_START_PAGE - 1

/-! ## Frame bitmap (`kernel.c`) -/

/-- Inner loop of `GetFrame`: the first `j' ≥ j` among the next `n` bit
positions with `(b & (1 << j')) == 0`. -/
def findClearBit (b : Nat) : Nat → Nat → Option Nat
  | 0, _ => none
  | n + 1, j => if b &&& (1 <<< j) = 0 then some j else findClearBit b n (j + 1)

/-- Outer loop of `GetFrame`, at byte index `i` with the bytes from `i` on. -/
def GetFrameLoop : List Nat → Nat → Int × List Nat
  | [], _ => (-1, [])
  | b :: rest, i =>
    match findClearBit b 8 0 with
    | some j => (((i * 8 + j : Nat) : Int), ((b ||| (1 <<< j)) % 256) :: rest)
    | none => ((GetFrameLoop rest (i + 1)).1, b :: (GetFrameLoop rest (i + 1)).2)

/-- Function `GetFrame`: scan the bytes of the bitmap, bit 0 to bit 7 in each, set the
first clear bit and return its number; `-1` when there is none. -/
def GetFrame (frame_bitmap : List Nat) : Int × List Nat :=
  GetFrameLoop frame_bitmap 0

/-- Function `FreeFrame`: clear bit `frame % 8` of byte `frame / 8`. A frame number
outside the bitmap (negative or too large) addresses no byte of it. -/
def FreeFrame (frame_bitmap : List Nat) (frame : Int) : List Nat :=
  if frame < 0 then frame_bitmap
  else
    let byte := frame.toNat / 8
    let bit := frame.toNat % 8
    frame_bitmap.set byte ((frame_bitmap.getD byte 0) &&& (255 ^^^ (1 <<< bit)))

/-- Function `AllocateFrame`: set bit `frame % 8` of byte `frame / 8`. -/
def AllocateFrame (frame_bitmap : List Nat) (frame : Int) : List Nat :=
  if frame < 0 then frame_bitmap
  else
    let byte := frame.toNat / 8
    let bit := frame.toNat % 8
    frame_bitmap.set byte (((frame_bitmap.getD byte 0) ||| (1 <<< bit)) % 256)

/-- The bit of frame `f` in the bitmap: bit `f % 8` of byte `f / 8`. -/
def frameBit (frame_bitmap : List Nat) (f : Nat) : Bool :=
  (frame_bitmap.getD (f / 8) 0).testBit (f % 8)

/-- Number of set bits among the frames of the bitmap. -/
def setBits (frame_bitmap : List Nat) : Nat :=
  ((List.range (8 * frame_bitmap.length)).filter (fun f => frameBit frame_bitmap f)).length

/-! ## Data model (`hardware.h` page-table entries, `process.h`, `queue.h`) -/

/-- A C pointer to a PCB; `NULL` is `none : Option Ptr`. -/
abbrev Ptr := Nat

/-- Page-table entry: valid bit, protection mask, frame number. The value the
kernel stores in `pfn` is kept as the C `int` it was computed as. -/
structure pte_t where
  valid : Nat
  prot : Nat
  pfn : Int
deriving DecidableEq, Repr

instance : Inhabited pte_t := ⟨⟨0, 0, 0⟩⟩

/-- Process states of `process.h`. -/
inductive pcb_state_t where
  | RUNNING
  | READY
  | BLOCKED
  | DEFUNCT
  | ORPHAN
deriving DecidableEq, Repr

/-- The queue record of `queue.h`: head, tail, size. -/
structure pcb_queue_t where
  head : Option Ptr
  tail : Option Ptr
  size : Int
deriving DecidableEq, Repr

/-- The fields of `struct pcb` read or written by the modelled code. The
children queue, allocated by `CreatePCB` and owned by this PCB alone, is
stored by value. -/
structure pcb_t where
  pid : Int
  state : pcb_state_t
  page_table : List pte_t
  kernel_stack : Option (List pte_t)
  brk : Option Nat
  next : Option Ptr
  prev : Option Ptr
  parent : Option Ptr
  children : pcb_queue_t
  delay_ticks : Int
  exit_status : Int
deriving DecidableEq, Repr

/-- PCB memory. `fault` records that the kernel dereferenced a null pointer. -/
structure Heap where
  pcb : Ptr → pcb_t
  fault : Bool

/-- Write to the PCB at `p`. -/
def Heap.modify (h : Heap) (p : Ptr) (f : pcb_t → pcb_t) : Heap :=
  { h with pcb := fun q => if q = p then f (h.pcb q) else h.pcb q }

/-- The `next` link of a PCB. -/
def Heap.next (h : Heap) (p : Ptr) : Option Ptr := (h.pcb p).next

/-! ## Queue primitives (`queue.c`) -/

/-- Function `pcb_queue_create`. -/
def pcb_queue_create : pcb_queue_t := { head := none, tail := none, size := 0 }

/-- Function `pcb_queue_is_empty`: `queue->size == 0`. -/
def pcb_queue_is_empty (queue : pcb_queue_t) : Bool := queue.size == 0

/-- Function `pcb_enqueue`: null `pcb->next`, point `pcb->prev` at the tail, link the
old tail (or set the head when the size is zero), move the tail, count. -/
def pcb_enqueue (h : Heap) (queue : pcb_queue_t) (pcb : Ptr) : Heap × pcb_queue_t :=
  let h1 := h.modify pcb (fun r => { r with next := none, prev := queue.tail })
  if pcb_queue_is_empty queue then
    (h1, { head := some pcb, tail := some pcb, size := queue.size + 1 })
  else
    match queue.tail with
    | some t =>
      (h1.modify t (fun r => { r with next := some pcb }),
       { queue with tail := some pcb, size := queue.size + 1 })
    | none => ({ h1 with fault := true }, { queue with tail := some pcb, size := queue.size + 1 })

/-- Function `pcb_dequeue`: return the head and advance `queue->head` to its `next`;
no field of any PCB is written. -/
def pcb_dequeue (h : Heap) (queue : pcb_queue_t) : Option Ptr × pcb_queue_t :=
  match queue.head with
  | none => (none, queue)
  | some pcb =>
    (some pcb,
     { head := h.next pcb,
       tail := if h.next pcb = none then none else queue.tail,
       size := queue.size - 1 })

/-- Function `pcb_remove`: unlink `pcb` through its `prev` and `next` links. -/
def pcb_remove (h : Heap) (queue : pcb_queue_t) (pcb : Ptr) : Heap × pcb_queue_t :=
  let r := h.pcb pcb
  let hq1 : Heap × pcb_queue_t :=
    match r.prev with
    | none => (h, { queue with head := r.next })
    | some pv => (h.modify pv (fun x => { x with next := r.next }), queue)
  let r1 := hq1.1.pcb pcb
  let hq2 : Heap × pcb_queue_t :=
    match r1.next with
    | none => (hq1.1, { hq1.2 with tail := r1.prev })
    | some nx => (hq1.1.modify nx (fun x => { x with prev := r1.prev }), hq1.2)
  (hq2.1, { hq2.2 with size := hq2.2.size - 1 })

/-- Function `pcb_in_queue`: follow `next` from the head; `fuel` bounds the walk. -/
def pcb_in_queue (h : Heap) (pcb : Ptr) : Nat → Option Ptr → Bool
  | 0, _ => false
  | _, none => false
  | n + 1, some c => if c = pcb then true else pcb_in_queue h pcb n (h.next c)

/-- The PCBs met by following `next` from `head`, at most `fuel` of them:
what every loop of the kernel over a queue visits. -/
def chainList (h : Heap) : Nat → Option Ptr → List Ptr
  | 0, _ => []
  | _, none => []
  | n + 1, some c => c :: chainList h n (h.next c)

/-- The `next` links lead from `head` through exactly the PCBs `ps`, in this
order, and end in `NULL`. -/
def isChain (nxt : Ptr → Option Ptr) : Option Ptr → List Ptr → Bool
  | hd, [] => decide (hd = none)
  | hd, p :: ps => decide (hd = some p) && isChain nxt (nxt p) ps

/-- The queue record `queue` holds exactly the PCBs `ps` in this order: the
links from its head run through `ps` to `NULL`, its tail is the last of
them and its size is their number. -/
def queueIs (h : Heap) (queue : pcb_queue_t) (ps : List Ptr) : Prop :=
  isChain h.next queue.head ps = true ∧ queue.tail = ps.getLast? ∧
    queue.size = (ps.length : Int)

instance (h : Heap) (queue : pcb_queue_t) (ps : List Ptr) : Decidable (queueIs h queue ps) := by
  unfold queueIs; infer_instance

/-! ## Synchronization objects (`synchronization.h`) -/

/-- Lock record; its waiter queue is owned by the lock and stored by value. -/
structure lock_t where
  is_locked : Int
  id : Int
  owner : Option Ptr
  wait_queue : pcb_queue_t
deriving DecidableEq, Repr

/-- Condition variable record. -/
structure cond_t where
  id : Int
  wait_queue : pcb_queue_t
deriving DecidableEq, Repr

/-- A queued pipe write: the blocked writer and the bytes still to place. -/
structure write_request_t where
  pcb : Ptr
  buffer : List Nat
  length : Int
deriving DecidableEq, Repr

/-- Pipe record. -/
structure pipe_t where
  id : Int
  read_queue : pcb_queue_t
  write_queue : List write_request_t
  buffer : List Nat
  read_index : Int
  write_index : Int
  bytes_available : Int
deriving DecidableEq, Repr

/-- Constant `LOCK_ID_FLAG`. -/
def LOCK_ID_FLAG : Nat := 0x10000

/-- Constant `CONDVAR_ID_FLAG`. -/
def CONDVAR_ID_FLAG : Nat := 0x20000

/-- Constant `PIPE_ID_FLAG`. -/
def PIPE_ID_FLAG : Nat := 0x30000

/-- Constant `TYPE_MASK`. -/
def TYPE_MASK : Nat := 0xF0000

/-- Macro `GET_TYPE(id)`: `id & TYPE_MASK` on a 32-bit `int`. -/
def GET_TYPE (id : Int) : Nat := (id % 2 ^ 32).toNat &&& TYPE_MASK

/-- Macro `IS_LOCK(id)`. -/
def IS_LOCK (id : Int) : Bool := GET_TYPE id == LOCK_ID_FLAG

/-- Macro `IS_CONDVAR(id)`. -/
def IS_CONDVAR (id : Int) : Bool := GET_TYPE id == CONDVAR_ID_FLAG

/-- Macro `IS_PIPE(id)`. -/
def IS_PIPE (id : Int) : Bool := GET_TYPE id == PIPE_ID_FLAG

/-- The expression `flag | next_sync_id` on a 32-bit `int`. -/
def makeId (flag : Nat) (next_sync_id : Int) : Int :=
  ((flag ||| (next_sync_id % 2 ^ 32).toNat : Nat) : Int)

/-! ## Kernel state (the globals of `kernel.c`, `process.c`, `synchronization.c`) -/

/-- The global variables of the kernel, the PCB memory and physical memory.
The three global lists of synchronization objects are kept as lists in list
order (`head` first). -/
structure Kernel where
  heap : Heap
  /-- PCBs returned by `CreatePCB` and not yet freed by `DestroyPCB`. -/
  live : List Ptr
  /-- Address the next `malloc` of a PCB returns. -/
  next_ptr : Ptr
  /-- State of the external pid service `helper_new_pid`. -/
  next_pid : Int
  ready_processes : pcb_queue_t
  blocked_processes : pcb_queue_t
  defunct_processes : pcb_queue_t
  waiting_parent_processes : pcb_queue_t
  idle_pcb : Ptr
  current_process : Ptr
  frame_bitmap : List Nat
  page_table_region0 : List pte_t
  /-- Contents of the physical frames. -/
  pmem : Int → List Nat
  global_locks : List lock_t
  global_condvars : List cond_t
  global_pipes : List pipe_t
  next_sync_id : Int
  /-- Set by `Halt()`. -/
  halted : Bool

/-- Write to the PCB at `p`. -/
def Kernel.setPcb (s : Kernel) (p : Ptr) (f : pcb_t → pcb_t) : Kernel :=
  { s with heap := s.heap.modify p f }

/-- Read the PCB at `p`. -/
def Kernel.pcb (s : Kernel) (p : Ptr) : pcb_t := s.heap.pcb p

/-- Write entry `i` of a page table. -/
def setPte (pt : List pte_t) (i : Nat) (f : pte_t → pte_t) : List pte_t :=
  pt.set i (f (pt.getD i default))

/-- Replace the first element satisfying `p` by its image under `f`: a write
through the pointer returned by a `Find...` function. -/
def updateFirst {α : Type} (p : α → Bool) (f : α → α) : List α → List α
  | [] => []
  | x :: xs => if p x then f x :: xs else x :: updateFirst p f xs

/-- Remove the first element satisfying `p`: unlinking the node found by a
`Reclaim...Helper`. -/
def removeFirst {α : Type} (p : α → Bool) : List α → List α
  | [] => []
  | x :: xs => if p x then xs else x :: removeFirst p xs

/-! ## Process management (`process.c`) -/

/-- Function `SetCurrentProcess`. -/
def SetCurrentProcess (s : Kernel) (process : Ptr) : Kernel :=
  let s1 : Kernel := { s with current_process := process }
  s1.setPcb process (fun r => { r with state := .RUNNING })

/-- Function `CreatePCB` (all allocations succeed): a fresh PCB in state `READY` with
a zeroed region-1 page table, no kernel stack, `delay_ticks = -1`, an empty
children queue and the next pid of the pid service. -/
def CreatePCB (hw : Hardware) (s : Kernel) : Ptr × Kernel :=
  let r : pcb_t :=
    { pid := s.next_pid, state := .READY,
      page_table := List.replicate hw.NUM_PAGES_REGION1 ⟨0, 0, 0⟩,
      kernel_stack := none, brk := none, next := none, prev := none, parent := none,
      children := pcb_queue_create, delay_ticks := -1, exit_status := 0 }
  (s.next_ptr,
   { s with heap := s.heap.modify s.next_ptr (fun _ => r), live := s.live ++ [s.next_ptr],
            next_ptr := s.next_ptr + 1, next_pid := s.next_pid + 1 })

/-- Body of the first loop of `DestroyPCB` over the children chain. -/
def orphanAll (h : Heap) : List Ptr → Heap
  | [] => h
  | c :: cs => orphanAll (h.modify c (fun r => { r with parent := none, state := .ORPHAN })) cs

/-- The frame loop of `DestroyPCB`: `FreeFrame` the frame of every entry of
the region-1 page table with `valid == 1`. -/
def freeValidFrames (frame_bitmap : List Nat) : List pte_t → List Nat
  | [] => frame_bitmap
  | e :: es => freeValidFrames (if e.valid = 1 then FreeFrame frame_bitmap e.pfn else frame_bitmap) es

/-- Function `DestroyPCB`: orphan the PCBs on the children chain, unlink the neighbours
of `pcb`, free the frames of its valid region-1 pages, then `free` the page
table, the kernel-stack array and the PCB. -/
def DestroyPCB (s : Kernel) (pcb : Ptr) : Kernel :=
  let h1 := orphanAll s.heap (chainList s.heap s.next_ptr (s.pcb pcb).children.head)
  let h2 :=
    match (h1.pcb pcb).next with
    | some nx => h1.modify nx (fun x => { x with prev := (h1.pcb pcb).prev })
    | none => h1
  let h3 :=
    match (h2.pcb pcb).prev with
    | some pv => h2.modify pv (fun x => { x with next := (h2.pcb pcb).next })
    | none => h2
  { s with heap := h3,
           frame_bitmap := freeValidFrames s.frame_bitmap (h3.pcb pcb).page_table,
           live := s.live.erase pcb }

/-- The loop of `UpdateDelayedPCB`; the pointer for the next round is read
from `pcb->next` after the body has run. -/
def UpdateDelayedPCBLoop : Nat → Kernel → Option Ptr → Kernel
  | 0, s, _ => s
  | _, s, none => s
  | n + 1, s, some pcb =>
    if (s.pcb pcb).delay_ticks = -1 then
      UpdateDelayedPCBLoop n s (s.heap.next pcb)
    else
      let s1 := s.setPcb pcb (fun r => { r with delay_ticks := r.delay_ticks - 1 })
      let s2 :=
        if (s1.pcb pcb).delay_ticks = 0 then
          let rm := pcb_remove s1.heap s1.blocked_processes pcb
          let en := pcb_enqueue rm.1 s1.ready_processes pcb
          { s1 with heap := en.1, blocked_processes := rm.2, ready_processes := en.2 }
        else s1
      UpdateDelayedPCBLoop n s2 (s2.heap.next pcb)

/-- Function `UpdateDelayedPCB`. The walk is bounded by the number of PCBs ever
allocated. -/
def UpdateDelayedPCB (s : Kernel) : Kernel :=
  if pcb_queue_is_empty s.blocked_processes then s
  else UpdateDelayedPCBLoop s.next_ptr s s.blocked_processes.head

/-! ## Scratch page, kernel stacks, context switch (`kernel.c`) -/

/-- Function `MapScratch`. -/
def MapScratch (hw : Hardware) (s : Kernel) (frame : Int) : Kernel :=
  let e : pte_t := { valid := 1, pfn := frame, prot := PROT_READ ||| PROT_WRITE }
  { s with page_table_region0 := s.page_table_region0.set hw.scratch_vpn e }

/-- Function `UnmapScratch`. -/
def UnmapScratch (hw : Hardware) (s : Kernel) : Kernel :=
  let t := setPte s.page_table_region0 hw.scratch_vpn (fun e => { e with valid := 0 })
  { s with page_table_region0 := t }

/-- The call `memcpy((void *)SCRATCH_ADDR, src, PAGESIZE)` where the source page is
backed by frame `src`: the frame mapped at the scratch page receives the
contents of frame `src`. -/
def copyToScratch (hw : Hardware) (s : Kernel) (src : Int) : Kernel :=
  let dst := (s.page_table_region0.getD hw.scratch_vpn default).pfn
  { s with pmem := fun f => if f = dst then s.pmem src else s.pmem f }

/-- The loop of `CopyPageTable` over the region-1 page indices; the parent's
pages are read through the parent's page table (the caller runs on the
parent's address space). -/
def CopyPageTableLoop (hw : Hardware) (parent child : Ptr) : Nat → Nat → Kernel → Kernel
  | 0, _, s => s
  | n + 1, i, s =>
    if ((s.pcb parent).page_table.getD i default).valid = 1 then
      let g := GetFrame s.frame_bitmap
      let s0 : Kernel := { s with frame_bitmap := g.2 }
      let s1 := s0.setPcb child
        (fun r => { r with page_table := setPte r.page_table i (fun e => { e with pfn := g.1 }) })
      let s2 := MapScratch hw s1 g.1
      let s3 := copyToScratch hw s2 ((s2.pcb parent).page_table.getD i default).pfn
      let s4 := UnmapScratch hw s3
      let prot := ((s4.pcb parent).page_table.getD i default).prot
      let s5 := s4.setPcb child
        (fun r => { r with page_table := setPte r.page_table i (fun e => { e with prot := prot, valid := 1 }) })
      CopyPageTableLoop hw parent child n (i + 1) s5
    else CopyPageTableLoop hw parent child n (i + 1) s

/-- Function `CopyPageTable`. -/
def CopyPageTable (hw : Hardware) (s : Kernel) (parent child : Ptr) : Kernel :=
  CopyPageTableLoop hw parent child hw.NUM_PAGES_REGION1 0 s

/-- The loop of `InitializeChildKernelStack`; `Halt()` on a failed `GetFrame`. -/
def InitializeChildKernelStackLoop : Nat → List pte_t → Kernel → List pte_t × Kernel
  | 0, ks, s => (ks, s)
  | n + 1, ks, s =>
    if (GetFrame s.frame_bitmap).1 = -1 then
      (ks, { s with frame_bitmap := (GetFrame s.frame_bitmap).2, halted := true })
    else
      let e : pte_t := { valid := 1, pfn := (GetFrame s.frame_bitmap).1, prot := PROT_READ ||| PROT_WRITE }
      let bm := AllocateFrame (GetFrame s.frame_bitmap).2 (GetFrame s.frame_bitmap).1
      InitializeChildKernelStackLoop n (ks ++ [e]) { s with frame_bitmap := bm }

/-- Function `InitializeChildKernelStack`. -/
def InitializeChildKernelStack (hw : Hardware) (s : Kernel) : List pte_t × Kernel :=
  InitializeChildKernelStackLoop hw.KSTACK_PAGES [] s

/-- The copy loop of `KCCopy`, page `i` of the kernel stack of `new_pcb`. -/
def KCCopyLoop (hw : Hardware) (new_pcb : Ptr) : Nat → Nat → Kernel → Kernel
  | 0, _, s => s
  | n + 1, i, s =>
    match (s.pcb new_pcb).kernel_stack with
    | none => { s with heap := { s.heap with fault := true } }
    | some ks =>
      let s1 := MapScratch hw s (ks.getD i default).pfn
      let s2 := copyToScratch hw s1
        (s1.page_table_region0.getD (hw.KSTACK_START_PAGE + i) default).pfn
      let s3 := UnmapScratch hw s2
      let ks1 := setPte ks i (fun e => { e with valid := 1, prot := PROT_READ ||| PROT_WRITE })
      let s4 := s3.setPcb new_pcb (fun r => { r with kernel_stack := some ks1 })
      KCCopyLoop hw new_pcb n (i + 1) s4

/-- Function `KCCopy` (the saved register state is not part of the model). -/
def KCCopy (hw : Hardware) (s : Kernel) (new_pcb : Ptr) : Kernel :=
  let s1 :=
    match (s.pcb new_pcb).kernel_stack with
    | none =>
      (InitializeChildKernelStack hw s).2.setPcb new_pcb
        (fun r => { r with kernel_stack := some (InitializeChildKernelStack hw s).1 })
    | some _ => s
  if s1.halted then s1 else KCCopyLoop hw new_pcb hw.KSTACK_PAGES 0 s1

/-- Function `KCSwitch`: install the kernel-stack entries of `next_pcb` in region 0
and make it the current process. -/
def KCSwitch (hw : Hardware) (s : Kernel) (_curr_pcb next_pcb : Ptr) : Kernel :=
  match (s.pcb next_pcb).kernel_stack with
  | none => { s with heap := { s.heap with fault := true } }
  | some ks =>
    let t := (List.range hw.KSTACK_PAGES).foldl
      (fun t i => t.set (hw.KSTACK_START_PAGE + i) (ks.getD i default)) s.page_table_region0
    SetCurrentProcess { s with page_table_region0 := t } next_pcb

/-- The expression `(ready_processes->head != NULL) ? pcb_dequeue(ready_processes) : idle_pcb`. -/
def pickNext (s : Kernel) : Ptr × Kernel :=
  match s.ready_processes.head with
  | some p => (p, { s with ready_processes := (pcb_dequeue s.heap s.ready_processes).2 })
  | none => (s.idle_pcb, s)

/-- The call `pcb_enqueue(ready_processes, pcb)`. -/
def enqueueReady (s : Kernel) (pcb : Ptr) : Kernel :=
  { s with heap := (pcb_enqueue s.heap s.ready_processes pcb).1,
           ready_processes := (pcb_enqueue s.heap s.ready_processes pcb).2 }

/-- The call `pcb_enqueue(blocked_processes, pcb)`. -/
def enqueueBlocked (s : Kernel) (pcb : Ptr) : Kernel :=
  { s with heap := (pcb_enqueue s.heap s.blocked_processes pcb).1,
           blocked_processes := (pcb_enqueue s.heap s.blocked_processes pcb).2 }

/-- The call `pcb_remove(blocked_processes, pcb)`. -/
def removeBlocked (s : Kernel) (pcb : Ptr) : Kernel :=
  { s with heap := (pcb_remove s.heap s.blocked_processes pcb).1,
           blocked_processes := (pcb_remove s.heap s.blocked_processes pcb).2 }

/-! ## Clock trap (`trap_handler.c`) -/

/-- Function `TrapClockHandler` (the copies of the user context are not modelled). -/
def TrapClockHandler (hw : Hardware) (s : Kernel) : Kernel :=
  let s1 := UpdateDelayedPCB s
  let current := s1.current_process
  let s2 := if (s1.pcb current).pid ≠ (s1.pcb s1.idle_pcb).pid then enqueueReady s1 current else s1
  KCSwitch hw (pickNext s2).2 current (pickNext s2).1

/-! ## System calls (`syscalls.c`) -/

/-- Function `SysFork`, as executed by the caller of `Fork`. The first component is
the value returned; after `Halt()` nothing returns and it is `ERROR`. The
branch taken when the current pid equals the child's pid is the one the child
takes when it is first dispatched. -/
def SysFork (hw : Hardware) (s : Kernel) : Int × Kernel :=
  let current_pcb := s.current_process
  let new_pcb := (CreatePCB hw s).1
  let s1 := (CreatePCB hw s).2.setPcb new_pcb (fun r => { r with parent := some current_pcb })
  let s2 := CopyPageTable hw s1 current_pcb new_pcb
  let s3 := KCCopy hw s2 new_pcb
  if s3.halted then (ERROR, s3)
  else if (s3.pcb s3.current_process).pid = (s3.pcb new_pcb).pid then (0, s3)
  else
    let s4 := enqueueReady s3 new_pcb
    let en := pcb_enqueue s4.heap (s4.pcb current_pcb).children new_pcb
    let s5 : Kernel := { s4 with heap := en.1.modify current_pcb (fun r => { r with children := en.2 }) }
    ((s5.pcb new_pcb).pid, s5)

/-- Function `SysExit`: pid 1 destroys its PCB and halts the machine; any other
caller goes to the defunct queue, wakes a parent found on
`waiting_parent_processes`, and switches to the next process. -/
def SysExit (hw : Hardware) (s : Kernel) (status : Int) : Kernel :=
  let pcb := s.current_process
  if (s.pcb pcb).pid = 1 then
    let s1 := DestroyPCB s pcb
    { s1 with halted := true }
  else
    let en := pcb_enqueue s.heap s.defunct_processes pcb
    let s1 : Kernel := { s with heap := en.1, defunct_processes := en.2 }
    let s2 := s1.setPcb pcb (fun r => { r with exit_status := status })
    let s3 :=
      match (s2.pcb pcb).parent with
      | none => s2
      | some parent =>
        if pcb_in_queue s2.heap parent s2.next_ptr s2.waiting_parent_processes.head then
          let rm := pcb_remove s2.heap s2.waiting_parent_processes parent
          let s2a : Kernel := { s2 with heap := rm.1, waiting_parent_processes := rm.2 }
          enqueueReady (s2a.setPcb parent (fun r => { r with state := .READY })) parent
        else s2
    KCSwitch hw (pickNext s3).2 pcb (pickNext s3).1

/-- The search of `SysWait` through the defunct chain: the first PCB whose
`parent->pid` is the caller's pid. A PCB with a null parent met before one is
found is a null dereference (`Except.error`). -/
def findDefunctChild (s : Kernel) (pid : Int) : List Ptr → Except Unit (Option Ptr)
  | [] => .ok none
  | p :: ps =>
    match (s.pcb p).parent with
    | none => .error ()
    | some par => if (s.pcb par).pid = pid then .ok (some p) else findDefunctChild s pid ps

/-- Result of `SysWait`: the value returned (`none` while the caller is
suspended on `waiting_parent_processes`), the value stored through
`status_ptr`, and the kernel state. -/
structure WaitResult where
  rc : Option Int
  status : Option Int
  state : Kernel

/-- Function `SysWait` up to its return or its context switch. -/
def SysWait (hw : Hardware) (s : Kernel) : WaitResult :=
  let current_pcb := s.current_process
  if (s.pcb current_pcb).children.head = none then
    { rc := some ERROR, status := none, state := s }
  else
    match findDefunctChild s (s.pcb current_pcb).pid
        (chainList s.heap s.next_ptr s.defunct_processes.head) with
    | .error _ =>
      { rc := none, status := none, state := { s with heap := { s.heap with fault := true } } }
    | .ok (some pcb) =>
      let rm := pcb_remove s.heap s.defunct_processes pcb
      let s1 : Kernel := { s with heap := rm.1, defunct_processes := rm.2 }
      let rc := pcb_remove s1.heap (s1.pcb current_pcb).children pcb
      let s2 : Kernel := { s1 with heap := rc.1.modify current_pcb (fun r => { r with children := rc.2 }) }
      { rc := some (s2.pcb pcb).pid, status := some (s.pcb pcb).exit_status,
        state := DestroyPCB s2 pcb }
    | .ok none =>
      let en := pcb_enqueue s.heap s.waiting_parent_processes current_pcb
      let s1 : Kernel := { s with heap := en.1, waiting_parent_processes := en.2 }
      let s2 := s1.setPcb current_pcb (fun r => { r with state := .BLOCKED })
      { rc := none, status := none, state := KCSwitch hw (pickNext s2).2 current_pcb (pickNext s2).1 }

/-- The part of `SysWait` that runs when the caller, suspended on
`waiting_parent_processes`, is dispatched again. -/
def SysWait_resume (s : Kernel) : WaitResult :=
  let current_pcb := s.current_process
  match findDefunctChild s (s.pcb current_pcb).pid
      (chainList s.heap s.next_ptr s.defunct_processes.head) with
  | .error _ =>
    { rc := none, status := none, state := { s with heap := { s.heap with fault := true } } }
  | .ok (some pcb) =>
    let rm := pcb_remove s.heap s.defunct_processes pcb
    let s1 : Kernel := { s with heap := rm.1, defunct_processes := rm.2 }
    let s2 := (enqueueReady s1 pcb).setPcb pcb (fun r => { r with state := .READY })
    { rc := some (s2.pcb pcb).pid, status := some (s2.pcb pcb).exit_status,
      state := DestroyPCB s2 pcb }
  | .ok none => { rc := some ERROR, status := none, state := s }

/-- Function `SysDelay`. The first component is the value the call returns (for a
positive count, when the caller is dispatched again); the state is the one
the call leaves behind, after its context switch. -/
def SysDelay (hw : Hardware) (s : Kernel) (clock_ticks : Int) : Int × Kernel :=
  let pcb := s.current_process
  if clock_ticks < 0 then (ERROR, s)
  else if clock_ticks = 0 then (0, s)
  else
    let s1 := s.setPcb pcb (fun r => { r with delay_ticks := clock_ticks })
    let s2 := s1.setPcb pcb (fun r => { r with state := .BLOCKED })
    let s3 := enqueueBlocked s2 pcb
    (0, KCSwitch hw (pickNext s3).2 pcb (pickNext s3).1)

/-! ## Locks and condition variables (`synchronization.c`) -/

/-- Function `FindLock`. -/
def FindLock (s : Kernel) (id : Int) : Option lock_t :=
  s.global_locks.find? (fun l => l.id == id)

/-- Function `FindCondvar`. -/
def FindCondvar (s : Kernel) (id : Int) : Option cond_t :=
  s.global_condvars.find? (fun c => c.id == id)

/-- Write through the pointer returned by `FindLock`. -/
def Kernel.setLock (s : Kernel) (id : Int) (f : lock_t → lock_t) : Kernel :=
  { s with global_locks := updateFirst (fun l => l.id == id) f s.global_locks }

/-- Write through the pointer returned by `FindCondvar`. -/
def Kernel.setCondvar (s : Kernel) (id : Int) (f : cond_t → cond_t) : Kernel :=
  { s with global_condvars := updateFirst (fun c => c.id == id) f s.global_condvars }

/-- Function `LockInit` (allocations succeed). `lock_idp` is the user address of the
out-parameter, `0` for `NULL`; the second component is the id stored there. -/
def LockInit (s : Kernel) (lock_idp : Nat) : Int × Option Int × Kernel :=
  if lock_idp = 0 then (ERROR, none, s)
  else
    let lock : lock_t :=
      { is_locked := 0, owner := none, wait_queue := pcb_queue_create,
        id := makeId LOCK_ID_FLAG s.next_sync_id }
    (SUCCESS, some lock.id,
     { s with global_locks := s.global_locks ++ [lock], next_sync_id := s.next_sync_id + 1 })

/-- Function `CvarInit` (allocations succeed). -/
def CvarInit (s : Kernel) (cvar_idp : Nat) : Int × Option Int × Kernel :=
  if cvar_idp = 0 then (ERROR, none, s)
  else
    let condvar : cond_t :=
      { id := makeId CONDVAR_ID_FLAG s.next_sync_id, wait_queue := pcb_queue_create }
    (SUCCESS, some condvar.id,
     { s with global_condvars := s.global_condvars ++ [condvar],
              next_sync_id := s.next_sync_id + 1 })

/-- Function `Acquire`. The first component is the value the call returns (on the
blocking path, when the caller is dispatched again); the state is the one the
call leaves behind, after its context switch if it blocks. -/
def Acquire (hw : Hardware) (s : Kernel) (lock_id : Int) : Int × Kernel :=
  if lock_id ≤ 0 then (ERROR, s)
  else
    match FindLock s lock_id with
    | none => (ERROR, s)
    | some current =>
      let pcb := s.current_process
      if current.is_locked ≠ 0 then
        let en := pcb_enqueue s.heap current.wait_queue pcb
        let s0 : Kernel := { s with heap := en.1 }
        let s1 := s0.setLock lock_id (fun l => { l with wait_queue := en.2 })
        let s2 := s1.setPcb pcb (fun r => { r with state := .BLOCKED })
        let s3 := enqueueBlocked s2 pcb
        (SUCCESS, KCSwitch hw (pickNext s3).2 pcb (pickNext s3).1)
      else
        (SUCCESS, s.setLock lock_id (fun l => { l with is_locked := 1, owner := some pcb }))

/-- Function `Release`. -/
def Release (s : Kernel) (lock_id : Int) : Int × Kernel :=
  if !IS_LOCK lock_id || decide (lock_id ≤ 0) then (ERROR, s)
  else
    let pcb := s.current_process
    match FindLock s lock_id with
    | none => (ERROR, s)
    | some current =>
      if current.owner ≠ some pcb then (ERROR, s)
      else
        let s1 := s.setLock lock_id (fun l => { l with is_locked := 0, owner := none })
        match current.wait_queue.head with
        | some next =>
          let dq := pcb_dequeue s1.heap current.wait_queue
          let s2 := s1.setLock lock_id (fun l => { l with wait_queue := dq.2 })
          let s3 := s2.setPcb next (fun r => { r with state := .READY })
          let s4 := removeBlocked s3 next
          let s5 := enqueueReady s4 next
          (SUCCESS, s5.setLock lock_id (fun l => { l with is_locked := 1, owner := some next }))
        | none => (SUCCESS, s1)

/-- Function `CvarWait` up to its return or its context switch: `some ERROR` when it
returns at once, `none` when the caller has been suspended on the condition
variable. -/
def CvarWait (hw : Hardware) (s : Kernel) (cvar_id lock_id : Int) : Option Int × Kernel :=
  if cvar_id ≤ 0 ∨ lock_id ≤ 0 then (some ERROR, s)
  else
    let s1 := (Release s lock_id).2
    let pcb := s1.current_process
    let s2 := s1.setPcb pcb (fun r => { r with state := .BLOCKED })
    match FindCondvar s2 cvar_id with
    | none => (some ERROR, s2)
    | some condvar =>
      let en := pcb_enqueue s2.heap condvar.wait_queue pcb
      let s2a : Kernel := { s2 with heap := en.1 }
      let s3 := s2a.setCondvar cvar_id (fun c => { c with wait_queue := en.2 })
      let s4 := enqueueBlocked s3 pcb
      (none, KCSwitch hw (pickNext s4).2 pcb (pickNext s4).1)

/-- The part of `CvarWait` that runs when the suspended caller is dispatched
again: `Acquire(lock_id); return SUCCESS;`. -/
def CvarWait_resume (hw : Hardware) (s : Kernel) (lock_id : Int) : Int × Kernel :=
  (SUCCESS, (Acquire hw s lock_id).2)

/-- Function `CvarSignal`. -/
def CvarSignal (s : Kernel) (cvar_id : Int) : Int × Kernel :=
  if cvar_id ≤ 0 then (ERROR, s)
  else
    match FindCondvar s cvar_id with
    | none => (ERROR, s)
    | some condvar =>
      match condvar.wait_queue.head with
      | some next =>
        let dq := pcb_dequeue s.heap condvar.wait_queue
        let s1 := s.setCondvar cvar_id (fun c => { c with wait_queue := dq.2 })
        let s2 := s1.setPcb next (fun r => { r with state := .READY })
        (SUCCESS, enqueueReady (removeBlocked s2 next) next)
      | none => (SUCCESS, s)

/-- Function `ReclaimLockHelper`. -/
def ReclaimLockHelper (s : Kernel) (id : Int) : Int × Kernel :=
  match FindLock s id with
  | none => (ERROR, s)
  | some lock =>
    if lock.is_locked ≠ 0 then (ERROR, s)
    else (SUCCESS, { s with global_locks := removeFirst (fun l => l.id == id) s.global_locks })

/-- Function `ReclaimCondvarHelper`. -/
def ReclaimCondvarHelper (s : Kernel) (id : Int) : Int × Kernel :=
  match FindCondvar s id with
  | none => (ERROR, s)
  | some _ =>
    (SUCCESS, { s with global_condvars := removeFirst (fun c => c.id == id) s.global_condvars })

/-- Function `ReclaimPipeHelper`. -/
def ReclaimPipeHelper (s : Kernel) (id : Int) : Int × Kernel :=
  match s.global_pipes.find? (fun p => p.id == id) with
  | none => (ERROR, s)
  | some _ => (SUCCESS, { s with global_pipes := removeFirst (fun p => p.id == id) s.global_pipes })

/-- Function `Reclaim`. -/
def Reclaim (s : Kernel) (id : Int) : Int × Kernel :=
  if id ≤ 0 then (ERROR, s)
  else if IS_LOCK id then ReclaimLockHelper s id
  else if IS_CONDVAR id then ReclaimCondvarHelper s id
  else if IS_PIPE id then ReclaimPipeHelper s id
  else (ERROR, s)

/-! ## A concrete machine and the kernel state at the end of boot

A small machine: 4 region-1 pages, 8 region-0 pages, a 2-page kernel stack at
pages 6 and 7 (scratch page 5), 32 physical frames. `bootKernel` is the state
`KernelStart` leaves on it for a kernel image of 3 pages and an initial
program with one text, one data and one stack page: idle (pid 0) is current,
init (pid 1) is on the ready queue. -/

/-- The small machine. -/
def hw0 : Hardware :=
  { NUM_PAGES_REGION1 := 4, VMEM_0_PAGES := 8, KSTACK_PAGES := 2, KSTACK_START_PAGE := 6 }

/-- Contents of unallocated PCB memory. -/
def blankPcb : pcb_t :=
  { pid := -1, state := .READY, page_table := [], kernel_stack := none, brk := none,
    next := none, prev := none, parent := none, children := pcb_queue_create,
    delay_ticks := -1, exit_status := 0 }

/-- The idle PCB after boot: one stack page (frame 3), kernel stack in
frames 6 and 7. -/
def bootIdle : pcb_t :=
  { blankPcb with
    pid := 0, state := .RUNNING,
    page_table := [⟨0, 0, 0⟩, ⟨0, 0, 0⟩, ⟨0, 0, 0⟩, ⟨1, 3, 3⟩],
    kernel_stack := some [⟨1, 3, 6⟩, ⟨1, 3, 7⟩] }

/-- The init PCB after boot: kernel stack in frames 4 and 5, text, data and
stack pages in frames 8, 9 and 10. -/
def bootInit : pcb_t :=
  { blankPcb with
    pid := 1, state := .READY,
    page_table := [⟨1, 5, 8⟩, ⟨1, 3, 9⟩, ⟨0, 0, 0⟩, ⟨1, 3, 10⟩],
    kernel_stack := some [⟨1, 3, 4⟩, ⟨1, 3, 5⟩] }

/-- The kernel state at the end of `KernelStart` on `hw0`. -/
def bootKernel : Kernel :=
  { heap := { pcb := fun p => if p = 0 then bootIdle else if p = 1 then bootInit else blankPcb,
              fault := false },
    live := [0, 1], next_ptr := 2, next_pid := 2,
    ready_processes := { head := some 1, tail := some 1, size := 1 },
    blocked_processes := pcb_queue_create,
    defunct_processes := pcb_queue_create,
    waiting_parent_processes := pcb_queue_create,
    idle_pcb := 0, current_process := 0,
    frame_bitmap := [0xFF, 0x07, 0, 0],
    page_table_region0 :=
      [⟨1, 5, 0⟩, ⟨1, 5, 1⟩, ⟨1, 3, 2⟩, ⟨0, 0, 0⟩, ⟨0, 0, 0⟩, ⟨0, 3, 5⟩, ⟨1, 3, 6⟩, ⟨1, 3, 7⟩],
    pmem := fun f => [f.toNat],
    global_locks := [], global_condvars := [], global_pipes := [],
    next_sync_id := 1, halted := false }

/-- After the first clock tick: init (PCB 1) runs, the ready queue is empty. -/
def initRuns : Kernel := TrapClockHandler hw0 bootKernel

/-- Init forks its first child (PCB 2, pid 2). -/
def forkedOnce : Kernel := (SysFork hw0 initRuns).2

/-- A clock tick after the fork: the child runs, init is on the ready queue. -/
def childRuns : Kernel := TrapClockHandler hw0 forkedOnce

/-- The child calls `Exit(0)`: it goes to the defunct queue and init runs. -/
def childExited : Kernel := SysExit hw0 childRuns 0

/-- The state `KernelStart` leaves on the same machine with 16 physical
frames (a two-byte bitmap). -/
def boot16 : Kernel := { bootKernel with frame_bitmap := [0xFF, 0x07] }

/-- On the 16-frame machine init runs and has forked once: the five frames
that were free now hold the child's three pages and its kernel stack. -/
def full16 : Kernel := (SysFork hw0 (TrapClockHandler hw0 boot16)).2

/-- The state in which a second `SysFork` calls `CopyPageTable`: the new
child (PCB 3) has been created and its parent pointer set to init (PCB 1). -/
def secondForkBeforeCopy : Kernel :=
  (CreatePCB hw0 full16).2.setPcb (CreatePCB hw0 full16).1 (fun r => { r with parent := some 1 })

/-! ### Trace: fork, signal, fork

Init creates lock `65537` and condition variable `131074`, acquires the
lock, forks P (PCB 2) and waits on the condition variable. P forks a child
(PCB 3), signals the condition variable, which puts init on the ready queue
behind that child, and forks again. -/

/-- Init has created the lock and the condition variable and holds the lock. -/
def syncReady : Kernel :=
  (Acquire hw0 (CvarInit (LockInit initRuns 1).2.2 1).2.2 65537).2

/-- Init has forked P and waits on the condition variable; P runs. -/
def initWaits : Kernel := (CvarWait hw0 (SysFork hw0 syncReady).2 131074 65537).2

/-- P has forked its first child (PCB 3) and signalled: ready is 3, 1. -/
def beforeSecondFork : Kernel := (CvarSignal (SysFork hw0 initWaits).2 131074).2

/-! ### Trace: two delays

Init forks P (PCB 2) and calls `Delay(1)`; P runs and calls `Delay(2)`; idle
runs. -/

/-- Both processes are delayed: blocked is 1 (one tick left), 2 (two ticks). -/
def bothDelayed : Kernel := (SysDelay hw0 (SysDelay hw0 forkedOnce 1).2 2).2

/-! ### Trace: lock handoff

Init creates lock `65537`, forks A (PCB 2) and D (PCB 3) and acquires the
lock. After a tick A runs and blocks in `Acquire`; D runs and calls
`Delay(3)`; init runs and releases the lock, which is handed to A. After a
tick A runs and releases the lock. -/

/-- Init holds the lock; A is blocked in `Acquire`; D is delayed; init runs. -/
def ownerAboutToRelease : Kernel :=
  (SysDelay hw0
    (Acquire hw0
      (TrapClockHandler hw0
        (Acquire hw0 (SysFork hw0 (SysFork hw0 (LockInit initRuns 1).2.2).2).2 65537).2)
      65537).2
    3).2

/-- Init has released the lock to A and a clock tick has dispatched A. -/
def waiterAboutToRelease : Kernel :=
  TrapClockHandler hw0 (Release ownerAboutToRelease 65537).2

/-! ### Trace: wait on a condition variable, lock reclaimed meanwhile

From `initWaits` (init released lock `65537` inside `CvarWait` and sleeps on
the condition variable, P runs): P reclaims the lock, signals the condition
variable, and a clock tick dispatches init. -/

/-- Init is about to continue `CvarWait` after its context switch. -/
def waiterResumes : Kernel :=
  TrapClockHandler hw0 (CvarSignal (Reclaim initWaits 65537).2 131074).2

/-! ## Properties of kernel states -/

/-- The frames referenced by a valid region-0 entry (the scratch page, when
mapped, is one of them), by a valid region-1 entry of a live PCB, or by a
kernel-stack entry of a live PCB. -/
def referencedFrames (s : Kernel) : List Int :=
  ((s.page_table_region0.filter (fun e => e.valid == 1)).map (fun e => e.pfn)) ++
  s.live.flatMap (fun p =>
    (((s.pcb p).page_table.filter (fun e => e.valid == 1)).map (fun e => e.pfn)) ++
    (match (s.pcb p).kernel_stack with
     | some ks => ks.map (fun e => e.pfn)
     | none => []))

/-- Frame conservation: a bit of the bitmap is set exactly when its frame is
referenced, and the number of set bits is the number of distinct referenced
frames. -/
def frameConservation (s : Kernel) : Prop :=
  (∀ f ∈ List.range (8 * s.frame_bitmap.length),
    (frameBit s.frame_bitmap f = true ↔ (f : Int) ∈ referencedFrames s)) ∧
  setBits s.frame_bitmap = (referencedFrames s).dedup.length

instance (s : Kernel) : Decidable (frameConservation s) := by
  unfold frameConservation; infer_instance

/-- Membership of a PCB in a queue, as the kernel's own walks see it. -/
def inQueue (s : Kernel) (queue : pcb_queue_t) (p : Ptr) : Bool :=
  decide (p ∈ chainList s.heap s.next_ptr queue.head)

/-- Queue exclusivity with matching state tags: a live PCB is on at most one
of the four scheduler queues, carries the tag of the queue it is on, and is
tagged `RUNNING` exactly when it is the current process. -/
def tagsAgree (s : Kernel) : Prop :=
  ∀ p ∈ s.live,
    (inQueue s s.ready_processes p = true → (s.pcb p).state = .READY) ∧
    (inQueue s s.blocked_processes p = true → (s.pcb p).state = .BLOCKED) ∧
    (inQueue s s.waiting_parent_processes p = true → (s.pcb p).state = .BLOCKED) ∧
    (inQueue s s.defunct_processes p = true → (s.pcb p).state = .DEFUNCT) ∧
    ((s.pcb p).state = .RUNNING ↔ p = s.current_process) ∧
    ((([s.ready_processes, s.blocked_processes, s.defunct_processes,
        s.waiting_parent_processes].filter (fun q => inQueue s q p)).length) ≤ 1)

instance (s : Kernel) : Decidable (tagsAgree s) := by
  unfold tagsAgree; infer_instance

/-- The lock ownership condition on one lock record: held implies an owner;
unheld implies no owner and an empty waiter queue, that is, no PCB at its head
and `pcb_queue_is_empty` (size 0). -/
def lockOk (l : lock_t) : Prop :=
  (l.is_locked ≠ 0 → l.owner ≠ none) ∧
  (l.is_locked = 0 →
    l.owner = none ∧ l.wait_queue.head = none ∧ pcb_queue_is_empty l.wait_queue = true)

instance (l : lock_t) : Decidable (lockOk l) := by
  unfold lockOk; infer_instance

/-- Lock ownership invariant: every lock on the global list satisfies `lockOk`. -/
def lockInvariant (s : Kernel) : Prop := ∀ l ∈ s.global_locks, lockOk l

instance (s : Kernel) : Decidable (lockInvariant s) := by
  unfold lockInvariant; infer_instance

/-- The kernel entry points that touch locks, and those that run in between
them. `cvarWait` is `CvarWait` up to its context switch and `cvarWaitResume`
the rest of it, run when the waiter is dispatched again. -/
inductive KernelCall where
  | lockInit (lock_idp : Nat)
  | acquire (lock_id : Int)
  | release (lock_id : Int)
  | cvarInit (cvar_idp : Nat)
  | cvarWait (cvar_id lock_id : Int)
  | cvarWaitResume (lock_id : Int)
  | cvarSignal (cvar_id : Int)
  | reclaim (id : Int)
  | delay (clock_ticks : Int)
  | clockTick
deriving Repr

/-- The state after one call, made by the current process. -/
def KernelCall.run (hw : Hardware) (s : Kernel) : KernelCall → Kernel
  | .lockInit lock_idp => (LockInit s lock_idp).2.2
  | .acquire lock_id => (Acquire hw s lock_id).2
  | .release lock_id => (Release s lock_id).2
  | .cvarInit cvar_idp => (CvarInit s cvar_idp).2.2
  | .cvarWait cvar_id lock_id => (CvarWait hw s cvar_id lock_id).2
  | .cvarWaitResume lock_id => (CvarWait_resume hw s lock_id).2
  | .cvarSignal cvar_id => (CvarSignal s cvar_id).2
  | .reclaim id => (Reclaim s id).2
  | .delay clock_ticks => (SysDelay hw s clock_ticks).2
  | .clockTick => TrapClockHandler hw s

/-- The state after a sequence of calls. -/
def runCalls (hw : Hardware) (s : Kernel) (calls : List KernelCall) : Kernel :=
  calls.foldl (KernelCall.run hw) s

/-! ### Trace: two locks, three children

Init creates the locks `65537` and `65538` and forks A (PCB 2), X (PCB 3) and
W (PCB 4). Init acquires both locks. A blocks in `Acquire(65537)`, X and later
W block in `Acquire(65538)`; init releases `65537` and later `65538`; A
releases `65537` and sleeps; X sleeps and releases `65538`. -/

/-- Init has created the two locks and forked A, X and W: init runs, ready is
A, X, W. -/
def threeChildren : Kernel :=
  (SysFork hw0 (SysFork hw0 (SysFork hw0 (LockInit (LockInit initRuns 1).2.2 1).2.2).2).2).2

/-- The calls of the trace, each made by the process that is current when its
turn comes: init (1, 2), tick, A (4), X (5), tick, init (7), tick, W (9),
A (10, 11), tick, X (13), init (14), tick, X (16). -/
def stuckWaiterCalls : List KernelCall :=
  [.acquire 65537, .acquire 65538, .clockTick, .acquire 65537, .acquire 65538, .clockTick,
   .release 65537, .clockTick, .acquire 65538, .release 65537, .delay 9, .clockTick, .delay 9,
   .release 65538, .clockTick, .release 65538]

/-! ## Broadcast and pipes (`synchronization.c`)

`PIPE_BUFFER_LEN` comes from the system header `yalnix.h` and is a parameter
of the pipe functions. The queue of pending write requests of a pipe, a list
with correct append and pop in the source, is a list. The indices of a pipe
are never negative, so `%` on them is the C remainder. -/

/-- The loop of `CvarBroadcast` over the waiter chain; the pointer for the
next round is read from `pcb->next` after the body has run. -/
def CvarBroadcastLoop : Nat → Kernel → Option Ptr → Kernel
  | 0, s, _ => s
  | _, s, none => s
  | n + 1, s, some pcb =>
    let s1 := s.setPcb pcb (fun r => { r with state := .READY })
    let s2 := enqueueReady (removeBlocked s1 pcb) pcb
    CvarBroadcastLoop n s2 (s2.heap.next pcb)

/-- Function `CvarBroadcast`. The walk is bounded by the number of PCBs ever
allocated. -/
def CvarBroadcast (s : Kernel) (cvar_id : Int) : Int × Kernel :=
  if cvar_id ≤ 0 then (ERROR, s)
  else
    match FindCondvar s cvar_id with
    | none => (ERROR, s)
    | some condvar => (SUCCESS, CvarBroadcastLoop s.next_ptr s condvar.wait_queue.head)

/-- Function `FindPipe`. -/
def FindPipe (s : Kernel) (id : Int) : Option pipe_t :=
  s.global_pipes.find? (fun p => p.id == id)

/-- Write through the pointer returned by `FindPipe`. -/
def Kernel.setPipe (s : Kernel) (id : Int) (f : pipe_t → pipe_t) : Kernel :=
  { s with global_pipes := updateFirst (fun p => p.id == id) f s.global_pipes }

/-- Function `PipeInit` (allocations succeed). `pipe_idp` is the user address
of the out-parameter, `0` for `NULL`; the second component is the id stored
there. -/
def PipeInit (PIPE_BUFFER_LEN : Nat) (s : Kernel) (pipe_idp : Nat) : Int × Option Int × Kernel :=
  if pipe_idp = 0 then (ERROR, none, s)
  else
    let pipe : pipe_t :=
      { id := makeId PIPE_ID_FLAG s.next_sync_id, read_queue := pcb_queue_create,
        write_queue := [], buffer := List.replicate PIPE_BUFFER_LEN 0,
        read_index := 0, write_index := 0, bytes_available := 0 }
    (SUCCESS, some pipe.id,
     { s with global_pipes := s.global_pipes ++ [pipe], next_sync_id := s.next_sync_id + 1 })

/-- The copy loop into the ring, rounds `i, i + 1, ...`, `n` of them:
`pipe->buffer[pipe->write_index] = src[i]; pipe->write_index = (pipe->write_index + 1) % PIPE_BUFFER_LEN`.
Returns the buffer and the write index. -/
def ringWrite (PIPE_BUFFER_LEN : Nat) (src : List Nat) : Nat → Nat → List Nat → Int → List Nat × Int
  | 0, _, buffer, write_index => (buffer, write_index)
  | n + 1, i, buffer, write_index =>
    ringWrite PIPE_BUFFER_LEN src n (i + 1) (buffer.set write_index.toNat (src.getD i 0))
      ((write_index + 1) % PIPE_BUFFER_LEN)

/-- The copy loop out of the ring, `n` rounds:
`dst[i] = pipe->buffer[pipe->read_index]; pipe->read_index = (pipe->read_index + 1) % PIPE_BUFFER_LEN`.
Returns the bytes stored in `dst` and the read index. -/
def ringRead (PIPE_BUFFER_LEN : Nat) (buffer : List Nat) : Nat → Int → List Nat × Int
  | 0, read_index => ([], read_index)
  | n + 1, read_index =>
    (buffer.getD read_index.toNat 0 ::
       (ringRead PIPE_BUFFER_LEN buffer n ((read_index + 1) % PIPE_BUFFER_LEN)).1,
     (ringRead PIPE_BUFFER_LEN buffer n ((read_index + 1) % PIPE_BUFFER_LEN)).2)

/-- The three statements that wake a blocked process:
`p->state = PCB_STATE_READY; pcb_remove(blocked_processes, p); pcb_enqueue(ready_processes, p);`. -/
def wakeProcess (s : Kernel) (p : Ptr) : Kernel :=
  enqueueReady (removeBlocked (s.setPcb p (fun r => { r with state := .READY })) p) p

/-- The `while` loop of `PipeRead` over the pending write requests of the pipe
found under `pipe_id`: while the head request fits, unlink it, copy its bytes
into the ring and wake its writer; stop at the first request that does not
fit. -/
def servePendingWrites (PIPE_BUFFER_LEN : Nat) (pipe_id : Int) : List write_request_t → Kernel → Kernel
  | [], s => s
  | request :: rest, s =>
    match FindPipe s pipe_id with
    | none => s
    | some pipe =>
      if pipe.bytes_available + request.length ≤ PIPE_BUFFER_LEN then
        let w := ringWrite PIPE_BUFFER_LEN request.buffer request.length.toNat 0
          pipe.buffer pipe.write_index
        let s1 := s.setPipe pipe_id (fun p =>
          { p with write_queue := rest, buffer := w.1, write_index := w.2,
                   bytes_available := p.bytes_available + request.length })
        servePendingWrites PIPE_BUFFER_LEN pipe_id rest (wakeProcess s1 request.pcb)
      else s

/-- Result of `PipeRead`: the value returned (`none` while the caller is
suspended on the pipe's reader queue), the bytes stored in the caller's
buffer, and the kernel state. -/
structure PipeReadResult where
  rc : Option Int
  out : List Nat
  state : Kernel

/-- The part of `PipeRead` from the second test of `bytes_available` on; it
also runs when a reader suspended on the empty pipe is dispatched again. A
pipe reclaimed in between is a dangling pointer (`fault`). -/
def PipeRead_resume (PIPE_BUFFER_LEN : Nat) (s : Kernel) (pipe_id : Int) (length : Int) :
    PipeReadResult :=
  match FindPipe s pipe_id with
  | none => { rc := none, out := [], state := { s with heap := { s.heap with fault := true } } }
  | some pipe =>
    if pipe.bytes_available = 0 then { rc := some ERROR, out := [], state := s }
    else
      let bytes_to_read := if length < pipe.bytes_available then length else pipe.bytes_available
      let r := ringRead PIPE_BUFFER_LEN pipe.buffer bytes_to_read.toNat pipe.read_index
      let s1 := s.setPipe pipe_id (fun p =>
        { p with read_index := r.2, bytes_available := p.bytes_available - bytes_to_read })
      { rc := some bytes_to_read, out := r.1,
        state := servePendingWrites PIPE_BUFFER_LEN pipe_id pipe.write_queue s1 }

/-- Function `PipeRead`; `buffer` is the user address of the destination, `0`
for `NULL`. On an empty pipe the caller is put on the pipe's reader queue and
on the blocked queue and switched out. -/
def PipeRead (hw : Hardware) (PIPE_BUFFER_LEN : Nat) (s : Kernel) (pipe_id : Int) (buffer : Nat)
    (length : Int) : PipeReadResult :=
  if pipe_id ≤ 0 ∨ buffer = 0 ∨ length ≤ 0 then { rc := some ERROR, out := [], state := s }
  else
    match FindPipe s pipe_id with
    | none => { rc := some ERROR, out := [], state := s }
    | some pipe =>
      let pcb := s.current_process
      if pipe.bytes_available = 0 then
        let en := pcb_enqueue s.heap pipe.read_queue pcb
        let s0 : Kernel := { s with heap := en.1 }
        let s1 := s0.setPipe pipe_id (fun p => { p with read_queue := en.2 })
        let s2 := s1.setPcb pcb (fun r => { r with state := .BLOCKED })
        let s3 := enqueueBlocked s2 pcb
        { rc := none, out := [], state := KCSwitch hw (pickNext s3).2 pcb (pickNext s3).1 }
      else PipeRead_resume PIPE_BUFFER_LEN s pipe_id length

/-- How a call that may block ends: it returned `rc`, or the caller was
switched out and `rc` is what it returns once it is dispatched again. -/
inductive Outcome where
  | returned (rc : Int)
  | suspended (rc : Int)
deriving DecidableEq, Repr

/-- Function `PipeWrite` (allocations succeed); `buffer` is the user address
of the source, `0` for `NULL`, and `src` the bytes found there. -/
def PipeWrite (hw : Hardware) (PIPE_BUFFER_LEN : Nat) (s : Kernel) (pipe_id : Int) (buffer : Nat)
    (src : List Nat) (length : Int) : Outcome × Kernel :=
  if pipe_id ≤ 0 ∨ buffer = 0 ∨ length ≤ 0 then (.returned ERROR, s)
  else
    match FindPipe s pipe_id with
    | none => (.returned ERROR, s)
    | some pipe =>
      let space_available := (PIPE_BUFFER_LEN : Int) - pipe.bytes_available
      let bytes_to_write := if length ≤ space_available then length else space_available
      let w := ringWrite PIPE_BUFFER_LEN src bytes_to_write.toNat 0 pipe.buffer pipe.write_index
      let s1 := s.setPipe pipe_id (fun p =>
        { p with buffer := w.1, write_index := w.2,
                 bytes_available := p.bytes_available + bytes_to_write })
      let s2 :=
        match pipe.read_queue.head with
        | some reader =>
          let dq := pcb_dequeue s1.heap pipe.read_queue
          wakeProcess (s1.setPipe pipe_id (fun p => { p with read_queue := dq.2 })) reader
        | none => s1
      if bytes_to_write = length then (.returned length, s2)
      else
        let pcb := s2.current_process
        let request : write_request_t :=
          { pcb := pcb, length := length - bytes_to_write,
            buffer := (src.drop bytes_to_write.toNat).take (length - bytes_to_write).toNat }
        let s3 := s2.setPipe pipe_id (fun p => { p with write_queue := p.write_queue ++ [request] })
        let s4 := enqueueBlocked (s3.setPcb pcb (fun r => { r with state := .BLOCKED })) pcb
        (.suspended length, KCSwitch hw (pickNext s4).2 pcb (pickNext s4).1)

/-! ### Trace: a waiter and a sleeper

Init creates lock `65537` and condition variable `131074` and forks W
(PCB 2) and D (PCB 3). After a tick W runs, acquires the lock and waits on
the condition variable; D runs and calls `Delay(3)`; init runs. -/

/-- Init has created the lock and the condition variable and forked twice; a
tick has dispatched the first child (PCB 2). -/
def twoChildren : Kernel :=
  TrapClockHandler hw0
    (SysFork hw0 (SysFork hw0 (CvarInit (LockInit initRuns 1).2.2 1).2.2).2).2

/-- W (PCB 2) waits on the condition variable, D (PCB 3) sleeps, init runs. -/
def waiterAndSleeper : Kernel :=
  (SysDelay hw0 (CvarWait hw0 (Acquire hw0 twoChildren 65537).2 131074 65537).2 3).2

/-! ### Trace: two waiters

From `twoChildren`: PCB 2 acquires the lock and waits on the condition
variable, then PCB 3 does the same; init runs. -/

/-- PCB 2 and PCB 3 wait on the condition variable, init runs. -/
def twoWaiters : Kernel :=
  (CvarWait hw0
    (Acquire hw0 (CvarWait hw0 (Acquire hw0 twoChildren 65537).2 131074 65537).2 65537).2
    131074 65537).2

/-! ### Traces: wait and exit -/

/-- Init has forked its child (PCB 2) and called `Wait` before the child
exited: init is on `waiting_parent_processes`, the child runs. -/
def parentWaits : Kernel := (SysWait hw0 forkedOnce).state

/-- The child calls `Exit(7)`, which wakes init; init is dispatched and is
about to continue `SysWait`. -/
def parentWoken : Kernel := SysExit hw0 parentWaits 7

/-- After its first child (PCB 2) has exited, init forks a second child
(PCB 3), which is ready and has not run. -/
def secondChildForked : Kernel := (SysFork hw0 childExited).2

/-- The child of init (PCB 2, pid 2) runs and has forked a child of its own
(PCB 3, pid 3). -/
def childHasChild : Kernel := (SysFork hw0 childRuns).2

/-! ### Sequences of pipe calls -/

/-- What the ring code maintains for one pipe: both indices lie in
`[0, PIPE_BUFFER_LEN)`, the count lies in `[0, PIPE_BUFFER_LEN]` and is
congruent to `write_index - read_index`, and no pending write request has a
negative length. -/
def pipeInv (PIPE_BUFFER_LEN : Nat) (p : pipe_t) : Prop :=
  0 ≤ p.read_index ∧ p.read_index < PIPE_BUFFER_LEN ∧
  0 ≤ p.write_index ∧ p.write_index < PIPE_BUFFER_LEN ∧
  0 ≤ p.bytes_available ∧ p.bytes_available ≤ PIPE_BUFFER_LEN ∧
  (p.write_index - p.read_index) % (PIPE_BUFFER_LEN : Int) =
    p.bytes_available % (PIPE_BUFFER_LEN : Int) ∧
  ∀ request ∈ p.write_queue, 0 ≤ request.length

/-- Every pipe on the global list satisfies `pipeInv`. -/
def pipesInv (PIPE_BUFFER_LEN : Nat) (s : Kernel) : Prop :=
  ∀ p ∈ s.global_pipes, pipeInv PIPE_BUFFER_LEN p

/-- The kernel entry points that touch pipes. `pipeRead` is `PipeRead` up to
its return or its context switch and `pipeReadResume` the rest of it, run when
a reader suspended on the empty pipe is dispatched again. -/
inductive PipeCall where
  | pipeInit (pipe_idp : Nat)
  | pipeRead (pipe_id : Int) (buffer : Nat) (length : Int)
  | pipeReadResume (pipe_id : Int) (length : Int)
  | pipeWrite (pipe_id : Int) (buffer : Nat) (src : List Nat) (length : Int)
  | reclaim (id : Int)
deriving Repr

/-- The state after one pipe call, made by the current process. -/
def PipeCall.run (hw : Hardware) (PIPE_BUFFER_LEN : Nat) (s : Kernel) : PipeCall → Kernel
  | .pipeInit pipe_idp => (PipeInit PIPE_BUFFER_LEN s pipe_idp).2.2
  | .pipeRead pipe_id buffer length => (PipeRead hw PIPE_BUFFER_LEN s pipe_id buffer length).state
  | .pipeReadResume pipe_id length => (PipeRead_resume PIPE_BUFFER_LEN s pipe_id length).state
  | .pipeWrite pipe_id buffer src length =>
    (PipeWrite hw PIPE_BUFFER_LEN s pipe_id buffer src length).2
  | .reclaim id => (Reclaim s id).2

/-- A resumed `PipeRead` is the rest of a call that passed the argument test
`length <= 0` before it was suspended. -/
def PipeCall.argsChecked : PipeCall → Bool
  | .pipeReadResume _ length => decide (0 < length)
  | _ => true

/-- The state after a sequence of pipe calls. -/
def runPipeCalls (hw : Hardware) (PIPE_BUFFER_LEN : Nat) (s : Kernel) (calls : List PipeCall) :
    Kernel :=
  calls.foldl (PipeCall.run hw PIPE_BUFFER_LEN) s

/-! ### Ids of the synchronization objects -/

/-- Constant `ID_MASK`. -/
def ID_MASK : Nat := 0x0FFFF

/-- Macro `GET_RAW_ID(id)`: `id & ID_MASK` on a 32-bit `int`. -/
def GET_RAW_ID (id : Int) : Nat := (id % 2 ^ 32).toNat &&& ID_MASK

/-- The ids of the locks on `global_locks`, in list order. -/
def lockIds (s : Kernel) : List Int := s.global_locks.map (fun l => l.id)

/-- The ids of the condition variables on `global_condvars`, in list order. -/
def condvarIds (s : Kernel) : List Int := s.global_condvars.map (fun c => c.id)

/-- The ids of the pipes on `global_pipes`, in list order. -/
def pipeIds (s : Kernel) : List Int := s.global_pipes.map (fun p => p.id)

/-- The ids of all live locks, condition variables and pipes. -/
def liveIds (s : Kernel) : List Int := lockIds s ++ condvarIds s ++ pipeIds s

/-- The id counter together with the ids of the live objects. -/
def syncView (s : Kernel) : Int × List Int × List Int × List Int :=
  (s.next_sync_id, lockIds s, condvarIds s, pipeIds s)

/-- Every live id was made from its own flag and a counter value that
`next_sync_id` has already passed, and no two live objects share an id. -/
def idsInv (s : Kernel) : Prop :=
  1 ≤ s.next_sync_id ∧
  (∀ id ∈ lockIds s, ∃ c : Int, 1 ≤ c ∧ c < s.next_sync_id ∧ id = makeId LOCK_ID_FLAG c) ∧
  (∀ id ∈ condvarIds s, ∃ c : Int, 1 ≤ c ∧ c < s.next_sync_id ∧ id = makeId CONDVAR_ID_FLAG c) ∧
  (∀ id ∈ pipeIds s, ∃ c : Int, 1 ≤ c ∧ c < s.next_sync_id ∧ id = makeId PIPE_ID_FLAG c) ∧
  (liveIds s).Nodup

/-- A kernel entry point that touches locks, condition variables or pipes, or
runs in between. -/
inductive SyncCall where
  | kernel (c : KernelCall)
  | pipe (c : PipeCall)
deriving Repr

/-- The state after one call, made by the current process. -/
def SyncCall.run (hw : Hardware) (PIPE_BUFFER_LEN : Nat) (s : Kernel) : SyncCall → Kernel
  | .kernel c => c.run hw s
  | .pipe c => c.run hw PIPE_BUFFER_LEN s

/-- The state after a sequence of calls. -/
def runSyncCalls (hw : Hardware) (PIPE_BUFFER_LEN : Nat) (s : Kernel) (calls : List SyncCall) :
    Kernel :=
  calls.foldl (SyncCall.run hw PIPE_BUFFER_LEN) s

/-- Init has called `LockInit` 65535 times: once, which creates the lock with
id `0x10001`, and 65534 times more. -/
def idsExhausted : Kernel :=
  runSyncCalls hw0 4 (LockInit initRuns 1).2.2 (List.replicate 65534 (.kernel (.lockInit 1)))

/-- Successive `pcb_enqueue(queue, p)` calls for the PCBs of a list, in list
order. -/
def enqueueAll (h : Heap) (queue : pcb_queue_t) : List Ptr → Heap × pcb_queue_t
  | [] => (h, queue)
  | p :: ps => enqueueAll (pcb_enqueue h queue p).1 (pcb_enqueue h queue p).2 ps

/-- The values returned by `n` successive `pcb_dequeue(queue)` calls (`none`
is `NULL`), and the queue record they leave. -/
def dequeueN (h : Heap) : Nat → pcb_queue_t → List (Option Ptr) × pcb_queue_t
  | 0, queue => ([], queue)
  | n + 1, queue =>
    ((pcb_dequeue h queue).1 :: (dequeueN h n (pcb_dequeue h queue).2).1,
     (dequeueN h n (pcb_dequeue h queue).2).2)

/-! ## Region 1 addresses and `SysBrk` (`kernel.c`, `syscalls.c`)

Addresses are the `unsigned int` values the code computes with. The address
constants come from `hardware.h` and are fields of `Layout`. -/

/-- Address constants of the simulated machine used by the kernel sources. -/
structure Layout where
  /-- Constant `PAGESHIFT`. -/
  PAGESHIFT : Nat
  /-- Constant `VMEM_1_BASE`. -/
  VMEM_1_BASE : Nat
  /-- Constant `VMEM_1_LIMIT`. -/
  VMEM_1_LIMIT : Nat
  /-- Constant `MAX_PT_LEN`. -/
  MAX_PT_LEN : Nat
deriving Repr

/-- Function `IsRegion1Address`. -/
def IsRegion1Address (lay : Layout) (addr : Nat) : Bool :=
  decide (lay.VMEM_1_BASE ≤ addr) && decide (addr < lay.VMEM_1_LIMIT)

/-- Entry `i` of a page table, `i` a C `int`; an index outside the table
addresses no entry of it. -/
def pteAt (pt : List pte_t) (i : Int) : pte_t :=
  if i < 0 then default else pt.getD i.toNat default

/-- Write entry `i` of a page table, `i` a C `int`. -/
def setPteAt (pt : List pte_t) (i : Int) (f : pte_t → pte_t) : List pte_t :=
  if i < 0 then pt else setPte pt i.toNat f

/-- The search of `SysBrk` for the start of the heap, `n` rounds from index
`i`: the first page with `valid == 0`; `0` when there is none. -/
def brkStartPage (pt : List pte_t) : Nat → Nat → Int
  | 0, _ => 0
  | n + 1, i => if (pt.getD i default).valid = 0 then (i : Int) else brkStartPage pt n (i + 1)

/-- The allocation loop of the first `SysBrk` of a process, `n` rounds from
page `i`: `GetFrame`, return `ERROR` on `-1`, else write the entry. The flag
is `false` when the loop returned `ERROR`. -/
def brkGrowFirst : Nat → Int → List pte_t → List Nat → Bool × List pte_t × List Nat
  | 0, _, pt, bitmap => (true, pt, bitmap)
  | n + 1, i, pt, bitmap =>
    if (GetFrame bitmap).1 = -1 then (false, pt, (GetFrame bitmap).2)
    else
      brkGrowFirst n (i + 1)
        (setPteAt pt i (fun e =>
          { e with valid := 1, pfn := (GetFrame bitmap).1, prot := PROT_READ ||| PROT_WRITE }))
        (GetFrame bitmap).2

/-- The allocation loop of a later `SysBrk`, `n` rounds from page `i`: set
`valid`, then `GetFrame`, return `ERROR` on `-1`, else write frame and
protection. -/
def brkGrow : Nat → Int → List pte_t → List Nat → Bool × List pte_t × List Nat
  | 0, _, pt, bitmap => (true, pt, bitmap)
  | n + 1, i, pt, bitmap =>
    if (GetFrame bitmap).1 = -1 then
      (false, setPteAt pt i (fun e => { e with valid := 1 }), (GetFrame bitmap).2)
    else
      brkGrow n (i + 1)
        (setPteAt pt i (fun e =>
          { e with valid := 1, pfn := (GetFrame bitmap).1, prot := PROT_READ ||| PROT_WRITE }))
        (GetFrame bitmap).2

/-- The deallocation loop of `SysBrk`, `n` rounds from page `i` downwards:
stop at a page with `valid == 0`, else clear `valid` and free the frame. -/
def brkShrink : Nat → Int → List pte_t → List Nat → List pte_t × List Nat
  | 0, _, pt, bitmap => (pt, bitmap)
  | n + 1, i, pt, bitmap =>
    if (pteAt pt i).valid = 0 then (pt, bitmap)
    else
      brkShrink n (i - 1) (setPteAt pt i (fun e => { e with valid := 0 }))
        (FreeFrame bitmap (pteAt pt i).pfn)

/-- Function `SysBrk`. -/
def SysBrk (hw : Hardware) (lay : Layout) (s : Kernel) (addr : Nat) : Int × Kernel :=
  if addr = 0 ∨ addr < lay.VMEM_1_BASE ∨ addr > lay.VMEM_1_LIMIT then (ERROR, s)
  else
    let pcb := s.current_process
    let new_brk_page : Int := ((addr >>> lay.PAGESHIFT : Nat) : Int) - (hw.NUM_PAGES_REGION1 : Int)
    match (s.pcb pcb).brk with
    | none =>
      let brk_start_page := brkStartPage (s.pcb pcb).page_table hw.NUM_PAGES_REGION1 0
      let g := brkGrowFirst (new_brk_page - brk_start_page).toNat brk_start_page
        (s.pcb pcb).page_table s.frame_bitmap
      let s0 : Kernel := { s with frame_bitmap := g.2.2 }
      let s1 := s0.setPcb pcb (fun r => { r with page_table := g.2.1 })
      if g.1 then (0, s1.setPcb pcb (fun r => { r with brk := some addr })) else (ERROR, s1)
    | some brk =>
      let brk_page : Int := ((brk >>> lay.PAGESHIFT : Nat) : Int) - (hw.NUM_PAGES_REGION1 : Int)
      if new_brk_page = brk_page then (ERROR, s)
      else if new_brk_page > brk_page then
        let g := brkGrow (new_brk_page - brk_page).toNat brk_page
          (s.pcb pcb).page_table s.frame_bitmap
        let s0 : Kernel := { s with frame_bitmap := g.2.2 }
        let s1 := s0.setPcb pcb (fun r => { r with page_table := g.2.1 })
        if g.1 then (0, s1.setPcb pcb (fun r => { r with brk := some addr })) else (ERROR, s1)
      else
        let d := brkShrink (brk_page - new_brk_page).toNat (brk_page - 1)
          (s.pcb pcb).page_table s.frame_bitmap
        let s0 : Kernel := { s with frame_bitmap := d.2 }
        let s1 := s0.setPcb pcb (fun r => { r with page_table := d.1 })
        (0, s1.setPcb pcb (fun r => { r with brk := some addr }))

/-- The indices of the valid pages of a page table. -/
def validPages (pt : List pte_t) : List Nat :=
  (List.range pt.length).filter (fun i => (pt.getD i default).valid == 1)

/-! ### A machine with regions of equal size

Eight pages per region, pages of `0x2000` bytes, region 1 from `0x10000` to
`0x20000`: as on the real machine, `VMEM_1_BASE >> PAGESHIFT` is the number
of region-1 pages, which the page arithmetic of `SysBrk` relies on. -/

/-- The machine with eight pages per region. -/
def hw1 : Hardware :=
  { NUM_PAGES_REGION1 := 8, VMEM_0_PAGES := 8, KSTACK_PAGES := 2, KSTACK_START_PAGE := 6 }

/-- Addresses of `hw1`. -/
def lay1 : Layout :=
  { PAGESHIFT := 13, VMEM_1_BASE := 0x10000, VMEM_1_LIMIT := 0x20000, MAX_PT_LEN := 8 }

/-- Init on `hw1`: text page 0 (frame 8), data page 1 (frame 9), stack pages
6 and 7 (frames 10 and 11), no break set yet. -/
def init8 : pcb_t :=
  { blankPcb with
    pid := 1, state := .RUNNING,
    page_table := [⟨1, 5, 8⟩, ⟨1, 3, 9⟩, ⟨0, 0, 0⟩, ⟨0, 0, 0⟩, ⟨0, 0, 0⟩, ⟨0, 0, 0⟩,
                   ⟨1, 3, 10⟩, ⟨1, 3, 11⟩],
    kernel_stack := some [⟨1, 3, 4⟩, ⟨1, 3, 5⟩] }

/-- Idle on `hw1`: one stack page (frame 3). -/
def idle8 : pcb_t :=
  { blankPcb with
    pid := 0, state := .READY,
    page_table := [⟨0, 0, 0⟩, ⟨0, 0, 0⟩, ⟨0, 0, 0⟩, ⟨0, 0, 0⟩, ⟨0, 0, 0⟩, ⟨0, 0, 0⟩,
                   ⟨0, 0, 0⟩, ⟨1, 3, 3⟩],
    kernel_stack := some [⟨1, 3, 6⟩, ⟨1, 3, 7⟩] }

/-- Init runs on `hw1`; frames 0 to 11 are in use, 32 frames in all. -/
def initRuns8 : Kernel :=
  { bootKernel with
    heap := { pcb := fun p => if p = 0 then idle8 else if p = 1 then init8 else blankPcb,
              fault := false },
    ready_processes := pcb_queue_create,
    current_process := 1,
    frame_bitmap := [0xFF, 0x0F, 0, 0] }

/-- Init runs on `hw1` with 16 physical frames of which only frames 14 and
15 are free. -/
def lowMem8 : Kernel := { initRuns8 with frame_bitmap := [0xFF, 0x3F] }

/-- Init runs on `hw1` with 16 physical frames of which only frame 15 is free. -/
def lastFrame8 : Kernel := { initRuns8 with frame_bitmap := [0xFF, 0x7F] }

/-! ## Kernel heap and boot memory (`kernel.c`, `kernel.h`) -/

/-- Macro `NUM_FRAMES(pmem_size)`; the page size is `1 << PAGESHIFT`. -/
def NUM_FRAMES (lay : Layout) (pmem_size : Nat) : Nat := pmem_size / (1 <<< lay.PAGESHIFT)

/-- Macro `BIT_VECTOR_SIZE(num_frames)`. -/
def BIT_VECTOR_SIZE (num_frames : Nat) : Nat := (num_frames + 7) / 8

/-- The frame bitmap `KernelStart` allocates: `bit_vector_size` zero bytes
(`calloc`). -/
def initialBitmap (lay : Layout) (pmem_size : Nat) : List Nat :=
  List.replicate (BIT_VECTOR_SIZE (NUM_FRAMES lay pmem_size)) 0

/-- The values returned by `n` successive `GetFrame()` calls and the bitmap
they leave. -/
def getFrames : Nat → List Nat → List Int × List Nat
  | 0, bitmap => ([], bitmap)
  | n + 1, bitmap =>
    ((GetFrame bitmap).1 :: (getFrames n (GetFrame bitmap).2).1, (getFrames n (GetFrame bitmap).2).2)

/-- The static variables of `kernel.c` that `SetKernelBrk` reads and writes. -/
structure KernelHeap where
  current_kernel_brk_page : Int
  is_vm_enabled : Int
  page_table_region0 : List pte_t
  frame_bitmap : List Nat
deriving DecidableEq, Repr

/-- The lowering loop of `SetKernelBrk`, `n` rounds from page `i`: free the
frame of the entry and clear its valid bit. -/
def lowerKernelBrk : Nat → Nat → List pte_t → List Nat → List pte_t × List Nat
  | 0, _, pt, bitmap => (pt, bitmap)
  | n + 1, i, pt, bitmap =>
    lowerKernelBrk n (i + 1) (setPte pt i (fun e => { e with valid := 0 }))
      (FreeFrame bitmap (pt.getD i default).pfn)

/-- The raising loop of `SetKernelBrk`, `n` rounds from page `i`; the flag is
`false` when the loop returned `ERROR`. -/
def raiseKernelBrk (KERNEL_HEAP_MAX_PAGE : Nat) :
    Nat → Nat → List pte_t → List Nat → Bool × List pte_t × List Nat
  | 0, _, pt, bitmap => (true, pt, bitmap)
  | n + 1, i, pt, bitmap =>
    if i > KERNEL_HEAP_MAX_PAGE then (false, pt, bitmap)
    else if (GetFrame bitmap).1 = -1 then (false, pt, (GetFrame bitmap).2)
    else
      raiseKernelBrk KERNEL_HEAP_MAX_PAGE n (i + 1)
        (setPte pt i (fun e =>
          { e with valid := 1, pfn := (GetFrame bitmap).1, prot := PROT_READ ||| PROT_WRITE }))
        (GetFrame bitmap).2

/-- Function `SetKernelBrk`; `orig_kernel_brk_page` is the value of
`_orig_kernel_brk_page` and `KERNEL_HEAP_MAX_PAGE` is `KSTACK_START_PAGE - 1`. -/
def SetKernelBrk (hw : Hardware) (lay : Layout) (orig_kernel_brk_page : Nat) (m : KernelHeap)
    (addr : Nat) : Int × KernelHeap :=
  let new_brk_page : Nat := addr >>> lay.PAGESHIFT
  if new_brk_page < orig_kernel_brk_page then (ERROR, m)
  else if m.is_vm_enabled = 0 then (0, m)
  else if new_brk_page > hw.KSTACK_START_PAGE - 1 then (ERROR, m)
  else if (new_brk_page : Int) ≤ m.current_kernel_brk_page then
    let d := lowerKernelBrk (m.current_kernel_brk_page - new_brk_page).toNat new_brk_page
      m.page_table_region0 m.frame_bitmap
    (0, { m with page_table_region0 := d.1, frame_bitmap := d.2,
                 current_kernel_brk_page := new_brk_page })
  else
    let g := raiseKernelBrk (hw.KSTACK_START_PAGE - 1)
      ((new_brk_page : Int) - m.current_kernel_brk_page).toNat m.current_kernel_brk_page.toNat
      m.page_table_region0 m.frame_bitmap
    if g.1 then
      (0, { m with page_table_region0 := g.2.1, frame_bitmap := g.2.2,
                   current_kernel_brk_page := new_brk_page })
    else (ERROR, { m with page_table_region0 := g.2.1, frame_bitmap := g.2.2 })

/-- The first loop of `KernelStart` over the region-0 pages, `n` rounds from
page `i`: pages below `_orig_kernel_brk_page` are mapped to the frame of the
same number, which is marked used; text pages read/execute, the others
read/write. -/
def mapKernelImage (orig_kernel_brk_page first_kernel_data_page : Nat) :
    Nat → Nat → List pte_t → List Nat → List pte_t × List Nat
  | 0, _, pt, bitmap => (pt, bitmap)
  | n + 1, i, pt, bitmap =>
    if i < orig_kernel_brk_page then
      mapKernelImage orig_kernel_brk_page first_kernel_data_page n (i + 1)
        (setPte pt i (fun e =>
          { e with valid := 1, pfn := (i : Int),
                   prot := if i < first_kernel_data_page then PROT_READ ||| PROT_EXEC
                           else PROT_READ ||| PROT_WRITE }))
        (AllocateFrame bitmap (i : Int))
    else mapKernelImage orig_kernel_brk_page first_kernel_data_page n (i + 1) pt bitmap

/-- The second loop of `KernelStart`: the kernel stack pages are mapped to the
frames of the same numbers. -/
def mapKernelStack (hw : Hardware) (pt : List pte_t) : List pte_t :=
  (List.range hw.KSTACK_PAGES).foldl
    (fun t j => setPte t (hw.KSTACK_START_PAGE + j) (fun e =>
      { e with valid := 1, pfn := ((hw.KSTACK_START_PAGE + j : Nat) : Int),
               prot := PROT_READ ||| PROT_WRITE })) pt

/-- The memory set-up of `KernelStart` from its first statement to the end of
the two region-0 loops. `brk_calls` are the addresses of the `SetKernelBrk`
calls the allocations of this part make; virtual memory is still off. -/
def KernelStart_memory (hw : Hardware) (lay : Layout)
    (orig_kernel_brk_page first_kernel_data_page pmem_size : Nat) (brk_calls : List Nat) :
    KernelHeap :=
  let m0 : KernelHeap :=
    { current_kernel_brk_page := orig_kernel_brk_page, is_vm_enabled := 0,
      page_table_region0 := [], frame_bitmap := [] }
  let m1 := brk_calls.foldl (fun m a => (SetKernelBrk hw lay orig_kernel_brk_page m a).2)
    { m0 with frame_bitmap := initialBitmap lay pmem_size,
              page_table_region0 := List.replicate hw.VMEM_0_PAGES ⟨0, 0, 0⟩ }
  let r := mapKernelImage orig_kernel_brk_page first_kernel_data_page hw.VMEM_0_PAGES 0
    m1.page_table_region0 m1.frame_bitmap
  { m1 with page_table_region0 := mapKernelStack hw r.1, frame_bitmap := r.2 }

/-! ## Stack growth (`kernel.c`, `trap_handler.c`) -/

/-- The search for the lowest page of the stack, `n` rounds from page `n - 1`
downwards: stop at the first page that is not valid; `acc` is
`lowest_stack_page`. -/
def lowestStackPage (pt : List pte_t) : Nat → Int → Int
  | 0, acc => acc
  | n + 1, acc => if (pt.getD n default).valid = 0 then acc else lowestStackPage pt n (n : Int)

/-- Function `IsAddressBelowStackAndAboveBreak`; a null `brk` is address 0 and
`stack_bottom` is an `unsigned int`. -/
def IsAddressBelowStackAndAboveBreak (hw : Hardware) (lay : Layout) (s : Kernel) (addr : Nat) :
    Bool :=
  let current_pcb := s.current_process
  let lowest_stack_page := lowestStackPage (s.pcb current_pcb).page_table hw.NUM_PAGES_REGION1 (-1)
  let stack_bottom : Int :=
    ((lay.VMEM_1_BASE : Int) + lowest_stack_page * 2 ^ lay.PAGESHIFT) % 2 ^ 32
  decide ((addr : Int) < stack_bottom) &&
    decide (addr > ((s.pcb current_pcb).brk).getD 0)

/-- The call `memset((void *)SCRATCH_ADDR, 0, PAGESIZE)`: every byte of the frame
mapped at the scratch page becomes 0. -/
def zeroScratch (hw : Hardware) (s : Kernel) : Kernel :=
  let dst := (s.page_table_region0.getD hw.scratch_vpn default).pfn
  { s with pmem := fun f => if f = dst then (s.pmem f).map (fun _ => 0) else s.pmem f }

/-- The allocation loop of `GrowStackToAddress`, `n` rounds from page `i`; the
flag is `false` when the loop returned `ERROR`. -/
def growStackLoop (hw : Hardware) (pcb : Ptr) : Nat → Int → Kernel → Bool × Kernel
  | 0, _, s => (true, s)
  | n + 1, i, s =>
    if (GetFrame s.frame_bitmap).1 = -1 then
      (false, { s with frame_bitmap := (GetFrame s.frame_bitmap).2 })
    else
      let frame := (GetFrame s.frame_bitmap).1
      let s0 : Kernel := { s with frame_bitmap := (GetFrame s.frame_bitmap).2 }
      let s1 := s0.setPcb pcb (fun r =>
        { r with page_table := setPteAt r.page_table i (fun e =>
            { e with valid := 1, pfn := frame, prot := PROT_READ ||| PROT_WRITE }) })
      growStackLoop hw pcb n (i + 1) (UnmapScratch hw (zeroScratch hw (MapScratch hw s1 frame)))

/-- Function `GrowStackToAddress`; `addr_val - VMEM_1_BASE` is computed on
`unsigned int`. -/
def GrowStackToAddress (hw : Hardware) (lay : Layout) (s : Kernel) (addr : Nat) : Int × Kernel :=
  let current_pcb := s.current_process
  let target_page : Int :=
    (((((addr : Int) - (lay.VMEM_1_BASE : Int)) % 2 ^ 32).toNat >>> lay.PAGESHIFT : Nat) : Int)
  let lowest_stack_page := lowestStackPage (s.pcb current_pcb).page_table hw.NUM_PAGES_REGION1 (-1)
  if lowest_stack_page = -1 then (ERROR, s)
  else
    let g := growStackLoop hw current_pcb (lowest_stack_page - target_page).toNat target_page s
    if g.1 then (SUCCESS, g.2) else (ERROR, g.2)

/-- Function `TrapMemoryHandler` for the faulting address `addr`. -/
def TrapMemoryHandler (hw : Hardware) (lay : Layout) (s : Kernel) (addr : Nat) : Kernel :=
  if IsRegion1Address lay addr && IsAddressBelowStackAndAboveBreak hw lay s addr then
    if (GrowStackToAddress hw lay s addr).1 = ERROR then
      SysExit hw (GrowStackToAddress hw lay s addr).2 ERROR
    else (GrowStackToAddress hw lay s addr).2
  else SysExit hw s ERROR

/-! ## Program loading and `SysExec` (`kernel.c`, `syscalls.c`)

The executable file and the results of the file operations on it are inputs
of the loader. The contents of the loaded pages and the user stack built at
the end are not part of the model; page tables and the frame bitmap are. -/

/-- What `LoadProgram` learns from the file system and from `LoadInfo`, and
the number of stack pages it computes from the argument strings. -/
structure Program where
  /-- The call `open(name, O_RDONLY)` succeeds. -/
  opens : Bool
  /-- The call `LoadInfo(fd, &li)` returns `LI_NO_ERROR`. -/
  format_ok : Bool
  /-- Field `li.entry`. -/
  entry : Nat
  /-- Field `li.t_vaddr`. -/
  t_vaddr : Nat
  /-- Field `li.id_vaddr`. -/
  id_vaddr : Nat
  /-- Field `li.t_npg`. -/
  t_npg : Int
  /-- Field `li.id_npg`. -/
  id_npg : Int
  /-- Field `li.ud_npg`. -/
  ud_npg : Int
  /-- The value of `stack_npg`. -/
  stack_npg : Int
  /-- The `read` of the text segment returns `segment_size`. -/
  text_read_ok : Bool
  /-- The `read` of the data segment returns `segment_size`. -/
  data_read_ok : Bool
deriving DecidableEq, Repr

/-- The three kinds of `return` statement of `LoadProgram`. -/
inductive LoadCode where
  | success
  | error
  | kill
deriving DecidableEq, Repr

/-- The `int` returned: `SUCCESS`, `ERROR` (also written `-1`) or `KILL`, a
constant of `ykernel.h`. -/
def LoadCode.toInt (KILL : Int) : LoadCode → Int
  | .success => SUCCESS
  | .error => ERROR
  | .kill => KILL

/-- The loops of `LoadProgram` that throw pages away, `n` rounds from page `i`:
for every valid page free the frame and clear the valid bit. -/
def freePages : Nat → Int → List pte_t → List Nat → List pte_t × List Nat
  | 0, _, pt, bitmap => (pt, bitmap)
  | n + 1, i, pt, bitmap =>
    if (pteAt pt i).valid ≠ 0 then
      freePages n (i + 1) (setPteAt pt i (fun e => { e with valid := 0 }))
        (FreeFrame bitmap (pteAt pt i).pfn)
    else freePages n (i + 1) pt bitmap

/-- One allocation loop of `LoadProgram` for the segment of `npg` pages from
page `first`, `n` rounds from page `i`. When `GetFrame` fails the valid pages
of this segment are freed and the flag is `false`. -/
def mapSegment (first npg : Int) : Nat → Int → List pte_t → List Nat → Bool × List pte_t × List Nat
  | 0, _, pt, bitmap => (true, pt, bitmap)
  | n + 1, i, pt, bitmap =>
    if (GetFrame bitmap).1 < 0 then
      (false, (freePages npg.toNat first pt (GetFrame bitmap).2).1,
        (freePages npg.toNat first pt (GetFrame bitmap).2).2)
    else
      mapSegment first npg n (i + 1)
        (setPteAt pt i (fun e =>
          { e with valid := 1, pfn := (GetFrame bitmap).1, prot := PROT_READ ||| PROT_WRITE }))
        (GetFrame bitmap).2

/-- The last loop of `LoadProgram`: the text pages become read/execute. -/
def protectText (text_pg1 : Int) : Nat → Int → List pte_t → List pte_t
  | 0, _, pt => pt
  | n + 1, i, pt =>
    protectText text_pg1 n (i + 1)
      (setPteAt pt (text_pg1 + i) (fun e => { e with prot := PROT_READ ||| PROT_EXEC }))

/-- Function `LoadProgram`, with the kind of `return` statement reached. -/
def LoadProgramCore (lay : Layout) (s : Kernel) (prog : Program) (proc : Ptr) :
    LoadCode × Kernel :=
  if !prog.opens then (.error, s)
  else if !prog.format_ok then (.error, s)
  else if prog.entry < lay.VMEM_1_BASE then (.error, s)
  else
    let text_pg1 : Int :=
      (((((prog.t_vaddr : Int) - (lay.VMEM_1_BASE : Int)) % 2 ^ 32).toNat >>> lay.PAGESHIFT : Nat) :
        Int)
    let data_pg1 : Int :=
      (((((prog.id_vaddr : Int) - (lay.VMEM_1_BASE : Int)) % 2 ^ 32).toNat >>> lay.PAGESHIFT : Nat) :
        Int)
    let data_npg := prog.id_npg + prog.ud_npg
    if prog.stack_npg + data_pg1 + data_npg ≥ (lay.MAX_PT_LEN : Int) then (.error, s)
    else
      let w := freePages lay.MAX_PT_LEN 0 (s.pcb proc).page_table s.frame_bitmap
      let t := mapSegment text_pg1 prog.t_npg prog.t_npg.toNat text_pg1 w.1 w.2
      let st (pt : List pte_t) (bitmap : List Nat) : Kernel :=
        { s with frame_bitmap := bitmap }.setPcb proc (fun r => { r with page_table := pt })
      if !t.1 then (.error, st t.2.1 t.2.2)
      else
        let d := mapSegment data_pg1 data_npg data_npg.toNat data_pg1 t.2.1 t.2.2
        if !d.1 then (.error, st d.2.1 d.2.2)
        else
          let k := mapSegment ((lay.MAX_PT_LEN : Int) - prog.stack_npg) prog.stack_npg
            prog.stack_npg.toNat ((lay.MAX_PT_LEN : Int) - prog.stack_npg) d.2.1 d.2.2
          if !k.1 then (.error, st k.2.1 k.2.2)
          else if !prog.text_read_ok then (.kill, st k.2.1 k.2.2)
          else if !prog.data_read_ok then (.kill, st k.2.1 k.2.2)
          else (.success, st (protectText text_pg1 prog.t_npg.toNat 0 k.2.1) k.2.2)

/-- Function `LoadProgram`. -/
def LoadProgram (lay : Layout) (KILL : Int) (s : Kernel) (prog : Program) (proc : Ptr) :
    Int × Kernel :=
  ((LoadProgramCore lay s prog proc).1.toInt KILL, (LoadProgramCore lay s prog proc).2)

/-- Function `SysExec`. -/
def SysExec (lay : Layout) (KILL : Int) (s : Kernel) (prog : Program) : Int × Kernel :=
  if (LoadProgram lay KILL s prog s.current_process).1 ≠ SUCCESS then
    (ERROR, (LoadProgram lay KILL s prog s.current_process).2)
  else (SUCCESS, (LoadProgram lay KILL s prog s.current_process).2)

/-- The `YALNIX_EXEC` case of `TrapKernelHandler`: the value left in register 0
when `SysExec` fails, and the state in which the handler returns to user
mode. -/
def TrapKernelHandler_EXEC (lay : Layout) (KILL : Int) (s : Kernel) (prog : Program) :
    Int × Kernel :=
  SysExec lay KILL s prog

/-- A program of two text pages, three data pages and one stack page. -/
def sixPages : Program :=
  { opens := true, format_ok := true, entry := 0x10000, t_vaddr := 0x10000,
    id_vaddr := 0x14000, t_npg := 2, id_npg := 2, ud_npg := 1, stack_npg := 1,
    text_read_ok := true, data_read_ok := true }

/-- A program of two text pages, four data pages and one stack page. -/
def sevenPages : Program :=
  { opens := true, format_ok := true, entry := 0x10000, t_vaddr := 0x10000,
    id_vaddr := 0x14000, t_npg := 2, id_npg := 3, ud_npg := 1, stack_npg := 1,
    text_read_ok := true, data_read_ok := true }

/-- A program of one text page, two data pages and one stack page whose text
segment cannot be read from the file. -/
def unreadable : Program :=
  { opens := true, format_ok := true, entry := 0x10000, t_vaddr := 0x10000,
    id_vaddr := 0x12000, t_npg := 1, id_npg := 1, ud_npg := 1, stack_npg := 1,
    text_read_ok := false, data_read_ok := true }

/-! ## Pointer checks of the system-call handler (`trap_handler.c`) -/

/-- Addresses of `hw0`: pages of `0x2000` bytes, region 1 from `0x10000` to
`0x18000` (four pages). -/
def lay0 : Layout :=
  { PAGESHIFT := 13, VMEM_1_BASE := 0x10000, VMEM_1_LIMIT := 0x18000, MAX_PT_LEN := 4 }

/-- The user addresses of the bytes of the `int` at address `p`
(`sizeof(int)` is 4). -/
def intBytes (p : Nat) : List Nat := [p, p + 1, p + 2, p + 3]

/-- What a case of `TrapKernelHandler` did: whether it called `SysExit(ERROR)`
for the caller, the value `rc` it got from the system call (if the call
returned), the user addresses the system call stored to, and the kernel
state. -/
structure TrapResult where
  exited : Bool
  rc : Option Int
  stored : List Nat
  state : Kernel

/-- The `YALNIX_WAIT` case of `TrapKernelHandler`; `user_status` is register 0.
`SysWait` stores the exit status with `*status_ptr = pcb->exit_status`. -/
def TrapKernelHandler_WAIT (hw : Hardware) (lay : Layout) (s : Kernel) (user_status : Nat) :
    TrapResult :=
  if !IsRegion1Address lay user_status then
    { exited := true, rc := none, stored := [], state := SysExit hw s ERROR }
  else
    { exited := false, rc := (SysWait hw s).rc,
      stored := if (SysWait hw s).status.isSome then intBytes user_status else [],
      state := (SysWait hw s).state }

/-- The test of the `YALNIX_LOCK_INIT`, `YALNIX_CVAR_INIT` and
`YALNIX_PIPE_INIT` cases on their `int *` argument: `true` when the handler
calls `SysExit(ERROR)`. -/
def intPointerRejected (lay : Layout) (p : Nat) : Bool :=
  !IsRegion1Address lay p || !IsRegion1Address lay (p + 4 - 1)

/-! ## Terminals (`tty.h`, `tty.c`, `trap_handler.c`)

The array `tty_data` is a map from terminal numbers to records; the constants
`NUM_TERMINALS` and `TERMINAL_MAX_LINE` of `hardware.h` are parameters. The
terminal fields of `struct pcb` and the saved user registers 0 to 2 are kept
in a map from PCB pointers to records. Allocations succeed. -/

/-- The record `tty_data_t`; a buffer is the list of its bytes and `NULL` is
`none`. -/
structure tty_data_t where
  read_queue : pcb_queue_t
  write_queue : pcb_queue_t
  read_buffer : List Nat
  read_buffer_len : Int
  write_buffer : Option (List Nat)
  write_buffer_len : Int
  write_buffer_position : Int
  current_writer : Option Ptr
  in_use : Int
deriving DecidableEq, Repr

/-- The fields of `struct pcb` used by the terminal code, and
`user_context.regs[0..2]`. -/
structure pcb_tty_t where
  tty_read_buf : Nat
  tty_read_len : Int
  tty_write_buf : Nat
  tty_write_len : Int
  kernel_read_buffer : Option (List Nat)
  kernel_read_size : Int
  regs0 : Int
  regs1 : Int
  regs2 : Int
deriving DecidableEq, Repr

/-- The kernel state together with the terminals. `transmitted` lists the
`TtyTransmit` calls made so far: terminal and bytes handed to the device. -/
structure TtyKernel where
  kernel : Kernel
  tty_data : Int → tty_data_t
  tty_pcb : Ptr → pcb_tty_t
  transmitted : List (Int × List Nat)

/-- Write to the record of a terminal. -/
def TtyKernel.setTty (t : TtyKernel) (terminal : Int) (f : tty_data_t → tty_data_t) : TtyKernel :=
  { t with tty_data := fun j => if j = terminal then f (t.tty_data j) else t.tty_data j }

/-- Write to the terminal fields of a PCB. -/
def TtyKernel.setPcbTty (t : TtyKernel) (p : Ptr) (f : pcb_tty_t → pcb_tty_t) : TtyKernel :=
  { t with tty_pcb := fun q => if q = p then f (t.tty_pcb q) else t.tty_pcb q }

/-- The record `InitTTY` leaves for every terminal. -/
def initialTty (TERMINAL_MAX_LINE : Nat) : tty_data_t :=
  { read_queue := pcb_queue_create, write_queue := pcb_queue_create,
    read_buffer := List.replicate TERMINAL_MAX_LINE 0, read_buffer_len := 0,
    write_buffer := none, write_buffer_len := 0, write_buffer_position := 0,
    current_writer := none, in_use := 0 }

/-- The terminal fields `CreatePCB` leaves in a PCB. -/
def initialPcbTty : pcb_tty_t :=
  { tty_read_buf := 0, tty_read_len := 0, tty_write_buf := 0, tty_write_len := 0,
    kernel_read_buffer := none, kernel_read_size := 0, regs0 := 0, regs1 := 0, regs2 := 0 }

/-- The call `memmove(buffer, buffer + k, n)`. -/
def memmoveFront (buffer : List Nat) (k n : Nat) : List Nat :=
  (buffer.drop k).take n ++ buffer.drop n

/-- The byte at the user address `addr` in the address space of the current
process; `none` when the address is outside region 1 or its page is not
valid. -/
def userByte (lay : Layout) (s : Kernel) (addr : Nat) : Option Nat :=
  if IsRegion1Address lay addr then
    let e := (s.pcb s.current_process).page_table.getD
      ((addr - lay.VMEM_1_BASE) >>> lay.PAGESHIFT) default
    if e.valid = 1 then some ((s.pmem e.pfn).getD (addr % 2 ^ lay.PAGESHIFT) 0) else none
  else none

/-- The `len` bytes at the user address `buf`, read in the address space of
the current process. -/
def userBytes (lay : Layout) (s : Kernel) (buf : Nat) (len : Nat) : Option (List Nat) :=
  (List.range len).mapM (fun i => userByte lay s (buf + i))

/-- Function `StartTtyWrite`. The source of the `memcpy` is read in the address
space that is active when the function runs; a source byte that is not
mapped is a fault. -/
def StartTtyWrite (lay : Layout) (TERMINAL_MAX_LINE : Nat) (t : TtyKernel) (terminal : Int)
    (writer : Ptr) (buf : Nat) (len : Int) : TtyKernel :=
  match userBytes lay t.kernel buf len.toNat with
  | none => { t with kernel := { t.kernel with heap := { t.kernel.heap with fault := true } } }
  | some bytes =>
    let to_write := if len > TERMINAL_MAX_LINE then (TERMINAL_MAX_LINE : Int) else len
    let t1 := t.setTty terminal (fun tty =>
      { tty with write_buffer := some bytes, write_buffer_len := len,
                 write_buffer_position := to_write, current_writer := some writer })
    { t1 with transmitted := t1.transmitted ++ [(terminal, bytes.take to_write.toNat)] }

/-- Function `SysTtyRead` up to its return or its context switch; `none` when
the caller has been suspended on the read queue of the terminal (it then
returns its saved register 0). -/
def SysTtyRead (hw : Hardware) (NUM_TERMINALS : Nat) (t : TtyKernel) (tty_id : Int) (buf : Nat)
    (len : Int) : Option Int × TtyKernel :=
  if tty_id < 0 ∨ tty_id ≥ NUM_TERMINALS ∨ buf = 0 ∨ len ≤ 0 then (some ERROR, t)
  else
    let tty := t.tty_data tty_id
    let pcb := t.kernel.current_process
    if tty.read_buffer_len > 0 then
      let bytes_to_copy := if len < tty.read_buffer_len then len else tty.read_buffer_len
      let temp_buffer := tty.read_buffer.take bytes_to_copy.toNat
      let t1 := t.setPcbTty pcb (fun r =>
        { r with kernel_read_buffer := some temp_buffer, kernel_read_size := bytes_to_copy })
      let t2 :=
        if bytes_to_copy < tty.read_buffer_len then
          t1.setTty tty_id (fun y =>
            { y with read_buffer := memmoveFront y.read_buffer bytes_to_copy.toNat
                       (y.read_buffer_len - bytes_to_copy).toNat })
        else t1
      (some bytes_to_copy,
       t2.setTty tty_id (fun y => { y with read_buffer_len := y.read_buffer_len - bytes_to_copy }))
    else
      let t1 := t.setPcbTty pcb (fun r => { r with tty_read_buf := buf, tty_read_len := len })
      let en := pcb_enqueue t1.kernel.heap tty.read_queue pcb
      let t2 := { t1 with kernel := { t1.kernel with heap := en.1 } }.setTty tty_id
        (fun y => { y with read_queue := en.2 })
      let s3 := enqueueBlocked (t2.kernel.setPcb pcb (fun r => { r with state := .BLOCKED })) pcb
      (none, { t2 with kernel := KCSwitch hw (pickNext s3).2 pcb (pickNext s3).1 })

/-- The call `TtyReceive(terminal, read_buffer + read_buffer_len,
TERMINAL_MAX_LINE - read_buffer_len)` for the pending input `line`, followed
by `tty->read_buffer_len += len`: the device copies as much of the line as
the given length allows and returns the number of bytes copied. -/
def ttyReceive (TERMINAL_MAX_LINE : Nat) (tty : tty_data_t) (line : List Nat) : tty_data_t :=
  let received := line.take ((TERMINAL_MAX_LINE : Int) - tty.read_buffer_len).toNat
  { tty with
    read_buffer := tty.read_buffer.take tty.read_buffer_len.toNat ++ received ++
      tty.read_buffer.drop (tty.read_buffer_len.toNat + received.length),
    read_buffer_len := tty.read_buffer_len + received.length }

/-- Function `TrapTtyReceiveHandler` for terminal `terminal` with the pending
input `line`. -/
def TrapTtyReceiveHandler (TERMINAL_MAX_LINE : Nat) (t : TtyKernel) (terminal : Int)
    (line : List Nat) : TtyKernel :=
  let t1 := t.setTty terminal (fun y => ttyReceive TERMINAL_MAX_LINE y line)
  let tty := t1.tty_data terminal
  match tty.read_queue.head with
  | none => t1
  | some reader =>
    let dq := pcb_dequeue t1.kernel.heap tty.read_queue
    let t2 := t1.setTty terminal (fun y => { y with read_queue := dq.2 })
    let bytes_to_copy :=
      if (t2.tty_pcb reader).tty_read_len < tty.read_buffer_len then (t2.tty_pcb reader).tty_read_len
      else tty.read_buffer_len
    let temp_buffer := tty.read_buffer.take bytes_to_copy.toNat
    let t3 := t2.setPcbTty reader (fun r =>
      { r with kernel_read_buffer := some temp_buffer, kernel_read_size := bytes_to_copy,
               regs0 := bytes_to_copy })
    let t4 :=
      if bytes_to_copy < tty.read_buffer_len then
        t3.setTty terminal (fun y =>
          { y with read_buffer := memmoveFront y.read_buffer bytes_to_copy.toNat
                     (y.read_buffer_len - bytes_to_copy).toNat,
                   read_buffer_len := y.read_buffer_len - bytes_to_copy })
      else t3.setTty terminal (fun y => { y with read_buffer_len := 0 })
    { t4 with kernel := wakeProcess t4.kernel reader }

/-- Function `SysTtyWrite` up to its context switch; the caller returns `len` when
it is dispatched again. -/
def SysTtyWrite (hw : Hardware) (lay : Layout) (NUM_TERMINALS TERMINAL_MAX_LINE : Nat)
    (t : TtyKernel) (tty_id : Int) (buf : Nat) (len : Int) : Outcome × TtyKernel :=
  if tty_id < 0 ∨ tty_id ≥ NUM_TERMINALS ∨ buf = 0 ∨ len ≤ 0 then (.returned ERROR, t)
  else
    let pcb := t.kernel.current_process
    let t1 := t.setPcbTty pcb (fun r => { r with tty_write_buf := buf, tty_write_len := len })
    let t2 :=
      if (t1.tty_data tty_id).in_use = 0 then
        StartTtyWrite lay TERMINAL_MAX_LINE (t1.setTty tty_id (fun y => { y with in_use := 1 }))
          tty_id pcb buf len
      else
        let en := pcb_enqueue t1.kernel.heap (t1.tty_data tty_id).write_queue pcb
        { t1 with kernel := { t1.kernel with heap := en.1 } }.setTty tty_id
          (fun y => { y with write_queue := en.2 })
    let s3 := enqueueBlocked (t2.kernel.setPcb pcb (fun r => { r with state := .BLOCKED })) pcb
    (.suspended len, { t2 with kernel := KCSwitch hw (pickNext s3).2 pcb (pickNext s3).1 })

/-- The `YALNIX_TTY_WRITE` case of `TrapKernelHandler`: registers 0 to 2 hold the
terminal, the buffer and the length. After the range test the user context is
saved in the PCB and `SysTtyWrite` runs. -/
def TrapKernelHandler_TTY_WRITE (hw : Hardware) (lay : Layout)
    (NUM_TERMINALS TERMINAL_MAX_LINE : Nat) (t : TtyKernel) (terminal : Int) (buffer : Nat)
    (length : Int) : Outcome × TtyKernel :=
  if !IsRegion1Address lay buffer ||
      !IsRegion1Address lay (((buffer : Int) + length - 1) % 2 ^ 32).toNat then
    (.returned ERROR, { t with kernel := SysExit hw t.kernel ERROR })
  else
    SysTtyWrite hw lay NUM_TERMINALS TERMINAL_MAX_LINE
      (t.setPcbTty t.kernel.current_process (fun r =>
        { r with regs0 := terminal, regs1 := buffer, regs2 := length }))
      terminal buffer length

/-- Function `TrapTtyTransmitHandler` for terminal `terminal`. -/
def TrapTtyTransmitHandler (lay : Layout) (TERMINAL_MAX_LINE : Nat) (t : TtyKernel)
    (terminal : Int) : TtyKernel :=
  let tty := t.tty_data terminal
  if tty.write_buffer_position < tty.write_buffer_len then
    let remaining := tty.write_buffer_len - tty.write_buffer_position
    let to_write := if remaining > TERMINAL_MAX_LINE then (TERMINAL_MAX_LINE : Int) else remaining
    let chunk := (((tty.write_buffer).getD []).drop tty.write_buffer_position.toNat).take
      to_write.toNat
    let t1 : TtyKernel := { t with transmitted := t.transmitted ++ [(terminal, chunk)] }
    t1.setTty terminal (fun y =>
      { y with write_buffer_position := y.write_buffer_position + to_write })
  else
    let t1 := t.setTty terminal (fun y => { y with write_buffer := none, current_writer := none })
    let t2 :=
      match tty.current_writer with
      | some writer =>
        let t1a := t1.setPcbTty writer (fun r => { r with regs0 := r.tty_write_len })
        { t1a with kernel := wakeProcess t1a.kernel writer }
      | none => t1
    match (t2.tty_data terminal).write_queue.head with
    | some next_writer =>
      let dq := pcb_dequeue t2.kernel.heap (t2.tty_data terminal).write_queue
      let t3 := t2.setTty terminal (fun y => { y with write_queue := dq.2, in_use := 1 })
      StartTtyWrite lay TERMINAL_MAX_LINE t3 terminal next_writer (t3.tty_pcb next_writer).regs1.toNat
        (t3.tty_pcb next_writer).regs2
    | none => t2.setTty terminal (fun y => { y with in_use := 0 })

/-! ### Trace: two writers on one terminal

On `hw0`, init has forked a child. Both have filled the first two bytes of
their stack page (user address `0x16000`): init with 65, 66 (frame 10), the
child with 67, 68 (frame 13). The stack page of idle (frame 3) starts with
the byte 3. -/

/-- The state before the two writes: init runs, the child is ready, terminal
0 is free; lines of at most 4 bytes. -/
def twoWriters : TtyKernel :=
  { kernel :=
      { forkedOnce with
        pmem := fun f => if f = 10 then [65, 66] else if f = 13 then [67, 68]
                         else forkedOnce.pmem f },
    tty_data := fun _ => initialTty 4,
    tty_pcb := fun _ => initialPcbTty,
    transmitted := [] }

/-- Init has called `TtyWrite(0, 0x16000, 2)`: the child runs. -/
def firstWrite : TtyKernel := (TrapKernelHandler_TTY_WRITE hw0 lay0 1 4 twoWriters 0 0x16000 2).2

/-- The child has called `TtyWrite(0, 0x16000, 2)`: idle runs. -/
def secondWrite : TtyKernel := (TrapKernelHandler_TTY_WRITE hw0 lay0 1 4 firstWrite 0 0x16000 2).2

/-- The transmit interrupt for the write of init has been handled. -/
def firstDone : TtyKernel := TrapTtyTransmitHandler lay0 4 secondWrite 0

/-- The transmit interrupt for the write of the child has been handled. -/
def secondDone : TtyKernel := TrapTtyTransmitHandler lay0 4 firstDone 0
/-- A read of `n` bytes from a terminal whose record `before` holds
`b = read_buffer_len` buffered bytes delivered a prefix: the reader got
`count = min(n, b)`, its staging buffer holds the first `min(n, b)` buffered
bytes (and `kernel_read_size` is their number), and the record `after` holds
the remaining `b - min(n, b)` bytes, in their order, from offset 0. -/
def deliversFirstBytes (before : tty_data_t) (n count : Int) (staging : Option (List Nat))
    (size : Int) (after : tty_data_t) : Prop :=
  count = min n before.read_buffer_len ∧
  staging = some (before.read_buffer.take (min n before.read_buffer_len).toNat) ∧
  size = min n before.read_buffer_len ∧
  after.read_buffer_len = before.read_buffer_len - min n before.read_buffer_len ∧
  after.read_buffer.take (before.read_buffer_len - min n before.read_buffer_len).toNat =
    (before.read_buffer.take before.read_buffer_len.toNat).drop
      (min n before.read_buffer_len).toNat

/-- The line 10, 20, 30 has arrived on terminal 0 while nobody was reading. -/
def lineBuffered : TtyKernel := TrapTtyReceiveHandler 4 twoWriters 0 [10, 20, 30]

/-- Init has called `TtyRead(0, 0x16000, 2)` on the empty terminal 0 and
waits. -/
def readerWaits : TtyKernel := (SysTtyRead hw0 1 twoWriters 0 0x16000 2).2

/-! ## Theorems -/



/-! ### Frame allocator -/

theorem and_shift_eq_zero_iff (b j : Nat) : b &&& (1 <<< j) = 0 ↔ b.testBit j = false := by
  rw [Nat.one_shiftLeft, Nat.and_two_pow]
  cases h : b.testBit j <;> simp

theorem findClearBit_some (b : Nat) : ∀ (n j k : Nat), findClearBit b n j = some k →
    j ≤ k ∧ k < j + n ∧ b.testBit k = false ∧ ∀ m, j ≤ m → m < k → b.testBit m = true := by
  intro n
  induction n with
  | zero => intro j k h; simp [findClearBit] at h
  | succ n ih =>
    intro j k h
    unfold findClearBit at h
    by_cases hb : b &&& (1 <<< j) = 0
    · rw [if_pos hb] at h
      have hk : j = k := by simpa using h
      subst hk
      refine ⟨le_refl _, by omega, (and_shift_eq_zero_iff b j).1 hb, ?_⟩
      intro m h1 h2; omega
    · rw [if_neg hb] at h
      obtain ⟨h1, h2, h3, h4⟩ := ih (j + 1) k h
      refine ⟨by omega, by omega, h3, ?_⟩
      intro m hm1 hm2
      by_cases hmj : m = j
      · subst hmj
        have : ¬ b.testBit m = false := fun hc => hb ((and_shift_eq_zero_iff b m).2 hc)
        simpa using this
      · exact h4 m (by omega) hm2

theorem findClearBit_none (b : Nat) : ∀ (n j : Nat), findClearBit b n j = none →
    ∀ m, j ≤ m → m < j + n → b.testBit m = true := by
  intro n
  induction n with
  | zero => intro j _ m h1 h2; omega
  | succ n ih =>
    intro j h m h1 h2
    unfold findClearBit at h
    by_cases hb : b &&& (1 <<< j) = 0
    · rw [if_pos hb] at h; simp at h
    · rw [if_neg hb] at h
      by_cases hmj : m = j
      · subst hmj
        have : ¬ b.testBit m = false := fun hc => hb ((and_shift_eq_zero_iff b m).2 hc)
        simpa using this
      · exact ih (j + 1) h m (by omega) (by omega)

theorem frameBit_cons_lt (b : Nat) (rest : List Nat) (f : Nat) (h : f < 8) :
    frameBit (b :: rest) f = b.testBit f := by
  unfold frameBit
  have h1 : f / 8 = 0 := by omega
  have h2 : f % 8 = f := by omega
  rw [h1, h2]; rfl

theorem frameBit_cons_add (b : Nat) (rest : List Nat) (f : Nat) :
    frameBit (b :: rest) (f + 8) = frameBit rest f := by
  unfold frameBit
  have h1 : (f + 8) / 8 = f / 8 + 1 := by omega
  have h2 : (f + 8) % 8 = f % 8 := by omega
  rw [h1, h2]; rfl

theorem GetFrameLoop_length : ∀ (l : List Nat) (i : Nat), (GetFrameLoop l i).2.length = l.length := by
  intro l
  induction l with
  | nil => intro i; rfl
  | cons b rest ih =>
    intro i
    unfold GetFrameLoop
    cases h : findClearBit b 8 0 with
    | some j => simp
    | none => simp [ih]

theorem GetFrameLoop_full : ∀ (l : List Nat) (i : Nat),
    (∀ f, f < 8 * l.length → frameBit l f = true) → GetFrameLoop l i = (-1, l) := by
  intro l
  induction l with
  | nil => intro i _; rfl
  | cons b rest ih =>
    intro i hall
    unfold GetFrameLoop
    cases h : findClearBit b 8 0 with
    | some j =>
      exfalso
      obtain ⟨_, h2, h3, _⟩ := findClearBit_some b 8 0 j h
      have hj : j < 8 := by omega
      have := hall j (by simp; omega)
      rw [frameBit_cons_lt b rest j hj] at this
      rw [h3] at this; exact Bool.noConfusion this
    | none =>
      have hrest : ∀ f, f < 8 * rest.length → frameBit rest f = true := by
        intro f hf
        have := hall (f + 8) (by simp; omega)
        rwa [frameBit_cons_add] at this
      simp [ih (i + 1) hrest]

theorem GetFrameLoop_found : ∀ (l : List Nat) (i : Nat),
    (∃ f, f < 8 * l.length ∧ frameBit l f = false) →
    ∃ g, g < 8 * l.length ∧ (GetFrameLoop l i).1 = ((i * 8 + g : Nat) : Int) ∧
      frameBit l g = false ∧ (∀ h, h < g → frameBit l h = true) ∧
      frameBit (GetFrameLoop l i).2 g = true ∧
      (∀ h, h ≠ g → frameBit (GetFrameLoop l i).2 h = frameBit l h) := by
  intro l
  induction l with
  | nil => intro i ⟨f, hf, _⟩; simp at hf
  | cons b rest ih =>
    intro i hex
    unfold GetFrameLoop
    cases hfc : findClearBit b 8 0 with
    | some j =>
      obtain ⟨_, h2, h3, h4⟩ := findClearBit_some b 8 0 j hfc
      have hj : j < 8 := by omega
      refine ⟨j, by simp; omega, rfl, ?_, ?_, ?_, ?_⟩
      · rw [frameBit_cons_lt b rest j hj]; exact h3
      · intro h hh
        rw [frameBit_cons_lt b rest h (by omega)]
        exact h4 h (Nat.zero_le _) hh
      · show frameBit (((b ||| (1 <<< j)) % 256) :: rest) j = true
        rw [frameBit_cons_lt _ rest j hj]
        have : (256 : Nat) = 2 ^ 8 := by norm_num
        rw [this, Nat.testBit_mod_two_pow, Nat.testBit_or, Nat.one_shiftLeft]
        simp [hj]
      · intro h hne
        show frameBit (((b ||| (1 <<< j)) % 256) :: rest) h = frameBit (b :: rest) h
        by_cases hh : h < 8
        · rw [frameBit_cons_lt _ rest h hh, frameBit_cons_lt _ rest h hh]
          have : (256 : Nat) = 2 ^ 8 := by norm_num
          rw [this, Nat.testBit_mod_two_pow, Nat.testBit_or, Nat.one_shiftLeft,
            Nat.testBit_two_pow]
          have hjh : ¬ j = h := fun e => hne e.symm
          simp [hh, hjh]
        · obtain ⟨k, rfl⟩ : ∃ k, h = k + 8 := ⟨h - 8, by omega⟩
          rw [frameBit_cons_add, frameBit_cons_add]
    | none =>
      have hb := findClearBit_none b 8 0 hfc
      have hex2 : ∃ f, f < 8 * rest.length ∧ frameBit rest f = false := by
        obtain ⟨f, hf, hcl⟩ := hex
        by_cases hlt : f < 8
        · exfalso
          rw [frameBit_cons_lt b rest f hlt, hb f (Nat.zero_le _) (by omega)] at hcl
          exact Bool.noConfusion hcl
        · obtain ⟨k, rfl⟩ : ∃ k, f = k + 8 := ⟨f - 8, by omega⟩
          rw [frameBit_cons_add] at hcl
          exact ⟨k, by simp at hf; omega, hcl⟩
      obtain ⟨g, hg1, hg2, hg3, hg4, hg5, hg6⟩ := ih (i + 1) hex2
      refine ⟨g + 8, by simp; omega, ?_, ?_, ?_, ?_, ?_⟩
      · show (GetFrameLoop rest (i + 1)).1 = _
        rw [hg2]; push_cast; ring
      · rw [frameBit_cons_add]; exact hg3
      · intro h hh
        by_cases hlt : h < 8
        · rw [frameBit_cons_lt b rest h hlt]; exact hb h (Nat.zero_le _) (by omega)
        · obtain ⟨k, rfl⟩ : ∃ k, h = k + 8 := ⟨h - 8, by omega⟩
          rw [frameBit_cons_add]; exact hg4 k (by omega)
      · show frameBit (b :: (GetFrameLoop rest (i + 1)).2) (g + 8) = true
        rw [frameBit_cons_add]; exact hg5
      · intro h hne
        show frameBit (b :: (GetFrameLoop rest (i + 1)).2) h = frameBit (b :: rest) h
        by_cases hlt : h < 8
        · rw [frameBit_cons_lt _ _ h hlt, frameBit_cons_lt _ _ h hlt]
        · obtain ⟨k, rfl⟩ : ∃ k, h = k + 8 := ⟨h - 8, by omega⟩
          rw [frameBit_cons_add, frameBit_cons_add]
          exact hg6 k (by omega)

/-- C2: `GetFrame` returns the smallest frame index whose bit is clear, sets
exactly that bit and leaves every other bit (and the size of the bitmap)
unchanged; when every bit of the bitmap is set it returns `-1` and the bitmap
is unchanged. -/
theorem GetFrame_lowest_clear (frame_bitmap : List Nat) :
    ((∃ f, f < 8 * frame_bitmap.length ∧ frameBit frame_bitmap f = false) →
      ∃ g, g < 8 * frame_bitmap.length ∧ (GetFrame frame_bitmap).1 = (g : Int) ∧
        frameBit frame_bitmap g = false ∧
        (∀ h, h < g → frameBit frame_bitmap h = true) ∧
        frameBit (GetFrame frame_bitmap).2 g = true ∧
        (∀ h, h ≠ g → frameBit (GetFrame frame_bitmap).2 h = frameBit frame_bitmap h) ∧
        (GetFrame frame_bitmap).2.length = frame_bitmap.length) ∧
    ((∀ f, f < 8 * frame_bitmap.length → frameBit frame_bitmap f = true) →
      GetFrame frame_bitmap = (-1, frame_bitmap)) := by
  refine ⟨?_, GetFrameLoop_full frame_bitmap 0⟩
  intro hex
  obtain ⟨g, h1, h2, h3, h4, h5, h6⟩ := GetFrameLoop_found frame_bitmap 0 hex
  refine ⟨g, h1, ?_, h3, h4, h5, h6, GetFrameLoop_length frame_bitmap 0⟩
  unfold GetFrame
  rw [h2]; simp

/-- Witness for C2 on the two-byte bitmaps `[0xFF, 0x0B]` (first clear bit is
frame 10) and `[0xFF, 0xFF]` (full). -/
theorem GetFrame_lowest_clear_witness :
    (∃ g, g < 8 * [255, 11].length ∧ (GetFrame [255, 11]).1 = (g : Int) ∧
        frameBit [255, 11] g = false ∧
        (∀ h, h < g → frameBit [255, 11] h = true) ∧
        frameBit (GetFrame [255, 11]).2 g = true ∧
        (∀ h, h ≠ g → frameBit (GetFrame [255, 11]).2 h = frameBit [255, 11] h) ∧
        (GetFrame [255, 11]).2.length = [255, 11].length) ∧
    GetFrame [255, 255] = (-1, [255, 255]) :=
  ⟨(GetFrame_lowest_clear [255, 11]).1 ⟨10, by decide, by decide⟩,
   (GetFrame_lowest_clear [255, 255]).2 (by decide)⟩

/-! ### Frame conservation and fork -/

/-- C1 (the code breaks the claim): frame conservation holds after boot, after
the first tick, after a fork, after the switch to the child and after the
child's exit, but not after `SysWait` has reaped the child (returning its pid
2): `DestroyPCB` frees the frames of the child's region-1 pages only, so
frames 14 and 15 of its kernel stack stay marked used although nothing
references them any more. -/
theorem frame_conservation_lost_on_reap :
    frameConservation bootKernel ∧ frameConservation initRuns ∧
    frameConservation forkedOnce ∧ frameConservation childRuns ∧
    frameConservation childExited ∧
    (forkedOnce.pcb 2).kernel_stack = some [⟨1, 3, 14⟩, ⟨1, 3, 15⟩] ∧
    (SysWait hw0 childExited).rc = some 2 ∧
    (SysWait hw0 childExited).state.live = [0, 1] ∧
    (SysWait hw0 childExited).state.heap.fault = false ∧
    frameBit (SysWait hw0 childExited).state.frame_bitmap 14 = true ∧
    frameBit (SysWait hw0 childExited).state.frame_bitmap 15 = true ∧
    (14 : Int) ∉ referencedFrames (SysWait hw0 childExited).state ∧
    (15 : Int) ∉ referencedFrames (SysWait hw0 childExited).state ∧
    ¬ frameConservation (SysWait hw0 childExited).state := by
  decide!

/-- C3 (the code breaks the claim): on the 16-frame machine, whose bitmap is
full after the first fork, `CopyPageTable` for a second child does not test
the `-1` that `GetFrame` returns: the child's three pages are marked valid
with the same frame number `-1`, which is no frame of the bitmap, and the
bitmap is unchanged. -/
theorem CopyPageTable_ignores_exhaustion :
    frameConservation full16 ∧ full16.current_process = 1 ∧
    (full16.pcb 1).page_table = [⟨1, 5, 8⟩, ⟨1, 3, 9⟩, ⟨0, 0, 0⟩, ⟨1, 3, 10⟩] ∧
    full16.frame_bitmap = [255, 255] ∧
    (GetFrame full16.frame_bitmap).1 = -1 ∧
    (CreatePCB hw0 full16).1 = 3 ∧
    ((CopyPageTable hw0 secondForkBeforeCopy 1 3).pcb 3).page_table =
      [⟨1, 5, -1⟩, ⟨1, 3, -1⟩, ⟨0, 0, 0⟩, ⟨1, 3, -1⟩] ∧
    (CopyPageTable hw0 secondForkBeforeCopy 1 3).frame_bitmap = [255, 255] := by
  decide!

/-! ### State tags -/

/-- C5 (the code breaks the claim): the tags agree with the queues at the end
of boot, but the first clock tick leaves idle tagged `RUNNING` while init is
current; after the next tick init is on the ready queue still tagged
`RUNNING` (`TrapClockHandler` enqueues the current process without touching
its tag) while its child is current; after the child's `Exit` the child is on
the defunct queue still tagged `RUNNING` (`SysExit` never writes the tag). -/
theorem state_tags_disagree_with_queues :
    tagsAgree bootKernel ∧
    ¬ tagsAgree initRuns ∧
    (initRuns.current_process = 1 ∧ (initRuns.pcb 0).state = .RUNNING) ∧
    (childRuns.current_process = 2 ∧ inQueue childRuns childRuns.ready_processes 1 = true ∧
      (childRuns.pcb 1).state = .RUNNING ∧ (childRuns.pcb 2).state = .RUNNING) ∧
    (childExited.current_process = 1 ∧
      inQueue childExited childExited.defunct_processes 2 = true ∧
      (childExited.pcb 2).state = .RUNNING) ∧
    ¬ tagsAgree childRuns ∧ ¬ tagsAgree childExited := by
  decide!

/-! ### Fork and the ready queue -/

/-- C4 (the code breaks the claim): P (PCB 2) is current, the ready queue is
exactly 3, 1 (its child, then init) and P's children queue holds PCB 3.
`SysFork` returns the new child's pid 4 to P, but the links of the ready queue
then run 3, 4: enqueueing the child on P's children queue rewrote the `next`
link of PCB 3, which both queues share, and init is no longer reachable from
the head of the ready queue. -/
theorem fork_unlinks_ready_member :
    beforeSecondFork.current_process = 2 ∧
    queueIs beforeSecondFork.heap beforeSecondFork.ready_processes [3, 1] ∧
    (beforeSecondFork.pcb 2).children = { head := some 3, tail := some 3, size := 1 } ∧
    (SysFork hw0 beforeSecondFork).1 = 4 ∧
    ((SysFork hw0 beforeSecondFork).2.pcb 4).pid = 4 ∧
    (SysFork hw0 beforeSecondFork).2.heap.fault = false ∧
    (SysFork hw0 beforeSecondFork).2.halted = false ∧
    chainList (SysFork hw0 beforeSecondFork).2.heap 5
      (SysFork hw0 beforeSecondFork).2.ready_processes.head = [3, 4] ∧
    (SysFork hw0 beforeSecondFork).2.ready_processes = { head := some 3, tail := some 4, size := 3 } ∧
    ¬ queueIs (SysFork hw0 beforeSecondFork).2.heap
        (SysFork hw0 beforeSecondFork).2.ready_processes [3, 1, 4] ∧
    pcb_in_queue (SysFork hw0 beforeSecondFork).2.heap 1 5
      (SysFork hw0 beforeSecondFork).2.ready_processes.head = false := by
  decide!

/-! ### Chains of `next` links and the clock tick -/

theorem isChain_nil (nxt : Ptr → Option Ptr) (hd : Option Ptr) :
    isChain nxt hd [] = true ↔ hd = none := by
  simp [isChain]

theorem isChain_cons (nxt : Ptr → Option Ptr) (hd : Option Ptr) (p : Ptr) (ps : List Ptr) :
    isChain nxt hd (p :: ps) = true ↔ hd = some p ∧ isChain nxt (nxt p) ps = true := by
  simp [isChain]

theorem isChain_unique (nxt : Ptr → Option Ptr) :
    ∀ (ps qs : List Ptr) (hd : Option Ptr), isChain nxt hd ps = true → isChain nxt hd qs = true →
      ps = qs := by
  intro ps
  induction ps with
  | nil =>
    intro qs hd h1 h2
    cases qs with
    | nil => rfl
    | cons q qs =>
      rw [isChain_nil] at h1
      rw [isChain_cons] at h2
      rw [h1] at h2
      exact absurd h2.1 (by simp)
  | cons p ps ih =>
    intro qs hd h1 h2
    rw [isChain_cons] at h1
    cases qs with
    | nil =>
      rw [isChain_nil] at h2
      rw [h2] at h1
      exact absurd h1.1 (by simp)
    | cons q qs =>
      rw [isChain_cons] at h2
      have hpq : p = q := by
        have := h1.1.symm.trans h2.1
        simpa using this
      subst hpq
      rw [ih qs (nxt p) h1.2 h2.2]

theorem isChain_suffix (nxt : Ptr → Option Ptr) :
    ∀ (ps : List Ptr) (hd : Option Ptr) (r : Ptr), isChain nxt hd ps = true → r ∈ ps →
      ∃ qs, qs.length < ps.length ∧ isChain nxt (nxt r) qs = true := by
  intro ps
  induction ps with
  | nil => intro hd r _ hr; simp at hr
  | cons p ps ih =>
    intro hd r h hr
    rw [isChain_cons] at h
    rcases List.mem_cons.1 hr with rfl | hr'
    · exact ⟨ps, by simp, h.2⟩
    · obtain ⟨qs, hl, hc⟩ := ih (nxt p) r h.2 hr'
      exact ⟨qs, by simp; omega, hc⟩

theorem isChain_nodup (nxt : Ptr → Option Ptr) :
    ∀ (ps : List Ptr) (hd : Option Ptr), isChain nxt hd ps = true → ps.Nodup := by
  intro ps
  induction ps with
  | nil => intro _ _; exact List.nodup_nil
  | cons p ps ih =>
    intro hd h
    rw [isChain_cons] at h
    refine List.nodup_cons.2 ⟨?_, ih (nxt p) h.2⟩
    intro hmem
    obtain ⟨qs, hl, hc⟩ := isChain_suffix nxt ps (nxt p) p h.2 hmem
    have := isChain_unique nxt qs ps (nxt p) hc h.2
    rw [this] at hl
    exact Nat.lt_irrefl _ hl

theorem isChain_append_last (nxt nxt' : Ptr → Option Ptr) (c : Ptr) :
    ∀ (ps : List Ptr) (hd : Option Ptr) (t : Ptr), isChain nxt hd ps = true →
      ps.getLast? = some t → ps.Nodup → c ∉ ps → nxt' c = none → nxt' t = some c →
      (∀ p ∈ ps, p ≠ t → nxt' p = nxt p) →
      isChain nxt' hd (ps ++ [c]) = true := by
  intro ps
  induction ps with
  | nil => intro hd t _ hl; simp at hl
  | cons p ps ih =>
    intro hd t h hl hnd hc hnc hnt hsame
    rw [isChain_cons] at h
    rw [List.cons_append, isChain_cons]
    refine ⟨h.1, ?_⟩
    cases ps with
    | nil =>
      have hpt : p = t := by simpa using hl
      subst hpt
      rw [hnt]
      simp [isChain, hnc]
    | cons q qs =>
      have hl' : (q :: qs).getLast? = some t := by
        rw [List.getLast?_cons_cons] at hl; exact hl
      have hnd' := (List.nodup_cons.1 hnd)
      have htmem : t ∈ q :: qs := List.mem_of_getLast?_eq_some hl'
      have hpt : p ≠ t := fun e => hnd'.1 (e ▸ htmem)
      rw [hsame p (List.mem_cons_self _ _) hpt]
      exact ih (nxt p) t h.2 hl' hnd'.2 (fun hm => hc (List.mem_cons_of_mem _ hm)) hnc hnt
        (fun r hr hrt => hsame r (List.mem_cons_of_mem _ hr) hrt)

theorem Heap.next_modify (h : Heap) (p q : Ptr) (f : pcb_t → pcb_t) :
    (h.modify p f).next q = if q = p then (f (h.pcb q)).next else h.next q := by
  unfold Heap.next Heap.modify
  by_cases hq : q = p <;> simp [hq]

theorem Heap.pcb_modify (h : Heap) (p q : Ptr) (f : pcb_t → pcb_t) :
    (h.modify p f).pcb q = if q = p then f (h.pcb q) else h.pcb q := rfl

theorem pcb_enqueue_queueIs (h : Heap) (queue : pcb_queue_t) (ps : List Ptr) (c : Ptr)
    (hq : queueIs h queue ps) (hc : c ∉ ps) :
    queueIs (pcb_enqueue h queue c).1 (pcb_enqueue h queue c).2 (ps ++ [c]) ∧
    (pcb_enqueue h queue c).1.fault = h.fault ∧
    (∀ p, ((pcb_enqueue h queue c).1.pcb p).pid = (h.pcb p).pid ∧
      ((pcb_enqueue h queue c).1.pcb p).kernel_stack = (h.pcb p).kernel_stack) := by
  obtain ⟨hch, htl, hsz⟩ := hq
  cases ps with
  | nil =>
    have hs0 : queue.size = 0 := by simpa using hsz
    unfold pcb_enqueue
    simp only [pcb_queue_is_empty, hs0, beq_self_eq_true, if_true]
    refine ⟨⟨?_, ?_, ?_⟩, rfl, ?_⟩
    · simp [isChain, Heap.next_modify]
    · simp
    · simp
    · intro p
      simp only [Heap.pcb_modify]
      constructor <;> split <;> rfl
  | cons a as =>
    have hne : ¬ queue.size = 0 := by
      rw [hsz]; simp; omega
    obtain ⟨t, ht⟩ : ∃ t, (a :: as).getLast? = some t := by
      cases hl : (a :: as).getLast? with
      | none => simp at hl
      | some t => exact ⟨t, rfl⟩
    have htail : queue.tail = some t := by rw [htl, ht]
    have htmem : t ∈ a :: as := List.mem_of_getLast?_eq_some ht
    have hct : c ≠ t := fun e => hc (e ▸ htmem)
    unfold pcb_enqueue
    simp only [pcb_queue_is_empty, beq_iff_eq, hne, if_false, htail]
    refine ⟨⟨?_, ?_, ?_⟩, rfl, ?_⟩
    · apply isChain_append_last h.next _ c (a :: as) queue.head t hch ht
        (isChain_nodup _ _ _ hch) hc
      · rw [Heap.next_modify, if_neg hct, Heap.next_modify, if_pos rfl]
      · rw [Heap.next_modify, if_pos rfl]
      · intro p hp hpt
        have hpc : p ≠ c := fun e => hc (e ▸ hp)
        rw [Heap.next_modify, if_neg hpt, Heap.next_modify, if_neg hpc]
    · show some c = ((a :: as) ++ [c]).getLast?
      rw [List.getLast?_append]; simp
    · simp [hsz]
    · intro p
      simp only [Heap.pcb_modify]
      constructor <;> split <;> split <;> rfl

theorem pcb_dequeue_queueIs (h : Heap) (queue : pcb_queue_t) (p : Ptr) (ps : List Ptr)
    (hq : queueIs h queue (p :: ps)) :
    queue.head = some p ∧ queueIs h (pcb_dequeue h queue).2 ps := by
  obtain ⟨hch, htl, hsz⟩ := hq
  rw [isChain_cons] at hch
  refine ⟨hch.1, ?_⟩
  unfold pcb_dequeue
  rw [hch.1]
  refine ⟨hch.2, ?_, ?_⟩
  · cases ps with
    | nil =>
      have : h.next p = none := by simpa [isChain] using hch.2
      simp [this]
    | cons a as =>
      have : h.next p = some a := by
        have := hch.2; rw [isChain_cons] at this; exact this.1
      simp [this, htl]
  · simp [hsz]



theorem KCSwitch_spec (hw : Hardware) (s : Kernel) (curr next : Ptr)
    (hk : (s.pcb next).kernel_stack ≠ none) :
    (KCSwitch hw s curr next).current_process = next ∧
    (KCSwitch hw s curr next).ready_processes = s.ready_processes ∧
    (KCSwitch hw s curr next).heap.next = s.heap.next ∧
    (KCSwitch hw s curr next).heap.fault = s.heap.fault := by
  unfold KCSwitch
  cases hks : (s.pcb next).kernel_stack with
  | none => exact absurd hks hk
  | some ks =>
    refine ⟨rfl, rfl, ?_, rfl⟩
    funext q
    show ((s.heap.modify next (fun r => { r with state := .RUNNING })).next q) = s.heap.next q
    rw [Heap.next_modify]
    split <;> rfl

theorem queueIs_congr (h h' : Heap) (queue : pcb_queue_t) (ps : List Ptr)
    (hn : h'.next = h.next) (hq : queueIs h queue ps) : queueIs h' queue ps := by
  unfold queueIs at *
  rw [hn]; exact hq

/-- C6: round-robin on a clock tick. Let the ready queue after the delay
bookkeeping hold exactly `rs`, with the current process `C` not on it, and
let `C` and the PCBs of `rs` have kernel stacks. If `C` is
not idle (its pid differs from idle's): for `rs = []`, `C` remains current and
ready is empty; for `rs = r1 :: rest`, `r1` becomes current and ready holds
exactly `rest ++ [C]`. If idle is running: it is not placed on ready (ready
holds exactly the rest of `rs`, which does not contain idle), the head of
`rs` becomes current, and idle remains current exactly when `rs` is empty. -/
theorem clock_tick_round_robin (hw : Hardware) (s : Kernel) (rs : List Ptr)
    (hq : queueIs (UpdateDelayedPCB s).heap (UpdateDelayedPCB s).ready_processes rs)
    (hcur : (UpdateDelayedPCB s).current_process ∉ rs)
    (hks : ∀ p, p = (UpdateDelayedPCB s).current_process ∨ p ∈ rs →
      ((UpdateDelayedPCB s).pcb p).kernel_stack ≠ none) :
    (((UpdateDelayedPCB s).pcb (UpdateDelayedPCB s).current_process).pid ≠
        ((UpdateDelayedPCB s).pcb (UpdateDelayedPCB s).idle_pcb).pid →
      (rs = [] →
        (TrapClockHandler hw s).current_process = (UpdateDelayedPCB s).current_process ∧
        queueIs (TrapClockHandler hw s).heap (TrapClockHandler hw s).ready_processes []) ∧
      (∀ r1 rest, rs = r1 :: rest →
        (TrapClockHandler hw s).current_process = r1 ∧
        queueIs (TrapClockHandler hw s).heap (TrapClockHandler hw s).ready_processes
          (rest ++ [(UpdateDelayedPCB s).current_process]))) ∧
    ((UpdateDelayedPCB s).current_process = (UpdateDelayedPCB s).idle_pcb →
      queueIs (TrapClockHandler hw s).heap (TrapClockHandler hw s).ready_processes rs.tail ∧
      (UpdateDelayedPCB s).idle_pcb ∉ rs.tail ∧
      (TrapClockHandler hw s).current_process = rs.headD (UpdateDelayedPCB s).idle_pcb ∧
      ((TrapClockHandler hw s).current_process = (UpdateDelayedPCB s).idle_pcb ↔ rs = [])) := by
  unfold TrapClockHandler
  generalize UpdateDelayedPCB s = s1 at *
  constructor
  · -- the running process is not idle
    intro hpid
    simp only [hpid, ne_eq, not_false_eq_true, if_true]
    obtain ⟨hen, -, hpres⟩ := pcb_enqueue_queueIs s1.heap s1.ready_processes rs s1.current_process hq hcur
    have hks2 : ∀ p, p = s1.current_process ∨ p ∈ rs →
        ((enqueueReady s1 s1.current_process).pcb p).kernel_stack ≠ none := by
      intro p hp
      show ((pcb_enqueue s1.heap s1.ready_processes s1.current_process).1.pcb p).kernel_stack ≠ none
      rw [(hpres p).2]; exact hks p hp
    constructor
    · intro hnil
      subst hnil
      have hen' : queueIs (enqueueReady s1 s1.current_process).heap
          (enqueueReady s1 s1.current_process).ready_processes [s1.current_process] := hen
      obtain ⟨hhead, hdq⟩ := pcb_dequeue_queueIs _ _ _ _ hen'
      have hpick : pickNext (enqueueReady s1 s1.current_process) =
          (s1.current_process, { enqueueReady s1 s1.current_process with
            ready_processes := (pcb_dequeue (enqueueReady s1 s1.current_process).heap
              (enqueueReady s1 s1.current_process).ready_processes).2 }) := by
        unfold pickNext; rw [hhead]
      rw [hpick]
      obtain ⟨h1, h2, h3, -⟩ := KCSwitch_spec hw
        { enqueueReady s1 s1.current_process with
            ready_processes := (pcb_dequeue (enqueueReady s1 s1.current_process).heap
              (enqueueReady s1 s1.current_process).ready_processes).2 }
        s1.current_process s1.current_process (hks2 _ (Or.inl rfl))
      refine ⟨h1, ?_⟩
      rw [h2]
      exact queueIs_congr _ _ _ _ h3 hdq
    · intro r1 rest hrs
      subst hrs
      have hen' : queueIs (enqueueReady s1 s1.current_process).heap
          (enqueueReady s1 s1.current_process).ready_processes
          (r1 :: (rest ++ [s1.current_process])) := hen
      obtain ⟨hhead, hdq⟩ := pcb_dequeue_queueIs _ _ _ _ hen'
      have hpick : pickNext (enqueueReady s1 s1.current_process) =
          (r1, { enqueueReady s1 s1.current_process with
            ready_processes := (pcb_dequeue (enqueueReady s1 s1.current_process).heap
              (enqueueReady s1 s1.current_process).ready_processes).2 }) := by
        unfold pickNext; rw [hhead]
      rw [hpick]
      obtain ⟨h1, h2, h3, -⟩ := KCSwitch_spec hw
        { enqueueReady s1 s1.current_process with
            ready_processes := (pcb_dequeue (enqueueReady s1 s1.current_process).heap
              (enqueueReady s1 s1.current_process).ready_processes).2 }
        s1.current_process r1 (hks2 _ (Or.inr (List.mem_cons_self _ _)))
      refine ⟨h1, ?_⟩
      rw [h2]
      exact queueIs_congr _ _ _ _ h3 hdq
  · -- idle is running
    intro hci
    have hidle : s1.idle_pcb ∉ rs := hci ▸ hcur
    have hpid : ¬ ((s1.pcb s1.current_process).pid ≠ (s1.pcb s1.idle_pcb).pid) := by
      rw [hci]; simp
    simp only [hpid, if_false]
    cases rs with
    | nil =>
      have hhead : s1.ready_processes.head = none := by
        have := hq.1; simpa [isChain] using this
      have hpick : pickNext s1 = (s1.idle_pcb, s1) := by
        unfold pickNext; rw [hhead]
      rw [hpick]
      obtain ⟨h1, h2, h3, -⟩ := KCSwitch_spec hw s1 s1.current_process s1.idle_pcb
        (hks _ (Or.inl hci.symm))
      refine ⟨?_, by simp, h1, ?_⟩
      · rw [h2]; exact queueIs_congr _ _ _ _ h3 hq
      · simp [h1]
    | cons r1 rest =>
      obtain ⟨hhead, hdq⟩ := pcb_dequeue_queueIs _ _ _ _ hq
      have hpick : pickNext s1 =
          (r1, { s1 with ready_processes := (pcb_dequeue s1.heap s1.ready_processes).2 }) := by
        unfold pickNext; rw [hhead]
      rw [hpick]
      obtain ⟨h1, h2, h3, -⟩ := KCSwitch_spec hw
        { s1 with ready_processes := (pcb_dequeue s1.heap s1.ready_processes).2 }
        s1.current_process r1 (hks _ (Or.inr (List.mem_cons_self _ _)))
      have hr1 : r1 ≠ s1.idle_pcb := fun e => hidle (e ▸ List.mem_cons_self _ _)
      refine ⟨?_, fun hm => hidle (List.mem_cons_of_mem _ hm), h1, ?_⟩
      · rw [h2]; exact queueIs_congr _ _ _ _ h3 hdq
      · rw [h1]; simp [hr1]

/-- Witness for C6: with init running and its child (PCB 2) alone on ready, a
tick dispatches the child and leaves ready holding init; with init running
and ready empty, init stays current; with idle running and init alone on
ready (the boot state), init is dispatched and ready is empty. -/
theorem clock_tick_round_robin_witness :
    ((TrapClockHandler hw0 forkedOnce).current_process = 2 ∧
      queueIs (TrapClockHandler hw0 forkedOnce).heap
        (TrapClockHandler hw0 forkedOnce).ready_processes [1]) ∧
    ((TrapClockHandler hw0 initRuns).current_process = 1 ∧
      queueIs (TrapClockHandler hw0 initRuns).heap
        (TrapClockHandler hw0 initRuns).ready_processes []) ∧
    ((TrapClockHandler hw0 bootKernel).current_process = 1 ∧
      queueIs (TrapClockHandler hw0 bootKernel).heap
        (TrapClockHandler hw0 bootKernel).ready_processes []) :=
  ⟨((clock_tick_round_robin hw0 forkedOnce [2] (by decide!) (by decide!)
      (by intro p hp; rcases hp with rfl | hp
          · decide!
          · rw [List.mem_singleton.1 hp]; decide!)).1 (by decide!)).2 2 [] rfl,
   ((clock_tick_round_robin hw0 initRuns [] (by decide!) (by decide!)
      (by intro p hp; rcases hp with rfl | hp
          · decide!
          · simp at hp)).1 (by decide!)).1 rfl,
   (let h := (clock_tick_round_robin hw0 bootKernel [1] (by decide!) (by decide!)
      (by intro p hp; rcases hp with rfl | hp
          · decide!
          · rw [List.mem_singleton.1 hp]; decide!)).2 (by decide!)
    ⟨h.2.2.1, h.1⟩)⟩

/-! ### Delay bookkeeping -/

/-- C7 (the code breaks the claim): blocked holds PCB 1 with one tick left and
PCB 2 with two. `UpdateDelayedPCB` moves PCB 1 to ready, leaving its tag
`BLOCKED`, and then stops, because `pcb_enqueue` has nulled the `next` link
the loop follows: PCB 2 still has two ticks left. Two clock ticks after its
`Delay(2)` PCB 2 is still blocked with one tick left; it reaches the ready
queue (and is dispatched) only on the third. -/
theorem delayed_processes_behind_an_expired_one_are_skipped :
    queueIs bothDelayed.heap bothDelayed.blocked_processes [1, 2] ∧
    (bothDelayed.pcb 1).delay_ticks = 1 ∧ (bothDelayed.pcb 2).delay_ticks = 2 ∧
    queueIs (UpdateDelayedPCB bothDelayed).heap (UpdateDelayedPCB bothDelayed).ready_processes [1] ∧
    queueIs (UpdateDelayedPCB bothDelayed).heap (UpdateDelayedPCB bothDelayed).blocked_processes [2] ∧
    ((UpdateDelayedPCB bothDelayed).pcb 1).state = .BLOCKED ∧
    ((UpdateDelayedPCB bothDelayed).pcb 2).delay_ticks = 2 ∧
    queueIs (TrapClockHandler hw0 (TrapClockHandler hw0 bothDelayed)).heap
      (TrapClockHandler hw0 (TrapClockHandler hw0 bothDelayed)).blocked_processes [2] ∧
    queueIs (TrapClockHandler hw0 (TrapClockHandler hw0 bothDelayed)).heap
      (TrapClockHandler hw0 (TrapClockHandler hw0 bothDelayed)).ready_processes [] ∧
    ((TrapClockHandler hw0 (TrapClockHandler hw0 bothDelayed)).pcb 2).delay_ticks = 1 ∧
    (TrapClockHandler hw0 (TrapClockHandler hw0 (TrapClockHandler hw0 bothDelayed))).current_process
      = 2 := by
  decide!

/-! ### Locks -/

/-- C8 (the code breaks the claim): init owns lock `65537`, A (PCB 2) is the
only process blocked in `Acquire`, D (PCB 3) sleeps in `Delay(3)` behind A on
the blocked queue. The first `Release` hands the lock to A, but leaves D at
the head of the lock's waiter queue, because `pcb_dequeue` follows A's `next`
link, which the blocked queue had pointed at D. When A releases, with no
process waiting for the lock, the lock stays held and its owner is D, which
never called `Acquire`; D is also moved to ready with two ticks of its delay
left. -/
theorem release_hands_lock_to_a_process_that_never_waited :
    ownerAboutToRelease.current_process = 1 ∧
    FindLock ownerAboutToRelease 65537 =
      some { is_locked := 1, id := 65537, owner := some 1,
             wait_queue := { head := some 2, tail := some 2, size := 1 } } ∧
    queueIs ownerAboutToRelease.heap ownerAboutToRelease.blocked_processes [2, 3] ∧
    (ownerAboutToRelease.pcb 3).delay_ticks = 3 ∧
    (Release ownerAboutToRelease 65537).1 = SUCCESS ∧
    FindLock (Release ownerAboutToRelease 65537).2 65537 =
      some { is_locked := 1, id := 65537, owner := some 2,
             wait_queue := { head := some 3, tail := some 2, size := 0 } } ∧
    waiterAboutToRelease.current_process = 2 ∧
    (Release waiterAboutToRelease 65537).1 = SUCCESS ∧
    FindLock (Release waiterAboutToRelease 65537).2 65537 =
      some { is_locked := 1, id := 65537, owner := some 3,
             wait_queue := { head := none, tail := none, size := -1 } } ∧
    queueIs (Release waiterAboutToRelease 65537).2.heap
      (Release waiterAboutToRelease 65537).2.ready_processes [1, 3] ∧
    ((Release waiterAboutToRelease 65537).2.pcb 3).delay_ticks = 2 ∧
    (Release waiterAboutToRelease 65537).2.heap.fault = false := by
  decide!

/-- C10 (the code breaks the claim): init holds lock `65537` and calls
`CvarWait(131074, 65537)`, which releases the lock and suspends init. While
init sleeps, P reclaims the (now unheld) lock and signals. When init is
dispatched again, `CvarWait` calls `Acquire`, ignores its `ERROR` and returns
`SUCCESS`, although the lock does not exist and init owns no lock. -/
theorem CvarWait_succeeds_without_the_lock :
    FindLock (SysFork hw0 syncReady).2 65537 =
      some { is_locked := 1, id := 65537, owner := some 1, wait_queue := pcb_queue_create } ∧
    (SysFork hw0 syncReady).2.current_process = 1 ∧
    (CvarWait hw0 (SysFork hw0 syncReady).2 131074 65537).1 = none ∧
    initWaits.current_process = 2 ∧
    (Reclaim initWaits 65537).1 = SUCCESS ∧
    (CvarSignal (Reclaim initWaits 65537).2 131074).1 = SUCCESS ∧
    waiterResumes.current_process = 1 ∧
    (Acquire hw0 waiterResumes 65537).1 = ERROR ∧
    (CvarWait_resume hw0 waiterResumes 65537).1 = SUCCESS ∧
    FindLock (CvarWait_resume hw0 waiterResumes 65537).2 65537 = none ∧
    (CvarWait_resume hw0 waiterResumes 65537).2.global_locks = [] ∧
    (CvarWait_resume hw0 waiterResumes 65537).2.heap.fault = false := by
  decide!

/-! ### List updates and the lock list -/

theorem mem_updateFirst {α : Type} (p : α → Bool) (f : α → α) :
    ∀ (ls : List α) (y : α), y ∈ updateFirst p f ls →
      y ∈ ls ∨ ∃ x, ls.find? p = some x ∧ y = f x := by
  intro ls
  induction ls with
  | nil => intro y hy; simp [updateFirst] at hy
  | cons a as ih =>
    intro y hy
    unfold updateFirst at hy
    by_cases hpa : p a = true
    · rw [if_pos hpa] at hy
      rcases List.mem_cons.1 hy with rfl | hy'
      · exact Or.inr ⟨a, by simp [List.find?, hpa], rfl⟩
      · exact Or.inl (List.mem_cons_of_mem _ hy')
    · rw [if_neg hpa] at hy
      rcases List.mem_cons.1 hy with rfl | hy'
      · exact Or.inl (List.mem_cons_self _ _)
      · rcases ih y hy' with h | ⟨x, hx, rfl⟩
        · exact Or.inl (List.mem_cons_of_mem _ h)
        · refine Or.inr ⟨x, ?_, rfl⟩
          have : p a = false := by simpa using hpa
          simp [List.find?, this, hx]

theorem updateFirst_updateFirst {α : Type} (p : α → Bool) (f g : α → α) (ls : List α)
    (hf : ∀ x, p (f x) = p x) :
    updateFirst p g (updateFirst p f ls) = updateFirst p (fun x => g (f x)) ls := by
  induction ls with
  | nil => rfl
  | cons a as ih =>
    by_cases hpa : p a = true
    · have hfa : p (f a) = true := by rw [hf]; exact hpa
      simp [updateFirst, hpa, hfa]
    · simp [updateFirst, hpa, ih]

theorem mem_removeFirst {α : Type} (p : α → Bool) :
    ∀ (ls : List α) (y : α), y ∈ removeFirst p ls → y ∈ ls := by
  intro ls
  induction ls with
  | nil => intro y hy; simp [removeFirst] at hy
  | cons a as ih =>
    intro y hy
    unfold removeFirst at hy
    by_cases hpa : p a = true
    · rw [if_pos hpa] at hy; exact List.mem_cons_of_mem _ hy
    · rw [if_neg hpa] at hy
      rcases List.mem_cons.1 hy with rfl | hy'
      · exact List.mem_cons_self _ _
      · exact List.mem_cons_of_mem _ (ih y hy')

theorem FindLock_mem (s : Kernel) (id : Int) (x : lock_t) (h : FindLock s id = some x) :
    x ∈ s.global_locks := by
  unfold FindLock at h
  exact List.mem_of_find?_eq_some h

theorem pickNext_locks (s : Kernel) : (pickNext s).2.global_locks = s.global_locks := by
  unfold pickNext
  cases s.ready_processes.head <;> rfl

theorem KCSwitch_locks (hw : Hardware) (s : Kernel) (c n : Ptr) :
    (KCSwitch hw s c n).global_locks = s.global_locks := by
  unfold KCSwitch
  cases (s.pcb n).kernel_stack <;> rfl

theorem switch_locks (hw : Hardware) (s : Kernel) (c : Ptr) :
    (KCSwitch hw (pickNext s).2 c (pickNext s).1).global_locks = s.global_locks := by
  rw [KCSwitch_locks, pickNext_locks]

theorem UpdateDelayedPCBLoop_locks : ∀ (n : Nat) (s : Kernel) (p : Option Ptr),
    (UpdateDelayedPCBLoop n s p).global_locks = s.global_locks := by
  intro n
  induction n with
  | zero => intro s p; cases p <;> rfl
  | succ n ih =>
    intro s p
    cases p with
    | none => rfl
    | some pcb =>
      unfold UpdateDelayedPCBLoop
      split
      · exact ih _ _
      · rw [ih]
        split <;> rfl

theorem UpdateDelayedPCB_locks (s : Kernel) :
    (UpdateDelayedPCB s).global_locks = s.global_locks := by
  unfold UpdateDelayedPCB
  split
  · rfl
  · exact UpdateDelayedPCBLoop_locks _ _ _

theorem TrapClockHandler_locks (hw : Hardware) (s : Kernel) :
    (TrapClockHandler hw s).global_locks = s.global_locks := by
  unfold TrapClockHandler
  rw [switch_locks]
  split
  · exact UpdateDelayedPCB_locks s
  · exact UpdateDelayedPCB_locks s

theorem SysDelay_locks (hw : Hardware) (s : Kernel) (n : Int) :
    (SysDelay hw s n).2.global_locks = s.global_locks := by
  unfold SysDelay
  split
  · rfl
  · split
    · rfl
    · dsimp only
      rw [switch_locks]; rfl

theorem CvarSignal_locks (s : Kernel) (id : Int) :
    (CvarSignal s id).2.global_locks = s.global_locks := by
  unfold CvarSignal
  split
  · rfl
  · split
    · rfl
    · split <;> rfl

/-! ### The lock ownership invariant -/

/-- C9 (the code breaks the claim): from `threeChildren`, where both locks are
unheld with empty waiter queues, the sixteen calls of `stuckWaiterCalls` are
made. After call 9, X and W wait for lock `65538` (held by init) and the
waiter queue of lock `65537`, now owned by A, has a stale head X left by
`pcb_dequeue`. Call 10, `Release(65537)` by A, hands that lock to X and puts X
on the ready queue with a null `next` link although X is still the head of
the waiter queue of `65538`. Call 14, `Release(65538)` by init, dequeues X,
follows its null link and leaves the waiter queue with no head, no tail and
size 1: W is lost. Call 16, `Release(65538)` by X, finds no head and marks the
lock unheld. In the final state lock `65538` is unheld with no owner,
`pcb_queue_is_empty` of its waiter queue is false, and W, which called
`Acquire(65538)` and was never woken, is still tagged `BLOCKED` on the blocked
queue: the ownership invariant does not hold. -/
theorem unheld_lock_keeps_a_waiter :
    lockInvariant threeChildren ∧
    threeChildren.current_process = 1 ∧
    (runCalls hw0 threeChildren (stuckWaiterCalls.take 9)).current_process = 2 ∧
    (runCalls hw0 threeChildren (stuckWaiterCalls.take 9)).global_locks =
      [{ is_locked := 1, id := 65537, owner := some 2,
         wait_queue := { head := some 3, tail := some 2, size := 0 } },
       { is_locked := 1, id := 65538, owner := some 1,
         wait_queue := { head := some 3, tail := some 4, size := 2 } }] ∧
    chainList (runCalls hw0 threeChildren (stuckWaiterCalls.take 9)).heap 10
      (some 3) = [3, 4] ∧
    (Release (runCalls hw0 threeChildren (stuckWaiterCalls.take 9)) 65537).1 = SUCCESS ∧
    FindLock (runCalls hw0 threeChildren (stuckWaiterCalls.take 10)) 65537 =
      some { is_locked := 1, id := 65537, owner := some 3,
             wait_queue := { head := some 4, tail := some 2, size := -1 } } ∧
    ((runCalls hw0 threeChildren (stuckWaiterCalls.take 10)).pcb 3).next = none ∧
    (runCalls hw0 threeChildren (stuckWaiterCalls.take 13)).current_process = 1 ∧
    (Release (runCalls hw0 threeChildren (stuckWaiterCalls.take 13)) 65538).1 = SUCCESS ∧
    FindLock (runCalls hw0 threeChildren (stuckWaiterCalls.take 14)) 65538 =
      some { is_locked := 1, id := 65538, owner := some 3,
             wait_queue := { head := none, tail := none, size := 1 } } ∧
    (runCalls hw0 threeChildren (stuckWaiterCalls.take 15)).current_process = 3 ∧
    (Release (runCalls hw0 threeChildren (stuckWaiterCalls.take 15)) 65538).1 = SUCCESS ∧
    FindLock (runCalls hw0 threeChildren stuckWaiterCalls) 65538 =
      some { is_locked := 0, id := 65538, owner := none,
             wait_queue := { head := none, tail := none, size := 1 } } ∧
    pcb_queue_is_empty { head := none, tail := none, size := 1 } = false ∧
    ((runCalls hw0 threeChildren stuckWaiterCalls).pcb 4).state = .BLOCKED ∧
    chainList (runCalls hw0 threeChildren stuckWaiterCalls).heap 10
      (runCalls hw0 threeChildren stuckWaiterCalls).blocked_processes.head = [4, 2] ∧
    (runCalls hw0 threeChildren stuckWaiterCalls).heap.fault = false ∧
    ¬ lockInvariant (runCalls hw0 threeChildren stuckWaiterCalls) := by
  decide!

/-! ### Signal and broadcast -/

/-- C11 (the code breaks the claim): W (PCB 2) is the only process waiting on
condition variable `131074`, D (PCB 3) sleeps in `Delay(3)` behind it on the
blocked queue. `CvarSignal` wakes W and returns `SUCCESS`, but leaves D at the
head of the waiter queue, because `pcb_dequeue` follows W's `next` link, which
the blocked queue had pointed at D. A second `CvarSignal`, with no process
waiting, returns `SUCCESS` and moves D from blocked to ready with all three
ticks of its delay left. -/
theorem signal_without_waiters_wakes_a_sleeper :
    waiterAndSleeper.current_process = 1 ∧
    FindCondvar waiterAndSleeper 131074 =
      some { id := 131074, wait_queue := { head := some 2, tail := some 2, size := 1 } } ∧
    queueIs waiterAndSleeper.heap waiterAndSleeper.blocked_processes [2, 3] ∧
    (waiterAndSleeper.pcb 3).delay_ticks = 3 ∧
    (CvarSignal waiterAndSleeper 131074).1 = SUCCESS ∧
    queueIs (CvarSignal waiterAndSleeper 131074).2.heap
      (CvarSignal waiterAndSleeper 131074).2.ready_processes [2] ∧
    queueIs (CvarSignal waiterAndSleeper 131074).2.heap
      (CvarSignal waiterAndSleeper 131074).2.blocked_processes [3] ∧
    FindCondvar (CvarSignal waiterAndSleeper 131074).2 131074 =
      some { id := 131074, wait_queue := { head := some 3, tail := some 2, size := 0 } } ∧
    (CvarSignal (CvarSignal waiterAndSleeper 131074).2 131074).1 = SUCCESS ∧
    queueIs (CvarSignal (CvarSignal waiterAndSleeper 131074).2 131074).2.heap
      (CvarSignal (CvarSignal waiterAndSleeper 131074).2 131074).2.ready_processes [2, 3] ∧
    queueIs (CvarSignal (CvarSignal waiterAndSleeper 131074).2 131074).2.heap
      (CvarSignal (CvarSignal waiterAndSleeper 131074).2 131074).2.blocked_processes [] ∧
    ((CvarSignal (CvarSignal waiterAndSleeper 131074).2 131074).2.pcb 3).delay_ticks = 3 ∧
    (CvarSignal (CvarSignal waiterAndSleeper 131074).2 131074).2.heap.fault = false := by
  decide!

/-- C12 (the code breaks the claim): PCB 2 and PCB 3 wait on condition
variable `131074`. `CvarBroadcast` returns `SUCCESS` after waking PCB 2 only:
`pcb_enqueue` nulls the `next` link its loop follows, so PCB 3 stays on the
blocked queue tagged `BLOCKED`; and the waiter queue is never dequeued, it
still has PCB 2 at its head and size 2. -/
theorem broadcast_wakes_only_the_first_waiter :
    twoWaiters.current_process = 1 ∧
    FindCondvar twoWaiters 131074 =
      some { id := 131074, wait_queue := { head := some 2, tail := some 3, size := 2 } } ∧
    isChain twoWaiters.heap.next (some 2) [2, 3] = true ∧
    queueIs twoWaiters.heap twoWaiters.blocked_processes [2, 3] ∧
    queueIs twoWaiters.heap twoWaiters.ready_processes [] ∧
    (CvarBroadcast twoWaiters 131074).1 = SUCCESS ∧
    queueIs (CvarBroadcast twoWaiters 131074).2.heap
      (CvarBroadcast twoWaiters 131074).2.ready_processes [2] ∧
    queueIs (CvarBroadcast twoWaiters 131074).2.heap
      (CvarBroadcast twoWaiters 131074).2.blocked_processes [3] ∧
    ((CvarBroadcast twoWaiters 131074).2.pcb 3).state = .BLOCKED ∧
    FindCondvar (CvarBroadcast twoWaiters 131074).2 131074 =
      some { id := 131074, wait_queue := { head := some 2, tail := some 3, size := 2 } } ∧
    (CvarBroadcast twoWaiters 131074).2.heap.fault = false := by
  decide!

/-! ### Wait and exit -/

/-- C18 (the code breaks the claim). Blocked path: init waits before its only
child (pid 2) exits; woken by the child's `Exit(7)`, `SysWait` returns pid 2
and status 7, but it leaves the child on init's children queue, so a further
`SysWait` does not return `ERROR`: it suspends init on
`waiting_parent_processes`. Immediate path: with one exited child (pid 2) and
a second child (pid 3) that is ready and has not exited, two successive waits
return 2 and then 3, the latter with status 0 for a process that never
exited. (With a single exited child the immediate path does return the pid
and then `ERROR`.) -/
theorem wait_misreports_children :
    (SysWait hw0 forkedOnce).rc = none ∧
    parentWoken.current_process = 1 ∧
    (SysWait_resume parentWoken).rc = some 2 ∧
    (SysWait_resume parentWoken).status = some 7 ∧
    ((SysWait_resume parentWoken).state.pcb 1).children =
      { head := some 2, tail := some 2, size := 1 } ∧
    (SysWait hw0 (SysWait_resume parentWoken).state).rc = none ∧
    inQueue (SysWait hw0 (SysWait_resume parentWoken).state).state
      (SysWait hw0 (SysWait_resume parentWoken).state).state.waiting_parent_processes 1 = true ∧
    ((SysWait hw0 childExited).rc = some 2 ∧
      (SysWait hw0 (SysWait hw0 childExited).state).rc = some ERROR) ∧
    (secondChildForked.current_process = 1 ∧
      queueIs secondChildForked.heap secondChildForked.ready_processes [3] ∧
      (secondChildForked.pcb 3).state = .READY ∧
      (SysWait hw0 secondChildForked).rc = some 2 ∧
      (SysWait hw0 (SysWait hw0 secondChildForked).state).rc = some 3 ∧
      (SysWait hw0 (SysWait hw0 secondChildForked).state).status = some 0 ∧
      inQueue (SysWait hw0 (SysWait hw0 secondChildForked).state).state
        (SysWait hw0 (SysWait hw0 secondChildForked).state).state.ready_processes 3 = true) := by
  decide!

/-- C19 (the code breaks the claim). Immediate path: after `SysWait` has
reaped the exited child (PCB 2), the child is on no queue and not on init's
children queue and the frames 11, 12, 13 of its pages are free, but the
frames 14 and 15 of its kernel stack are still marked used. Blocked path
(init waited first and was woken by the exit): after the reap the destroyed
child is on the ready queue, it is still on init's children queue, and frames
14 and 15 are still marked used. -/
theorem reaped_child_is_not_fully_released :
    ((childExited.pcb 2).page_table = [⟨1, 5, 11⟩, ⟨1, 3, 12⟩, ⟨0, 0, 0⟩, ⟨1, 3, 13⟩] ∧
      (childExited.pcb 2).kernel_stack = some [⟨1, 3, 14⟩, ⟨1, 3, 15⟩]) ∧
    ((SysWait hw0 childExited).rc = some 2 ∧
      (SysWait hw0 childExited).state.live = [0, 1] ∧
      (SysWait hw0 childExited).state.ready_processes.head = none ∧
      (SysWait hw0 childExited).state.blocked_processes.head = none ∧
      (SysWait hw0 childExited).state.defunct_processes.head = none ∧
      (SysWait hw0 childExited).state.waiting_parent_processes.head = none ∧
      ((SysWait hw0 childExited).state.pcb 1).children.head = none ∧
      [11, 12, 13, 14, 15].map (frameBit (SysWait hw0 childExited).state.frame_bitmap) =
        [false, false, false, true, true]) ∧
    ((SysWait_resume parentWoken).rc = some 2 ∧
      (SysWait_resume parentWoken).state.live = [0, 1] ∧
      queueIs (SysWait_resume parentWoken).state.heap
        (SysWait_resume parentWoken).state.ready_processes [2] ∧
      ((SysWait_resume parentWoken).state.pcb 1).children.head = some 2 ∧
      [11, 12, 13, 14, 15].map (frameBit (SysWait_resume parentWoken).state.frame_bitmap) =
        [false, false, false, true, true]) := by
  decide!

/-- C20 (the code breaks the claim): PCB 2 (pid 2) runs and has one child,
PCB 3. When it calls `Exit(5)` its status is recorded and it is placed on the
defunct queue, but its child keeps its parent pointer and its state:
`SysExit` has no statement that orphans children (only `DestroyPCB` does, when
the exited process is reaped, or at once for pid 1). -/
theorem exit_does_not_orphan_children :
    childHasChild.current_process = 2 ∧
    (childHasChild.pcb 2).pid = 2 ∧
    (childHasChild.pcb 2).children = { head := some 3, tail := some 3, size := 1 } ∧
    (childHasChild.pcb 3).parent = some 2 ∧
    (childHasChild.pcb 3).state = .READY ∧
    ((SysExit hw0 childHasChild 5).pcb 2).exit_status = 5 ∧
    queueIs (SysExit hw0 childHasChild 5).heap (SysExit hw0 childHasChild 5).defunct_processes [2] ∧
    ((SysExit hw0 childHasChild 5).pcb 3).parent = some 2 ∧
    ((SysExit hw0 childHasChild 5).pcb 3).state = .READY ∧
    (SysExit hw0 childHasChild 5).halted = false ∧
    (SysExit hw0 childHasChild 5).heap.fault = false := by
  decide!

/-! ### Pipes: the ring buffer -/

theorem ring_next_index (LEN a : Nat) : ((a : Int) + 1) % (LEN : Int) = (((a + 1) % LEN : Nat) : Int) := by
  push_cast; rfl

theorem ringRead_spec (LEN : Nat) (buffer : List Nat) : ∀ (n a : Nat), a < LEN →
    (ringRead LEN buffer n (a : Int)).1 =
        (List.range n).map (fun j => buffer.getD ((a + j) % LEN) 0) ∧
    (ringRead LEN buffer n (a : Int)).2 = (((a + n) % LEN : Nat) : Int) := by
  intro n
  induction n with
  | zero =>
    intro a ha
    simp [ringRead, Nat.mod_eq_of_lt ha]
  | succ n ih =>
    intro a ha
    have hlen : 0 < LEN := by omega
    have hnext : (a + 1) % LEN < LEN := Nat.mod_lt _ hlen
    obtain ⟨h1, h2⟩ := ih ((a + 1) % LEN) hnext
    unfold ringRead
    rw [ring_next_index, h1, h2]
    constructor
    · have hj : ∀ j, a + 1 + j = a + (j + 1) := by intro j; omega
      rw [List.range_succ_eq_map, List.map_cons, List.map_map]
      simp only [Int.toNat_ofNat, Nat.add_zero, Nat.mod_eq_of_lt ha, Function.comp,
        Nat.mod_add_mod, Nat.succ_eq_add_one, hj]
      rfl
    · congr 1
      rw [Nat.mod_add_mod]; congr 1; omega

theorem ringWrite_index (LEN : Nat) (src : List Nat) : ∀ (n i : Nat) (buffer : List Nat) (a : Nat),
    a < LEN →
    (ringWrite LEN src n i buffer (a : Int)).2 = (((a + n) % LEN : Nat) : Int) ∧
    (ringWrite LEN src n i buffer (a : Int)).1.length = buffer.length := by
  intro n
  induction n with
  | zero => intro i buffer a ha; simp [ringWrite, Nat.mod_eq_of_lt ha]
  | succ n ih =>
    intro i buffer a ha
    have hlen : 0 < LEN := by omega
    have hnext : (a + 1) % LEN < LEN := Nat.mod_lt _ hlen
    unfold ringWrite
    rw [ring_next_index]
    obtain ⟨h1, h2⟩ := ih (i + 1) (buffer.set (a : Int).toNat (src.getD i 0)) ((a + 1) % LEN) hnext
    rw [h1, h2]
    constructor
    · congr 1
      rw [Nat.mod_add_mod]; congr 1; omega
    · simp

theorem wakeProcess_pipes (s : Kernel) (p : Ptr) :
    (wakeProcess s p).global_pipes = s.global_pipes := rfl

theorem pickNext_pipes (s : Kernel) : (pickNext s).2.global_pipes = s.global_pipes := by
  unfold pickNext
  cases s.ready_processes.head <;> rfl

theorem KCSwitch_pipes (hw : Hardware) (s : Kernel) (c n : Ptr) :
    (KCSwitch hw s c n).global_pipes = s.global_pipes := by
  unfold KCSwitch
  cases (s.pcb n).kernel_stack <;> rfl

theorem switch_pipes (hw : Hardware) (s : Kernel) (c : Ptr) :
    (KCSwitch hw (pickNext s).2 c (pickNext s).1).global_pipes = s.global_pipes := by
  rw [KCSwitch_pipes, pickNext_pipes]

theorem ringWrite_index_int (LEN : Nat) (src : List Nat) (n i : Nat) (buffer : List Nat)
    (w : Int) (h0 : 0 ≤ w) (h1 : w < LEN) :
    (ringWrite LEN src n i buffer w).2 = (w + (n : Int)) % (LEN : Int) := by
  obtain ⟨a, rfl⟩ : ∃ a : Nat, w = (a : Int) := ⟨w.toNat, by omega⟩
  rw [(ringWrite_index LEN src n i buffer a (by omega)).1]
  push_cast; rfl

theorem ringRead_index_int (LEN : Nat) (buffer : List Nat) (n : Nat)
    (r : Int) (h0 : 0 ≤ r) (h1 : r < LEN) :
    (ringRead LEN buffer n r).2 = (r + (n : Int)) % (LEN : Int) := by
  obtain ⟨a, rfl⟩ : ∃ a : Nat, r = (a : Int) := ⟨r.toNat, by omega⟩
  rw [(ringRead_spec LEN buffer n a (by omega)).2]
  push_cast; rfl

theorem ring_step_write (L w r ba n : Int) (h : (w - r) % L = ba % L) :
    ((w + n) % L - r) % L = (ba + n) % L := by
  have h1 : ((w + n) % L - r) % L = ((w - r) + n) % L := by
    rw [Int.sub_emod, Int.emod_emod, ← Int.sub_emod]; congr 1; ring
  rw [h1, Int.add_emod, h, ← Int.add_emod]

theorem ring_step_read (L w r ba n : Int) (h : (w - r) % L = ba % L) :
    (w - (r + n) % L) % L = (ba - n) % L := by
  have h1 : (w - (r + n) % L) % L = ((w - r) - n) % L := by
    rw [Int.sub_emod, Int.emod_emod, ← Int.sub_emod]; congr 1; ring
  rw [h1, Int.sub_emod, h, ← Int.sub_emod]

theorem pipesInv_of_pipes_eq (LEN : Nat) (s t : Kernel) (h : t.global_pipes = s.global_pipes)
    (hi : pipesInv LEN s) : pipesInv LEN t := by
  unfold pipesInv at *; rw [h]; exact hi

theorem pipesInv_setPipe (LEN : Nat) (s : Kernel) (id : Int) (f : pipe_t → pipe_t)
    (hi : pipesInv LEN s)
    (hf : ∀ p, FindPipe s id = some p → pipeInv LEN p → pipeInv LEN (f p)) :
    pipesInv LEN (s.setPipe id f) := by
  intro y hy
  rcases mem_updateFirst _ _ _ _ hy with h | ⟨x, hx, rfl⟩
  · exact hi y h
  · exact hf x hx (hi x (List.mem_of_find?_eq_some hx))

theorem PipeInit_pipesInv (LEN : Nat) (hL : 0 < LEN) (s : Kernel) (idp : Nat)
    (hi : pipesInv LEN s) : pipesInv LEN (PipeInit LEN s idp).2.2 := by
  unfold PipeInit
  by_cases h : idp = 0
  · rw [if_pos h]; exact hi
  · rw [if_neg h]
    intro y hy
    rcases List.mem_append.1 hy with h1 | h1
    · exact hi y h1
    · rw [List.mem_singleton] at h1
      subst h1
      refine ⟨le_refl _, ?_, le_refl _, ?_, le_refl _, ?_, rfl, ?_⟩
      · show (0 : Int) < LEN; omega
      · show (0 : Int) < LEN; omega
      · show (0 : Int) ≤ LEN; omega
      · intro r hr; simp at hr

theorem Reclaim_pipesInv (LEN : Nat) (s : Kernel) (id : Int) (hi : pipesInv LEN s) :
    pipesInv LEN (Reclaim s id).2 := by
  unfold Reclaim
  split
  · exact hi
  split
  · unfold ReclaimLockHelper
    split
    · exact hi
    · split
      · exact hi
      · exact hi
  split
  · unfold ReclaimCondvarHelper
    split
    · exact hi
    · exact hi
  split
  · unfold ReclaimPipeHelper
    split
    · exact hi
    · intro y hy
      exact hi y (mem_removeFirst _ _ _ hy)
  · exact hi

theorem servePendingWrites_pipesInv (LEN : Nat) (id : Int) :
    ∀ (reqs : List write_request_t) (s : Kernel), (∀ r ∈ reqs, 0 ≤ r.length) →
      pipesInv LEN s → pipesInv LEN (servePendingWrites LEN id reqs s) := by
  intro reqs
  induction reqs with
  | nil => intro s _ hi; exact hi
  | cons request rest ih =>
    intro s hreq hi
    unfold servePendingWrites
    cases hfind : FindPipe s id with
    | none => exact hi
    | some pipe =>
      dsimp only
      by_cases hfit : pipe.bytes_available + request.length ≤ LEN
      · rw [if_pos hfit]
        apply ih _ (fun r hr => hreq r (List.mem_cons_of_mem _ hr))
        apply pipesInv_of_pipes_eq LEN _ _ (wakeProcess_pipes _ _)
        apply pipesInv_setPipe LEN s id _ hi
        intro p hp hpi
        rw [hfind] at hp
        cases hp
        obtain ⟨h1, h2, h3, h4, h5, h6, h7, _⟩ := hpi
        have hl : 0 ≤ request.length := hreq request (List.mem_cons_self _ _)
        have hL : (0 : Int) < LEN := by omega
        have hw : (ringWrite LEN request.buffer request.length.toNat 0 pipe.buffer
            pipe.write_index).2 = (pipe.write_index + request.length) % (LEN : Int) := by
          rw [ringWrite_index_int LEN _ _ _ _ _ h3 h4, Int.toNat_of_nonneg hl]
        refine ⟨h1, h2, ?_, ?_, ?_, ?_, ?_, ?_⟩
        · show 0 ≤ (ringWrite LEN request.buffer request.length.toNat 0 pipe.buffer
            pipe.write_index).2
          rw [hw]; exact Int.emod_nonneg _ (by omega)
        · show (ringWrite LEN request.buffer request.length.toNat 0 pipe.buffer
            pipe.write_index).2 < LEN
          rw [hw]; exact Int.emod_lt_of_pos _ hL
        · show 0 ≤ pipe.bytes_available + request.length
          omega
        · exact hfit
        · show ((ringWrite LEN request.buffer request.length.toNat 0 pipe.buffer
            pipe.write_index).2 - pipe.read_index) % (LEN : Int) =
            (pipe.bytes_available + request.length) % (LEN : Int)
          rw [hw]; exact ring_step_write _ _ _ _ _ h7
        · exact fun r hr => hreq r (List.mem_cons_of_mem _ hr)
      · rw [if_neg hfit]; exact hi

theorem PipeRead_resume_pipesInv (LEN : Nat) (s : Kernel) (id : Int) (length : Int)
    (hlen : 0 < length) (hi : pipesInv LEN s) :
    pipesInv LEN (PipeRead_resume LEN s id length).state := by
  unfold PipeRead_resume
  cases hfind : FindPipe s id with
  | none => exact hi
  | some pipe =>
    dsimp only
    by_cases hz : pipe.bytes_available = 0
    · rw [if_pos hz]; exact hi
    · rw [if_neg hz]
      have hpipe : pipeInv LEN pipe := hi pipe (List.mem_of_find?_eq_some hfind)
      apply servePendingWrites_pipesInv LEN id _ _ hpipe.2.2.2.2.2.2.2
      apply pipesInv_setPipe LEN s id _ hi
      intro p hp hpi
      rw [hfind] at hp
      cases hp
      obtain ⟨h1, h2, h3, h4, h5, h6, h7, h8⟩ := hpi
      have hL : (0 : Int) < LEN := by omega
      have hb0 : 0 ≤ (if length < pipe.bytes_available then length else pipe.bytes_available) := by
        split <;> omega
      have hb1 : (if length < pipe.bytes_available then length else pipe.bytes_available) ≤
          pipe.bytes_available := by
        split <;> omega
      have hr : (ringRead LEN pipe.buffer
          (if length < pipe.bytes_available then length else pipe.bytes_available).toNat
          pipe.read_index).2 =
          (pipe.read_index +
            (if length < pipe.bytes_available then length else pipe.bytes_available)) %
              (LEN : Int) := by
        rw [ringRead_index_int LEN _ _ _ h1 h2, Int.toNat_of_nonneg hb0]
      refine ⟨?_, ?_, h3, h4, ?_, ?_, ?_, h8⟩
      · show 0 ≤ (ringRead LEN pipe.buffer _ pipe.read_index).2
        rw [hr]; exact Int.emod_nonneg _ (by omega)
      · show (ringRead LEN pipe.buffer _ pipe.read_index).2 < LEN
        rw [hr]; exact Int.emod_lt_of_pos _ hL
      · show 0 ≤ pipe.bytes_available - _
        omega
      · show pipe.bytes_available - _ ≤ (LEN : Int)
        omega
      · show (pipe.write_index - (ringRead LEN pipe.buffer _ pipe.read_index).2) % (LEN : Int) =
          (pipe.bytes_available - _) % (LEN : Int)
        rw [hr]; exact ring_step_read _ _ _ _ _ h7

theorem PipeRead_pipesInv (hw : Hardware) (LEN : Nat) (s : Kernel) (id : Int) (buffer : Nat)
    (length : Int) (hi : pipesInv LEN s) :
    pipesInv LEN (PipeRead hw LEN s id buffer length).state := by
  unfold PipeRead
  by_cases hargs : id ≤ 0 ∨ buffer = 0 ∨ length ≤ 0
  · rw [if_pos hargs]; exact hi
  · rw [if_neg hargs]
    cases hfind : FindPipe s id with
    | none => exact hi
    | some pipe =>
      dsimp only
      by_cases hz : pipe.bytes_available = 0
      · rw [if_pos hz]
        apply pipesInv_of_pipes_eq LEN _ _ (switch_pipes hw _ s.current_process)
        show pipesInv LEN (Kernel.setPipe { s with heap := _ } id _)
        apply pipesInv_setPipe LEN _ id _ hi
        intro p _ hpi
        exact hpi
      · rw [if_neg hz]
        apply PipeRead_resume_pipesInv LEN s id length _ hi
        by_contra hneg
        exact hargs (Or.inr (Or.inr (by omega)))

theorem PipeWrite_pipesInv (hw : Hardware) (LEN : Nat) (s : Kernel) (id : Int) (buffer : Nat)
    (src : List Nat) (length : Int) (hi : pipesInv LEN s) :
    pipesInv LEN (PipeWrite hw LEN s id buffer src length).2 := by
  unfold PipeWrite
  by_cases hargs : id ≤ 0 ∨ buffer = 0 ∨ length ≤ 0
  · rw [if_pos hargs]; exact hi
  · rw [if_neg hargs]
    have hlen : 0 < length := by
      by_contra hneg
      exact hargs (Or.inr (Or.inr (by omega)))
    cases hfind : FindPipe s id with
    | none => exact hi
    | some pipe =>
      dsimp only
      have hpipe : pipeInv LEN pipe := hi pipe (List.mem_of_find?_eq_some hfind)
      obtain ⟨h1, h2, h3, h4, h5, h6, h7, h8⟩ := hpipe
      have hL : (0 : Int) < LEN := by omega
      have hb : 0 ≤ (if length ≤ (LEN : Int) - pipe.bytes_available then length
          else (LEN : Int) - pipe.bytes_available) ∧
          (if length ≤ (LEN : Int) - pipe.bytes_available then length
          else (LEN : Int) - pipe.bytes_available) ≤ (LEN : Int) - pipe.bytes_available ∧
          (if length ≤ (LEN : Int) - pipe.bytes_available then length
          else (LEN : Int) - pipe.bytes_available) ≤ length := by
        split <;> omega
      generalize (if length ≤ (LEN : Int) - pipe.bytes_available then length
          else (LEN : Int) - pipe.bytes_available) = btw at hb ⊢
      obtain ⟨hb0, hb1, hb2⟩ := hb
      have hwi : (ringWrite LEN src btw.toNat 0 pipe.buffer pipe.write_index).2 =
          (pipe.write_index + btw) % (LEN : Int) := by
        rw [ringWrite_index_int LEN _ _ _ _ _ h3 h4, Int.toNat_of_nonneg hb0]
      have hs1 : pipesInv LEN (s.setPipe id (fun p =>
          { p with
            buffer := (ringWrite LEN src btw.toNat 0 pipe.buffer pipe.write_index).1
            write_index := (ringWrite LEN src btw.toNat 0 pipe.buffer pipe.write_index).2
            bytes_available := p.bytes_available + btw })) := by
        apply pipesInv_setPipe LEN s id _ hi
        intro p hp _
        rw [hfind] at hp
        cases hp
        refine ⟨h1, h2, ?_, ?_, ?_, ?_, ?_, h8⟩
        · show 0 ≤ (ringWrite LEN src _ 0 pipe.buffer pipe.write_index).2
          rw [hwi]; exact Int.emod_nonneg _ (by omega)
        · show (ringWrite LEN src _ 0 pipe.buffer pipe.write_index).2 < LEN
          rw [hwi]; exact Int.emod_lt_of_pos _ hL
        · show 0 ≤ pipe.bytes_available + _
          omega
        · show pipe.bytes_available + _ ≤ (LEN : Int)
          omega
        · show ((ringWrite LEN src _ 0 pipe.buffer pipe.write_index).2 - pipe.read_index) %
            (LEN : Int) = (pipe.bytes_available + _) % (LEN : Int)
          rw [hwi]; exact ring_step_write _ _ _ _ _ h7
      generalize s.setPipe id _ = s1 at hs1 ⊢
      have hs2 : pipesInv LEN
          (match pipe.read_queue.head with
            | some reader =>
              wakeProcess (s1.setPipe id (fun p =>
                { p with read_queue := (pcb_dequeue s1.heap pipe.read_queue).2 })) reader
            | none => s1) := by
        cases pipe.read_queue.head with
        | none => exact hs1
        | some reader =>
          apply pipesInv_of_pipes_eq LEN _ _ (wakeProcess_pipes _ _)
          apply pipesInv_setPipe LEN _ id _ hs1
          intro p _ hpi
          exact hpi
      generalize (match pipe.read_queue.head with
            | some reader =>
              wakeProcess (s1.setPipe id (fun p =>
                { p with read_queue := (pcb_dequeue s1.heap pipe.read_queue).2 })) reader
            | none => s1) = s2 at hs2 ⊢
      by_cases hfull : btw = length
      · rw [if_pos hfull]; exact hs2
      · rw [if_neg hfull]
        apply pipesInv_of_pipes_eq LEN _ _ (switch_pipes hw _ s2.current_process)
        show pipesInv LEN (Kernel.setPipe s2 id _)
        apply pipesInv_setPipe LEN _ id _ hs2
        intro p _ hpi
        obtain ⟨g1, g2, g3, g4, g5, g6, g7, g8⟩ := hpi
        refine ⟨g1, g2, g3, g4, g5, g6, g7, ?_⟩
        intro r hr
        rcases List.mem_append.1 hr with hr1 | hr1
        · exact g8 r hr1
        · rw [List.mem_singleton] at hr1
          subst hr1
          show 0 ≤ length - btw
          omega

theorem PipeCall_run_pipesInv (hw : Hardware) (LEN : Nat) (hL : 0 < LEN) (s : Kernel)
    (c : PipeCall) (hc : c.argsChecked = true) (hi : pipesInv LEN s) :
    pipesInv LEN (c.run hw LEN s) := by
  cases c with
  | pipeInit idp => exact PipeInit_pipesInv LEN hL s idp hi
  | pipeRead id buffer length => exact PipeRead_pipesInv hw LEN s id buffer length hi
  | pipeReadResume id length =>
    exact PipeRead_resume_pipesInv LEN s id length (by simpa [PipeCall.argsChecked] using hc) hi
  | pipeWrite id buffer src length => exact PipeWrite_pipesInv hw LEN s id buffer src length hi
  | reclaim id => exact Reclaim_pipesInv LEN s id hi

theorem runPipeCalls_pipesInv (hw : Hardware) (LEN : Nat) (hL : 0 < LEN) :
    ∀ (calls : List PipeCall) (s : Kernel), (∀ c ∈ calls, c.argsChecked = true) →
      pipesInv LEN s → pipesInv LEN (runPipeCalls hw LEN s calls) := by
  intro calls
  induction calls with
  | nil => intro s _ hi; exact hi
  | cons c cs ih =>
    intro s hc hi
    exact ih _ (fun d hd => hc d (List.mem_cons_of_mem _ hd))
      (PipeCall_run_pipesInv hw LEN hL s c (hc c (List.mem_cons_self _ _)) hi)

/-- C15 as stated fails on a full pipe: after `PipeInit` and a `PipeWrite` of
`PIPE_BUFFER_LEN = 4` bytes the pipe has `bytes_available = 4` while both
indices are `0`, so `(write_index - read_index) mod 4 = 0`. -/
theorem full_pipe_breaks_the_ring_equation :
    (PipeInit 4 initRuns 1).2.1 = some 196609 ∧
    (PipeWrite hw0 4 (PipeInit 4 initRuns 1).2.2 196609 1 [1, 2, 3, 4] 4).1 = .returned 4 ∧
    (FindPipe (PipeWrite hw0 4 (PipeInit 4 initRuns 1).2.2 196609 1 [1, 2, 3, 4] 4).2 196609).map
      (fun p => (p.bytes_available, p.write_index, p.read_index,
        (p.write_index - p.read_index) % 4)) = some (4, 0, 0, 0) := by
  decide!

/-- C15 (amended): starting without pipes, after every sequence of `PipeInit`,
`PipeRead` (both halves), `PipeWrite` and `Reclaim` calls every pipe has
`0 ≤ bytes_available ≤ PIPE_BUFFER_LEN`, and
`bytes_available = (write_index - read_index) mod PIPE_BUFFER_LEN` unless the
pipe is full, in which case `bytes_available = PIPE_BUFFER_LEN` and the two
indices are equal. -/
theorem pipe_ring_invariant (hw : Hardware) (LEN : Nat) (hL : 0 < LEN) (s : Kernel)
    (calls : List PipeCall) (hs : s.global_pipes = [])
    (hc : ∀ c ∈ calls, c.argsChecked = true) :
    ∀ p ∈ (runPipeCalls hw LEN s calls).global_pipes,
      0 ≤ p.bytes_available ∧ p.bytes_available ≤ LEN ∧
      (p.bytes_available = (p.write_index - p.read_index) % (LEN : Int) ∨
        (p.bytes_available = LEN ∧ p.write_index = p.read_index)) := by
  intro p hp
  have h0 : pipesInv LEN s := by
    intro q hq; rw [hs] at hq; simp at hq
  obtain ⟨h1, h2, h3, h4, h5, h6, h7, _⟩ := runPipeCalls_pipesInv hw LEN hL calls s hc h0 p hp
  refine ⟨h5, h6, ?_⟩
  by_cases hfull : p.bytes_available = LEN
  · right
    refine ⟨hfull, ?_⟩
    rw [hfull, Int.emod_self] at h7
    have hdvd : (LEN : Int) ∣ p.write_index - p.read_index := Int.dvd_of_emod_eq_zero h7
    have habs : |p.write_index - p.read_index| < (LEN : Int) := abs_lt.2 ⟨by omega, by omega⟩
    have := Int.eq_zero_of_abs_lt_dvd hdvd habs
    omega
  · left
    rw [h7, Int.emod_eq_of_lt h5 (by omega)]

/-- Witness for C15: a pipe of four bytes is created, six bytes are written
(four fit, the writer is suspended with two pending), three are read, the
pipe is read again and reclaimed. -/
theorem pipe_ring_invariant_witness :
    initRuns.global_pipes = [] ∧
    ∀ p ∈ (runPipeCalls hw0 4 initRuns
        [.pipeInit 1, .pipeWrite 196609 1 [1, 2, 3, 4, 5, 6] 6, .pipeRead 196609 1 3,
         .pipeReadResume 196609 2, .pipeRead 196609 1 4]).global_pipes,
      0 ≤ p.bytes_available ∧ p.bytes_available ≤ ((4 : Nat) : Int) ∧
      (p.bytes_available = (p.write_index - p.read_index) % ((4 : Nat) : Int) ∨
        (p.bytes_available = ((4 : Nat) : Int) ∧ p.write_index = p.read_index)) :=
  ⟨by decide!, pipe_ring_invariant hw0 4 (by decide) initRuns _ (by decide!) (by decide)⟩

/-! ### Ids of locks, condition variables and pipes -/

theorem or_and_type_mask (a c : Nat) (ha : a < 2 ^ 4) (hc : c < 2 ^ 16) :
    (a <<< 16 ||| c) &&& ((2 ^ 4 - 1) <<< 16) = a <<< 16 := by
  apply Nat.eq_of_testBit_eq
  intro j
  rw [Nat.testBit_and, Nat.testBit_or, Nat.testBit_shiftLeft, Nat.testBit_shiftLeft,
    Nat.testBit_two_pow_sub_one]
  by_cases hj : 16 ≤ j
  · have hcj : c.testBit j = false :=
      Nat.testBit_lt_two_pow (lt_of_lt_of_le hc (Nat.pow_le_pow_right (by decide) hj))
    rw [hcj]
    by_cases h4 : j - 16 < 4
    · simp [hj, h4]
    · have haj : a.testBit (j - 16) = false :=
        Nat.testBit_lt_two_pow (lt_of_lt_of_le ha (Nat.pow_le_pow_right (by decide) (by omega)))
      simp [hj, h4, haj]
  · simp [hj]

theorem or_and_id_mask (a c : Nat) (hc : c < 2 ^ 16) :
    (a <<< 16 ||| c) &&& (2 ^ 16 - 1) = c := by
  apply Nat.eq_of_testBit_eq
  intro j
  rw [Nat.testBit_and, Nat.testBit_or, Nat.testBit_shiftLeft, Nat.testBit_two_pow_sub_one]
  by_cases hj : 16 ≤ j
  · have hcj : c.testBit j = false :=
      Nat.testBit_lt_two_pow (lt_of_lt_of_le hc (Nat.pow_le_pow_right (by decide) hj))
    have hj2 : ¬ j < 16 := by omega
    simp [hj2, hcj]
  · have hj2 : j < 16 := by omega
    simp [hj, hj2]

theorem map_updateFirst {α β : Type} (p : α → Bool) (f : α → α) (g : α → β)
    (hf : ∀ x, g (f x) = g x) : ∀ ls : List α, (updateFirst p f ls).map g = ls.map g := by
  intro ls
  induction ls with
  | nil => rfl
  | cons a as ih =>
    by_cases hpa : p a = true
    · simp [updateFirst, hpa, hf]
    · simp [updateFirst, hpa, ih]

theorem removeFirst_sublist {α : Type} (p : α → Bool) :
    ∀ ls : List α, (removeFirst p ls).Sublist ls := by
  intro ls
  induction ls with
  | nil => exact List.Sublist.refl _
  | cons a as ih =>
    by_cases hpa : p a = true
    · simp [removeFirst, hpa]
    · simp [removeFirst, hpa, ih]

theorem syncView_setLock (s : Kernel) (id : Int) (f : lock_t → lock_t)
    (hf : ∀ x, (f x).id = x.id) : syncView (s.setLock id f) = syncView s := by
  unfold syncView lockIds Kernel.setLock
  rw [map_updateFirst _ _ _ hf]
  rfl

theorem syncView_setCondvar (s : Kernel) (id : Int) (f : cond_t → cond_t)
    (hf : ∀ x, (f x).id = x.id) : syncView (s.setCondvar id f) = syncView s := by
  unfold syncView condvarIds Kernel.setCondvar
  rw [map_updateFirst _ _ _ hf]
  rfl

theorem syncView_setPipe (s : Kernel) (id : Int) (f : pipe_t → pipe_t)
    (hf : ∀ x, (f x).id = x.id) : syncView (s.setPipe id f) = syncView s := by
  unfold syncView pipeIds Kernel.setPipe
  rw [map_updateFirst _ _ _ hf]
  rfl

theorem syncView_pickNext (s : Kernel) : syncView (pickNext s).2 = syncView s := by
  unfold pickNext
  cases s.ready_processes.head <;> rfl

theorem syncView_KCSwitch (hw : Hardware) (s : Kernel) (c n : Ptr) :
    syncView (KCSwitch hw s c n) = syncView s := by
  unfold KCSwitch
  cases (s.pcb n).kernel_stack <;> rfl

theorem syncView_switch (hw : Hardware) (s : Kernel) (c : Ptr) :
    syncView (KCSwitch hw (pickNext s).2 c (pickNext s).1) = syncView s := by
  rw [syncView_KCSwitch, syncView_pickNext]

theorem syncView_UpdateDelayedPCBLoop : ∀ (n : Nat) (s : Kernel) (p : Option Ptr),
    syncView (UpdateDelayedPCBLoop n s p) = syncView s := by
  intro n
  induction n with
  | zero => intro s p; cases p <;> rfl
  | succ n ih =>
    intro s p
    cases p with
    | none => rfl
    | some pcb =>
      unfold UpdateDelayedPCBLoop
      split
      · exact ih _ _
      · rw [ih]
        split <;> rfl

theorem syncView_UpdateDelayedPCB (s : Kernel) : syncView (UpdateDelayedPCB s) = syncView s := by
  unfold UpdateDelayedPCB
  split
  · rfl
  · exact syncView_UpdateDelayedPCBLoop _ _ _

theorem syncView_TrapClockHandler (hw : Hardware) (s : Kernel) :
    syncView (TrapClockHandler hw s) = syncView s := by
  unfold TrapClockHandler
  rw [syncView_switch]
  split
  · exact syncView_UpdateDelayedPCB s
  · exact syncView_UpdateDelayedPCB s

theorem syncView_SysDelay (hw : Hardware) (s : Kernel) (n : Int) :
    syncView (SysDelay hw s n).2 = syncView s := by
  unfold SysDelay
  split
  · rfl
  · split
    · rfl
    · dsimp only
      rw [syncView_switch]; rfl

theorem syncView_Acquire (hw : Hardware) (s : Kernel) (id : Int) :
    syncView (Acquire hw s id).2 = syncView s := by
  unfold Acquire
  split
  · rfl
  · cases FindLock s id with
    | none => rfl
    | some current =>
      dsimp only
      split
      · rw [syncView_switch]
        show syncView (Kernel.setLock { s with heap := _ } id _) = _
        rw [syncView_setLock]
        · rfl
        · intro _; rfl
      · rw [syncView_setLock]
        intro _; rfl

theorem syncView_Release (s : Kernel) (id : Int) : syncView (Release s id).2 = syncView s := by
  unfold Release
  split
  · rfl
  · cases FindLock s id with
    | none => rfl
    | some current =>
      dsimp only
      split
      · rfl
      · cases current.wait_queue.head with
        | none =>
          dsimp only
          rw [syncView_setLock]
          intro _; rfl
        | some next =>
          dsimp only
          rw [syncView_setLock]
          · show syncView (Kernel.setLock (Kernel.setLock s id _) id _) = _
            rw [syncView_setLock, syncView_setLock]
            · intro _; rfl
            · intro _; rfl
          · intro _; rfl

theorem syncView_CvarWait (hw : Hardware) (s : Kernel) (cv id : Int) :
    syncView (CvarWait hw s cv id).2 = syncView s := by
  unfold CvarWait
  split
  · rfl
  · simp only []
    split
    · exact syncView_Release s id
    · rw [syncView_switch]
      show syncView (Kernel.setCondvar { (Release s id).2 with heap := _ } cv _) = _
      rw [syncView_setCondvar]
      · exact syncView_Release s id
      · intro _; rfl

theorem syncView_CvarSignal (s : Kernel) (id : Int) :
    syncView (CvarSignal s id).2 = syncView s := by
  unfold CvarSignal
  split
  · rfl
  · cases FindCondvar s id with
    | none => rfl
    | some condvar =>
      dsimp only
      cases condvar.wait_queue.head with
      | none => rfl
      | some next =>
        dsimp only
        show syncView (Kernel.setCondvar s id _) = _
        rw [syncView_setCondvar]
        intro _; rfl

theorem syncView_servePendingWrites (LEN : Nat) (id : Int) :
    ∀ (reqs : List write_request_t) (s : Kernel),
      syncView (servePendingWrites LEN id reqs s) = syncView s := by
  intro reqs
  induction reqs with
  | nil => intro s; rfl
  | cons request rest ih =>
    intro s
    unfold servePendingWrites
    cases FindPipe s id with
    | none => rfl
    | some pipe =>
      dsimp only
      split
      · rw [ih]
        show syncView (Kernel.setPipe s id _) = _
        rw [syncView_setPipe]
        intro _; rfl
      · rfl

theorem syncView_PipeRead_resume (LEN : Nat) (s : Kernel) (id : Int) (length : Int) :
    syncView (PipeRead_resume LEN s id length).state = syncView s := by
  unfold PipeRead_resume
  cases FindPipe s id with
  | none => rfl
  | some pipe =>
    dsimp only
    split
    · rfl
    · dsimp only
      rw [syncView_servePendingWrites, syncView_setPipe]
      intro _; rfl

theorem syncView_PipeRead (hw : Hardware) (LEN : Nat) (s : Kernel) (id : Int) (buffer : Nat)
    (length : Int) : syncView (PipeRead hw LEN s id buffer length).state = syncView s := by
  unfold PipeRead
  split
  · rfl
  · cases FindPipe s id with
    | none => rfl
    | some pipe =>
      dsimp only
      split
      · dsimp only
        rw [syncView_switch]
        show syncView (Kernel.setPipe { s with heap := _ } id _) = _
        rw [syncView_setPipe]
        · rfl
        · intro _; rfl
      · exact syncView_PipeRead_resume LEN s id length

theorem syncView_PipeWrite (hw : Hardware) (LEN : Nat) (s : Kernel) (id : Int) (buffer : Nat)
    (src : List Nat) (length : Int) :
    syncView (PipeWrite hw LEN s id buffer src length).2 = syncView s := by
  unfold PipeWrite
  split
  · rfl
  · cases FindPipe s id with
    | none => rfl
    | some pipe =>
      dsimp only
      generalize (if length ≤ (LEN : Int) - pipe.bytes_available then length
          else (LEN : Int) - pipe.bytes_available) = btw
      have hs1 : syncView (s.setPipe id (fun p =>
          { p with
            buffer := (ringWrite LEN src btw.toNat 0 pipe.buffer pipe.write_index).1
            write_index := (ringWrite LEN src btw.toNat 0 pipe.buffer pipe.write_index).2
            bytes_available := p.bytes_available + btw })) = syncView s :=
        syncView_setPipe s id _ (fun _ => rfl)
      generalize s.setPipe id _ = s1 at hs1 ⊢
      have hs2 : syncView
          (match pipe.read_queue.head with
            | some reader =>
              wakeProcess (s1.setPipe id (fun p =>
                { p with read_queue := (pcb_dequeue s1.heap pipe.read_queue).2 })) reader
            | none => s1) = syncView s := by
        cases pipe.read_queue.head with
        | none => exact hs1
        | some reader =>
          show syncView (Kernel.setPipe s1 id _) = _
          rw [syncView_setPipe, hs1]
          intro _; rfl
      generalize (match pipe.read_queue.head with
            | some reader =>
              wakeProcess (s1.setPipe id (fun p =>
                { p with read_queue := (pcb_dequeue s1.heap pipe.read_queue).2 })) reader
            | none => s1) = s2 at hs2 ⊢
      by_cases hfull : btw = length
      · rw [if_pos hfull]; exact hs2
      · rw [if_neg hfull]
        dsimp only
        rw [syncView_switch]
        show syncView (Kernel.setPipe s2 id _) = _
        rw [syncView_setPipe, hs2]
        intro _; rfl

/-- A reclaim leaves the counter alone and removes at most ids. -/
theorem Reclaim_view (s : Kernel) (id : Int) :
    (Reclaim s id).2.next_sync_id = s.next_sync_id ∧
    (lockIds (Reclaim s id).2).Sublist (lockIds s) ∧
    (condvarIds (Reclaim s id).2).Sublist (condvarIds s) ∧
    (pipeIds (Reclaim s id).2).Sublist (pipeIds s) := by
  have hrefl : s.next_sync_id = s.next_sync_id ∧ (lockIds s).Sublist (lockIds s) ∧
      (condvarIds s).Sublist (condvarIds s) ∧ (pipeIds s).Sublist (pipeIds s) :=
    ⟨rfl, List.Sublist.refl _, List.Sublist.refl _, List.Sublist.refl _⟩
  unfold Reclaim
  split
  · exact hrefl
  split
  · unfold ReclaimLockHelper
    split
    · exact hrefl
    · split
      · exact hrefl
      · exact ⟨rfl, (removeFirst_sublist _ _).map _, List.Sublist.refl _, List.Sublist.refl _⟩
  split
  · unfold ReclaimCondvarHelper
    split
    · exact hrefl
    · exact ⟨rfl, List.Sublist.refl _, (removeFirst_sublist _ _).map _, List.Sublist.refl _⟩
  split
  · unfold ReclaimPipeHelper
    split
    · exact hrefl
    · exact ⟨rfl, List.Sublist.refl _, List.Sublist.refl _, (removeFirst_sublist _ _).map _⟩
  · exact hrefl

theorem makeId_bits (a : Nat) (ha : a < 2 ^ 4) (c : Int) (h1 : 0 ≤ c) (h2 : c < 2 ^ 16) :
    GET_TYPE (makeId (a <<< 16) c) = a <<< 16 ∧ GET_RAW_ID (makeId (a <<< 16) c) = c.toNat := by
  have hc : (c % 2 ^ 32).toNat = c.toNat := by
    rw [Int.emod_eq_of_lt h1 (by omega)]
  have hn : c.toNat < 2 ^ 16 := by omega
  have ha2 : a <<< 16 < 2 ^ 32 := by
    rw [Nat.shiftLeft_eq]; norm_num at ha ⊢; omega
  have hlt : a <<< 16 ||| c.toNat < 2 ^ 32 := Nat.or_lt_two_pow ha2 (by omega)
  have hm : (((a <<< 16 ||| c.toNat : Nat) : Int) % 2 ^ 32).toNat = a <<< 16 ||| c.toNat := by
    rw [Int.emod_eq_of_lt (by omega) (by exact_mod_cast hlt)]
    exact Int.toNat_ofNat _
  unfold GET_TYPE GET_RAW_ID makeId
  rw [hc, hm]
  exact ⟨or_and_type_mask a c.toNat ha hn, or_and_id_mask a c.toNat hn⟩

theorem LOCK_ID_FLAG_eq : LOCK_ID_FLAG = 1 <<< 16 := by decide
theorem CONDVAR_ID_FLAG_eq : CONDVAR_ID_FLAG = 2 <<< 16 := by decide
theorem PIPE_ID_FLAG_eq : PIPE_ID_FLAG = 3 <<< 16 := by decide

/-- Ids made from counters in `[1, 0xFFFF]` are classified by their flag and
determine flag and counter. -/
theorem makeId_kind (c : Int) (h1 : 1 ≤ c) (h2 : c ≤ 0xFFFF) :
    (IS_LOCK (makeId LOCK_ID_FLAG c) = true ∧ IS_CONDVAR (makeId LOCK_ID_FLAG c) = false ∧
      IS_PIPE (makeId LOCK_ID_FLAG c) = false) ∧
    (IS_LOCK (makeId CONDVAR_ID_FLAG c) = false ∧ IS_CONDVAR (makeId CONDVAR_ID_FLAG c) = true ∧
      IS_PIPE (makeId CONDVAR_ID_FLAG c) = false) ∧
    (IS_LOCK (makeId PIPE_ID_FLAG c) = false ∧ IS_CONDVAR (makeId PIPE_ID_FLAG c) = false ∧
      IS_PIPE (makeId PIPE_ID_FLAG c) = true) := by
  have hl := (makeId_bits 1 (by decide) c (by omega) (by omega)).1
  have hc := (makeId_bits 2 (by decide) c (by omega) (by omega)).1
  have hp := (makeId_bits 3 (by decide) c (by omega) (by omega)).1
  rw [← LOCK_ID_FLAG_eq] at hl
  rw [← CONDVAR_ID_FLAG_eq] at hc
  rw [← PIPE_ID_FLAG_eq] at hp
  unfold IS_LOCK IS_CONDVAR IS_PIPE
  rw [hl, hc, hp]
  decide

theorem makeId_inj (a b : Nat) (ha : a < 2 ^ 4) (hb : b < 2 ^ 4) (c d : Int)
    (hc1 : 0 ≤ c) (hc2 : c < 2 ^ 16) (hd1 : 0 ≤ d) (hd2 : d < 2 ^ 16)
    (h : makeId (a <<< 16) c = makeId (b <<< 16) d) : c = d := by
  have h1 := (makeId_bits a ha c hc1 hc2).2
  have h2 := (makeId_bits b hb d hd1 hd2).2
  rw [h, h2] at h1
  omega

/-- A fresh counter value gives an id that no live object has. -/
theorem makeId_fresh (s : Kernel) (hi : idsInv s) (hb : s.next_sync_id ≤ 0xFFFF)
    (a : Nat) (ha : a = 1 ∨ a = 2 ∨ a = 3) :
    makeId (a <<< 16) s.next_sync_id ∉ liveIds s := by
  obtain ⟨h1, hl, hc, hp, _⟩ := hi
  have ha4 : a < 2 ^ 4 := by rcases ha with rfl | rfl | rfl <;> decide
  intro hmem
  unfold liveIds at hmem
  rcases List.mem_append.1 hmem with hm | hm
  · rcases List.mem_append.1 hm with hm | hm
    · obtain ⟨c, hc1, hc2, hc3⟩ := hl _ hm
      rw [LOCK_ID_FLAG_eq] at hc3
      have := makeId_inj a 1 ha4 (by decide) _ c (by omega) (by omega) (by omega) (by omega) hc3
      omega
    · obtain ⟨c, hc1, hc2, hc3⟩ := hc _ hm
      rw [CONDVAR_ID_FLAG_eq] at hc3
      have := makeId_inj a 2 ha4 (by decide) _ c (by omega) (by omega) (by omega) (by omega) hc3
      omega
  · obtain ⟨c, hc1, hc2, hc3⟩ := hp _ hm
    rw [PIPE_ID_FLAG_eq] at hc3
    have := makeId_inj a 3 ha4 (by decide) _ c (by omega) (by omega) (by omega) (by omega) hc3
    omega

theorem idsInv_mono (s t : Kernel) (hn : t.next_sync_id = s.next_sync_id)
    (hl : (lockIds t).Sublist (lockIds s)) (hc : (condvarIds t).Sublist (condvarIds s))
    (hp : (pipeIds t).Sublist (pipeIds s)) (hi : idsInv s) : idsInv t := by
  obtain ⟨h1, h2, h3, h4, h5⟩ := hi
  refine ⟨by rw [hn]; exact h1, ?_, ?_, ?_, ?_⟩
  · intro id hid; rw [hn]; exact h2 id (hl.subset hid)
  · intro id hid; rw [hn]; exact h3 id (hc.subset hid)
  · intro id hid; rw [hn]; exact h4 id (hp.subset hid)
  · exact h5.sublist ((hl.append hc).append hp)

theorem idsInv_of_view (s t : Kernel) (h : syncView t = syncView s) (hi : idsInv s) :
    idsInv t := by
  unfold syncView at h
  simp only [Prod.mk.injEq] at h
  obtain ⟨h1, h2, h3, h4⟩ := h
  exact idsInv_mono s t h1 (by rw [h2]) (by rw [h3]) (by rw [h4]) hi

theorem idsInv_create (s t : Kernel) (a : Nat) (ha : a = 1 ∨ a = 2 ∨ a = 3)
    (hi : idsInv s) (hb : s.next_sync_id ≤ 0xFFFF)
    (hn : t.next_sync_id = s.next_sync_id + 1)
    (hl : lockIds t = if a = 1 then lockIds s ++ [makeId (a <<< 16) s.next_sync_id]
      else lockIds s)
    (hc : condvarIds t = if a = 2 then condvarIds s ++ [makeId (a <<< 16) s.next_sync_id]
      else condvarIds s)
    (hp : pipeIds t = if a = 3 then pipeIds s ++ [makeId (a <<< 16) s.next_sync_id]
      else pipeIds s) :
    idsInv t := by
  have hfresh := makeId_fresh s hi hb a ha
  obtain ⟨h1, h2, h3, h4, h5⟩ := hi
  have hold : ∀ (F : Nat) (id : Int),
      (∃ c : Int, 1 ≤ c ∧ c < s.next_sync_id ∧ id = makeId F c) →
      ∃ c : Int, 1 ≤ c ∧ c < t.next_sync_id ∧ id = makeId F c := by
    rintro F id ⟨c, hc1, hc2, hc3⟩
    exact ⟨c, hc1, by omega, hc3⟩
  have hnew : ∀ F : Nat, F = a <<< 16 →
      ∃ c : Int, 1 ≤ c ∧ c < t.next_sync_id ∧ makeId (a <<< 16) s.next_sync_id = makeId F c := by
    rintro F rfl
    exact ⟨s.next_sync_id, h1, by omega, rfl⟩
  have hperm : (liveIds t).Perm (makeId (a <<< 16) s.next_sync_id :: liveIds s) := by
    unfold liveIds
    rw [hl, hc, hp]
    rcases ha with rfl | rfl | rfl
    · simp only [if_true, if_false, show ¬ (1 = 2) by decide, show ¬ (1 = 3) by decide,
        List.append_assoc, List.singleton_append]
      exact List.perm_middle
    · simp only [if_true, if_false, show ¬ (2 = 1) by decide, show ¬ (2 = 3) by decide]
      have := @List.perm_middle _ (makeId (2 <<< 16) s.next_sync_id)
        (lockIds s ++ condvarIds s) (pipeIds s)
      simpa only [List.append_assoc, List.singleton_append] using this
    · simp only [if_true, if_false, show ¬ (3 = 1) by decide, show ¬ (3 = 2) by decide]
      have := List.perm_append_singleton (makeId (3 <<< 16) s.next_sync_id)
        (lockIds s ++ condvarIds s ++ pipeIds s)
      simpa only [List.append_assoc] using this
  refine ⟨by omega, ?_, ?_, ?_, ?_⟩
  · intro id hid
    rw [hl] at hid
    split at hid
    · rename_i h
      rcases List.mem_append.1 hid with hm | hm
      · exact hold _ _ (h2 id hm)
      · rw [List.mem_singleton] at hm
        rw [hm]
        exact hnew _ (by rw [h]; exact LOCK_ID_FLAG_eq)
    · exact hold _ _ (h2 id hid)
  · intro id hid
    rw [hc] at hid
    split at hid
    · rename_i h
      rcases List.mem_append.1 hid with hm | hm
      · exact hold _ _ (h3 id hm)
      · rw [List.mem_singleton] at hm
        rw [hm]
        exact hnew _ (by rw [h]; exact CONDVAR_ID_FLAG_eq)
    · exact hold _ _ (h3 id hid)
  · intro id hid
    rw [hp] at hid
    split at hid
    · rename_i h
      rcases List.mem_append.1 hid with hm | hm
      · exact hold _ _ (h4 id hm)
      · rw [List.mem_singleton] at hm
        rw [hm]
        exact hnew _ (by rw [h]; exact PIPE_ID_FLAG_eq)
    · exact hold _ _ (h4 id hid)
  · exact hperm.nodup_iff.2 (List.nodup_cons.2 ⟨hfresh, h5⟩)

/-- One call either leaves the counter alone, or advances it by one; while the
counter it leaves is at most `0xFFFF` it preserves `idsInv`. -/
theorem SyncCall_run_ids (hw : Hardware) (LEN : Nat) (s : Kernel) (c : SyncCall) :
    s.next_sync_id ≤ (c.run hw LEN s).next_sync_id ∧
    (idsInv s → (c.run hw LEN s).next_sync_id ≤ 0xFFFF → idsInv (c.run hw LEN s)) := by
  have same : ∀ t : Kernel, syncView t = syncView s →
      s.next_sync_id ≤ t.next_sync_id ∧ (idsInv s → t.next_sync_id ≤ 0xFFFF → idsInv t) := by
    intro t h
    refine ⟨?_, fun hi _ => idsInv_of_view s t h hi⟩
    have : t.next_sync_id = s.next_sync_id := congrArg Prod.fst h
    omega
  have create : ∀ (t : Kernel) (a : Nat), (a = 1 ∨ a = 2 ∨ a = 3) →
      t.next_sync_id = s.next_sync_id + 1 →
      (lockIds t = if a = 1 then lockIds s ++ [makeId (a <<< 16) s.next_sync_id]
        else lockIds s) →
      (condvarIds t = if a = 2 then condvarIds s ++ [makeId (a <<< 16) s.next_sync_id]
        else condvarIds s) →
      (pipeIds t = if a = 3 then pipeIds s ++ [makeId (a <<< 16) s.next_sync_id]
        else pipeIds s) →
      s.next_sync_id ≤ t.next_sync_id ∧ (idsInv s → t.next_sync_id ≤ 0xFFFF → idsInv t) := by
    intro t a ha hn hl hc hp
    exact ⟨by omega, fun hi hb => idsInv_create s t a ha hi (by omega) hn hl hc hp⟩
  have reclaim : ∀ id : Int,
      s.next_sync_id ≤ (Reclaim s id).2.next_sync_id ∧
      (idsInv s → (Reclaim s id).2.next_sync_id ≤ 0xFFFF → idsInv (Reclaim s id).2) := by
    intro id
    obtain ⟨h1, h2, h3, h4⟩ := Reclaim_view s id
    exact ⟨by omega, fun hi _ => idsInv_mono s _ h1 h2 h3 h4 hi⟩
  cases c with
  | kernel c =>
    cases c with
    | lockInit idp =>
      show _ ≤ (LockInit s idp).2.2.next_sync_id ∧ (_ → (LockInit s idp).2.2.next_sync_id ≤ _ →
        idsInv (LockInit s idp).2.2)
      unfold LockInit
      split
      · exact same s rfl
      · apply create _ 1 (Or.inl rfl) rfl
        · show List.map _ (s.global_locks ++ [_]) = _
          rw [List.map_append]; rfl
        · rfl
        · rfl
    | acquire id => exact same _ (syncView_Acquire hw s id)
    | release id => exact same _ (syncView_Release s id)
    | cvarInit idp =>
      show _ ≤ (CvarInit s idp).2.2.next_sync_id ∧ (_ → (CvarInit s idp).2.2.next_sync_id ≤ _ →
        idsInv (CvarInit s idp).2.2)
      unfold CvarInit
      split
      · exact same s rfl
      · apply create _ 2 (Or.inr (Or.inl rfl)) rfl
        · rfl
        · show List.map _ (s.global_condvars ++ [_]) = _
          rw [List.map_append]; rfl
        · rfl
    | cvarWait cv id => exact same _ (syncView_CvarWait hw s cv id)
    | cvarWaitResume id => exact same _ (syncView_Acquire hw s id)
    | cvarSignal cv => exact same _ (syncView_CvarSignal s cv)
    | reclaim id => exact reclaim id
    | delay n => exact same _ (syncView_SysDelay hw s n)
    | clockTick => exact same _ (syncView_TrapClockHandler hw s)
  | pipe c =>
    cases c with
    | pipeInit idp =>
      show _ ≤ (PipeInit LEN s idp).2.2.next_sync_id ∧
        (_ → (PipeInit LEN s idp).2.2.next_sync_id ≤ _ → idsInv (PipeInit LEN s idp).2.2)
      unfold PipeInit
      split
      · exact same s rfl
      · apply create _ 3 (Or.inr (Or.inr rfl)) rfl
        · rfl
        · rfl
        · show List.map _ (s.global_pipes ++ [_]) = _
          rw [List.map_append]; rfl
    | pipeRead id buffer length => exact same _ (syncView_PipeRead hw LEN s id buffer length)
    | pipeReadResume id length => exact same _ (syncView_PipeRead_resume LEN s id length)
    | pipeWrite id buffer src length =>
      exact same _ (syncView_PipeWrite hw LEN s id buffer src length)
    | reclaim id => exact reclaim id

theorem runSyncCalls_ids (hw : Hardware) (LEN : Nat) :
    ∀ (calls : List SyncCall) (s : Kernel),
      s.next_sync_id ≤ (runSyncCalls hw LEN s calls).next_sync_id ∧
      (idsInv s → (runSyncCalls hw LEN s calls).next_sync_id ≤ 0xFFFF →
        idsInv (runSyncCalls hw LEN s calls)) := by
  intro calls
  induction calls with
  | nil => intro s; exact ⟨le_refl _, fun hi _ => hi⟩
  | cons c cs ih =>
    intro s
    obtain ⟨h1, h2⟩ := SyncCall_run_ids hw LEN s c
    obtain ⟨h3, h4⟩ := ih (c.run hw LEN s)
    refine ⟨le_trans h1 h3, fun hi hb => h4 (h2 hi (le_trans h3 hb)) hb⟩

theorem lockInits_counter (hw : Hardware) (LEN : Nat) : ∀ (n : Nat) (s : Kernel),
    (runSyncCalls hw LEN s (List.replicate n (.kernel (.lockInit 1)))).next_sync_id =
      s.next_sync_id + n := by
  intro n
  induction n with
  | zero => intro s; simp [runSyncCalls]
  | succ n ih =>
    intro s
    have := ih (SyncCall.run hw LEN s (.kernel (.lockInit 1)))
    simp only [runSyncCalls, List.replicate_succ, List.foldl_cons] at this ⊢
    rw [this]
    show s.next_sync_id + 1 + (n : Int) = _
    push_cast; ring

theorem lockInits_keep_locks (hw : Hardware) (LEN : Nat) : ∀ (n : Nat) (s : Kernel) (id : Int),
    id ∈ lockIds s →
    id ∈ lockIds (runSyncCalls hw LEN s (List.replicate n (.kernel (.lockInit 1)))) := by
  intro n
  induction n with
  | zero => intro s id h; exact h
  | succ n ih =>
    intro s id h
    have := ih (SyncCall.run hw LEN s (.kernel (.lockInit 1))) id (by
      show id ∈ List.map _ (s.global_locks ++ [_])
      rw [List.map_append]
      exact List.mem_append_left _ h)
    simpa only [runSyncCalls, List.replicate_succ, List.foldl_cons] using this

theorem LockInit_id (s : Kernel) (idp : Nat) (h : idp ≠ 0) :
    (LockInit s idp).2.1 = some (makeId LOCK_ID_FLAG s.next_sync_id) := by
  unfold LockInit; rw [if_neg h]

theorem CvarInit_id (s : Kernel) (idp : Nat) (h : idp ≠ 0) :
    (CvarInit s idp).2.1 = some (makeId CONDVAR_ID_FLAG s.next_sync_id) ∧
    (CvarInit s idp).2.2.next_sync_id = s.next_sync_id + 1 ∧
    lockIds (CvarInit s idp).2.2 = lockIds s := by
  unfold CvarInit; rw [if_neg h]
  exact ⟨rfl, rfl, rfl⟩

/-- C16 as stated fails once the shared counter passes `0xFFFF`. After 65535
`LockInit` calls from the state in which init first runs, `next_sync_id` is
`0x10000`: `CvarInit` then returns the id `0x30000`, which `IS_PIPE` accepts
and `IS_CONDVAR` rejects. The `LockInit` after it returns `0x10001`, the id
of the first lock, which is still on the list. -/
theorem ids_wrap_after_65535_objects :
    idsExhausted.next_sync_id = 65536 ∧
    (CvarInit idsExhausted 1).2.1 = some 196608 ∧
    IS_CONDVAR 196608 = false ∧ IS_PIPE 196608 = true ∧
    (LockInit (CvarInit idsExhausted 1).2.2 1).2.1 = some 65537 ∧
    (65537 : Int) ∈ lockIds (CvarInit idsExhausted 1).2.2 := by
  have h0 : (LockInit initRuns 1).2.2.next_sync_id = 2 := by decide!
  have h1 : idsExhausted.next_sync_id = 65536 := by
    have := lockInits_counter hw0 4 65534 (LockInit initRuns 1).2.2
    rw [h0] at this
    exact this
  have hm : (65537 : Int) ∈ lockIds idsExhausted :=
    lockInits_keep_locks hw0 4 65534 (LockInit initRuns 1).2.2 65537 (by decide!)
  obtain ⟨h2, h3, h4⟩ := CvarInit_id idsExhausted 1 (by decide)
  refine ⟨h1, ?_, by decide, by decide, ?_, ?_⟩
  · rw [h2, h1]; decide
  · rw [LockInit_id _ 1 (by decide), h3, h1]; decide
  · rw [h4]; exact hm

/-- C16 (amended): start from a state without locks, condition variables and
pipes and with `next_sync_id = 1`, and run any sequence of kernel calls. As
long as `next_sync_id` is at most `0xFFFF` (fewer than 65535 objects created
so far), the id that `LockInit`, `CvarInit` or `PipeInit` returns differs from
the id of every live lock, condition variable and pipe, and exactly the macro
of its own kind accepts it; the live ids are pairwise distinct and each is
accepted by exactly the macro of its own kind. -/
theorem init_ids_unique_and_typed (hw : Hardware) (LEN : Nat) (s0 : Kernel)
    (calls : List SyncCall) (idp : Nat)
    (h1 : s0.next_sync_id = 1) (h2 : liveIds s0 = []) (hidp : idp ≠ 0)
    (hb : (runSyncCalls hw LEN s0 calls).next_sync_id ≤ 0xFFFF) :
    (∃ id, (LockInit (runSyncCalls hw LEN s0 calls) idp).2.1 = some id ∧
      id ∉ liveIds (runSyncCalls hw LEN s0 calls) ∧
      IS_LOCK id = true ∧ IS_CONDVAR id = false ∧ IS_PIPE id = false) ∧
    (∃ id, (CvarInit (runSyncCalls hw LEN s0 calls) idp).2.1 = some id ∧
      id ∉ liveIds (runSyncCalls hw LEN s0 calls) ∧
      IS_LOCK id = false ∧ IS_CONDVAR id = true ∧ IS_PIPE id = false) ∧
    (∃ id, (PipeInit LEN (runSyncCalls hw LEN s0 calls) idp).2.1 = some id ∧
      id ∉ liveIds (runSyncCalls hw LEN s0 calls) ∧
      IS_LOCK id = false ∧ IS_CONDVAR id = false ∧ IS_PIPE id = true) ∧
    (liveIds (runSyncCalls hw LEN s0 calls)).Nodup ∧
    (∀ id ∈ lockIds (runSyncCalls hw LEN s0 calls),
      IS_LOCK id = true ∧ IS_CONDVAR id = false ∧ IS_PIPE id = false) ∧
    (∀ id ∈ condvarIds (runSyncCalls hw LEN s0 calls),
      IS_LOCK id = false ∧ IS_CONDVAR id = true ∧ IS_PIPE id = false) ∧
    (∀ id ∈ pipeIds (runSyncCalls hw LEN s0 calls),
      IS_LOCK id = false ∧ IS_CONDVAR id = false ∧ IS_PIPE id = true) := by
  have hi0 : idsInv s0 := by
    unfold liveIds at h2
    obtain ⟨h3, hp⟩ := List.append_eq_nil.1 h2
    obtain ⟨hl, hc⟩ := List.append_eq_nil.1 h3
    refine ⟨by omega, ?_, ?_, ?_, ?_⟩
    · intro id hid; rw [hl] at hid; simp at hid
    · intro id hid; rw [hc] at hid; simp at hid
    · intro id hid; rw [hp] at hid; simp at hid
    · unfold liveIds; rw [hl, hc, hp]; simp
  have hi := (runSyncCalls_ids hw LEN calls s0).2 hi0 hb
  generalize runSyncCalls hw LEN s0 calls = s at hb hi ⊢
  have hk := makeId_kind s.next_sync_id hi.1 hb
  have hf1 := makeId_fresh s hi hb 1 (Or.inl rfl)
  have hf2 := makeId_fresh s hi hb 2 (Or.inr (Or.inl rfl))
  have hf3 := makeId_fresh s hi hb 3 (Or.inr (Or.inr rfl))
  rw [← LOCK_ID_FLAG_eq] at hf1
  rw [← CONDVAR_ID_FLAG_eq] at hf2
  rw [← PIPE_ID_FLAG_eq] at hf3
  refine ⟨⟨makeId LOCK_ID_FLAG s.next_sync_id, ?_, hf1, hk.1⟩,
    ⟨makeId CONDVAR_ID_FLAG s.next_sync_id, ?_, hf2, hk.2.1⟩,
    ⟨makeId PIPE_ID_FLAG s.next_sync_id, ?_, hf3, hk.2.2⟩, hi.2.2.2.2, ?_, ?_, ?_⟩
  · unfold LockInit; rw [if_neg hidp]
  · unfold CvarInit; rw [if_neg hidp]
  · unfold PipeInit; rw [if_neg hidp]
  · intro id hid
    obtain ⟨c, hc1, hc2, rfl⟩ := hi.2.1 id hid
    exact (makeId_kind c hc1 (by omega)).1
  · intro id hid
    obtain ⟨c, hc1, hc2, rfl⟩ := hi.2.2.1 id hid
    exact (makeId_kind c hc1 (by omega)).2.1
  · intro id hid
    obtain ⟨c, hc1, hc2, rfl⟩ := hi.2.2.2.1 id hid
    exact (makeId_kind c hc1 (by omega)).2.2

/-- Witness for C16: init creates a lock, a condition variable and a pipe and
reclaims the lock; the next `LockInit` returns an id no live object has. -/
theorem init_ids_unique_and_typed_witness :
    (runSyncCalls hw0 4 initRuns
      [.kernel (.lockInit 1), .kernel (.cvarInit 1), .pipe (.pipeInit 1),
       .kernel (.reclaim 65537)]).next_sync_id ≤ 0xFFFF ∧
    ∃ id, (LockInit (runSyncCalls hw0 4 initRuns
        [.kernel (.lockInit 1), .kernel (.cvarInit 1), .pipe (.pipeInit 1),
         .kernel (.reclaim 65537)]) 1).2.1 = some id ∧
      id ∉ liveIds (runSyncCalls hw0 4 initRuns
        [.kernel (.lockInit 1), .kernel (.cvarInit 1), .pipe (.pipeInit 1),
         .kernel (.reclaim 65537)]) ∧
      IS_LOCK id = true ∧ IS_CONDVAR id = false ∧ IS_PIPE id = false :=
  ⟨by decide!,
   (init_ids_unique_and_typed hw0 4 initRuns
      [.kernel (.lockInit 1), .kernel (.cvarInit 1), .pipe (.pipeInit 1),
       .kernel (.reclaim 65537)] 1 (by decide!) (by decide!) (by decide) (by decide!)).1⟩

/-! ### Reclaim -/

theorem enqueueAll_queueIs : ∀ (ps : List Ptr) (h : Heap) (queue : pcb_queue_t) (qs : List Ptr),
    queueIs h queue qs → (qs ++ ps).Nodup →
    queueIs (enqueueAll h queue ps).1 (enqueueAll h queue ps).2 (qs ++ ps) := by
  intro ps
  induction ps with
  | nil => intro h queue qs hq _; simpa [enqueueAll] using hq
  | cons p ps ih =>
    intro h queue qs hq hnd
    have hp : p ∉ qs := by
      intro hm
      rw [List.nodup_append] at hnd
      exact hnd.2.2 hm (List.mem_cons_self _ _)
    have h1 := (pcb_enqueue_queueIs h queue qs p hq hp).1
    have h2 := ih (pcb_enqueue h queue p).1 (pcb_enqueue h queue p).2 (qs ++ [p]) h1
      (by simpa using hnd)
    simpa [enqueueAll] using h2

theorem dequeueN_queueIs (h : Heap) : ∀ (k : Nat) (queue : pcb_queue_t) (ps : List Ptr),
    queueIs h queue ps →
    (dequeueN h k queue).1 = (List.range k).map (fun i => ps[i]?) ∧
    queueIs h (dequeueN h k queue).2 (ps.drop k) := by
  intro k
  induction k with
  | zero => intro queue ps hq; exact ⟨rfl, by simpa [dequeueN] using hq⟩
  | succ k ih =>
    intro queue ps hq
    cases ps with
    | nil =>
      have hh : queue.head = none := (isChain_nil _ _).1 hq.1
      have hd : pcb_dequeue h queue = (none, queue) := by
        unfold pcb_dequeue; rw [hh]
      obtain ⟨i1, i2⟩ := ih queue [] hq
      unfold dequeueN
      rw [hd]
      refine ⟨?_, by simpa using i2⟩
      show none :: (dequeueN h k queue).1 = _
      rw [i1]
      simp [List.range_succ_eq_map, Function.comp_def]
    | cons p rest =>
      obtain ⟨hh, hd⟩ := pcb_dequeue_queueIs h queue p rest hq
      have h1 : (pcb_dequeue h queue).1 = some p := by
        unfold pcb_dequeue; rw [hh]
      obtain ⟨i1, i2⟩ := ih (pcb_dequeue h queue).2 rest hd
      unfold dequeueN
      rw [h1]
      refine ⟨?_, by simpa using i2⟩
      rw [i1, List.range_succ_eq_map, List.map_cons, List.map_map]
      simp [Function.comp]

/-- C29: queues are FIFO. Enqueue distinct PCBs `ps` on an empty queue, whatever
the PCB memory holds. Then `k` successive `pcb_dequeue` calls return the
first `k` of them in the order they were enqueued, and `NULL` from call number
`|ps| + 1` on; and after `k` calls `pcb_queue_is_empty` is true exactly when
all of `ps` have been dequeued (`|ps| ≤ k`). -/
theorem queue_is_fifo (h : Heap) (ps : List Ptr) (hnd : ps.Nodup) (k : Nat) :
    (dequeueN (enqueueAll h pcb_queue_create ps).1 k (enqueueAll h pcb_queue_create ps).2).1 =
      (List.range k).map (fun i => ps[i]?) ∧
    (pcb_queue_is_empty
      (dequeueN (enqueueAll h pcb_queue_create ps).1 k (enqueueAll h pcb_queue_create ps).2).2 =
        true ↔ ps.length ≤ k) := by
  have h0 : queueIs h pcb_queue_create [] := ⟨rfl, rfl, rfl⟩
  have h1 := enqueueAll_queueIs ps h pcb_queue_create [] h0 (by simpa using hnd)
  rw [List.nil_append] at h1
  obtain ⟨d1, d2⟩ := dequeueN_queueIs _ k _ ps h1
  refine ⟨d1, ?_⟩
  unfold pcb_queue_is_empty
  rw [d2.2.2]
  simp only [beq_iff_eq, List.length_drop]
  omega

/-- Witness for C29: three PCBs enqueued on an empty queue and five dequeues;
the last two return `NULL`. -/
theorem queue_is_fifo_witness :
    (dequeueN (enqueueAll bootKernel.heap pcb_queue_create [7, 5, 9]).1 5
      (enqueueAll bootKernel.heap pcb_queue_create [7, 5, 9]).2).1 =
      [some 7, some 5, some 9, none, none] :=
  (queue_is_fifo bootKernel.heap [7, 5, 9] (by decide) 5).1

/-- C30 (the code breaks the claim): PCBs 7, 5, 9 are enqueued on an empty
queue and one `pcb_dequeue` returns 7, leaving the members 5, 9. The new head
(PCB 5) still has `prev` pointing at the dequeued PCB 7, so `pcb_remove(q, 5)`
takes the branch for an inner node: it rewrites `next` of PCB 7 and leaves
`queue->head` alone. Afterwards the members reachable from the head are still
5, 9, `pcb_in_queue(q, 5)` is 1, and `size` is 1 for two members. -/
theorem remove_after_dequeue_keeps_the_member :
    (pcb_dequeue (enqueueAll bootKernel.heap pcb_queue_create [7, 5, 9]).1
      (enqueueAll bootKernel.heap pcb_queue_create [7, 5, 9]).2).1 = some 7 ∧
    queueIs (enqueueAll bootKernel.heap pcb_queue_create [7, 5, 9]).1
      (pcb_dequeue (enqueueAll bootKernel.heap pcb_queue_create [7, 5, 9]).1
        (enqueueAll bootKernel.heap pcb_queue_create [7, 5, 9]).2).2 [5, 9] ∧
    ((enqueueAll bootKernel.heap pcb_queue_create [7, 5, 9]).1.pcb 5).prev = some 7 ∧
    (pcb_remove (enqueueAll bootKernel.heap pcb_queue_create [7, 5, 9]).1
      (pcb_dequeue (enqueueAll bootKernel.heap pcb_queue_create [7, 5, 9]).1
        (enqueueAll bootKernel.heap pcb_queue_create [7, 5, 9]).2).2 5).2 =
      { head := some 5, tail := some 9, size := 1 } ∧
    chainList
      (pcb_remove (enqueueAll bootKernel.heap pcb_queue_create [7, 5, 9]).1
        (pcb_dequeue (enqueueAll bootKernel.heap pcb_queue_create [7, 5, 9]).1
          (enqueueAll bootKernel.heap pcb_queue_create [7, 5, 9]).2).2 5).1 10 (some 5) =
      [5, 9] ∧
    pcb_in_queue
      (pcb_remove (enqueueAll bootKernel.heap pcb_queue_create [7, 5, 9]).1
        (pcb_dequeue (enqueueAll bootKernel.heap pcb_queue_create [7, 5, 9]).1
          (enqueueAll bootKernel.heap pcb_queue_create [7, 5, 9]).2).2 5).1 5 10 (some 5) =
      true := by
  decide!

/-! ### The break of a process -/

/-- C23 (counterexample to the claim as stated): on `hw1` the address
`VMEM_1_LIMIT = 0x20000` is not a region-1 address, yet `SysBrk(0x20000)` by
init returns 0, maps pages 2 to 5, rewrites the two stack entries (pages 6
and 7) and takes six frames from the bitmap. -/
theorem brk_accepts_the_region_limit :
    IsRegion1Address lay1 0x20000 = false ∧
    (SysBrk hw1 lay1 initRuns8 0x20000).1 = 0 ∧
    (initRuns8.pcb 1).page_table =
      [⟨1, 5, 8⟩, ⟨1, 3, 9⟩, ⟨0, 0, 0⟩, ⟨0, 0, 0⟩, ⟨0, 0, 0⟩, ⟨0, 0, 0⟩, ⟨1, 3, 10⟩, ⟨1, 3, 11⟩] ∧
    ((SysBrk hw1 lay1 initRuns8 0x20000).2.pcb 1).page_table =
      [⟨1, 5, 8⟩, ⟨1, 3, 9⟩, ⟨1, 3, 12⟩, ⟨1, 3, 13⟩, ⟨1, 3, 14⟩, ⟨1, 3, 15⟩, ⟨1, 3, 16⟩,
       ⟨1, 3, 17⟩] ∧
    ((SysBrk hw1 lay1 initRuns8 0x20000).2.pcb 1).brk = some 0x20000 ∧
    initRuns8.frame_bitmap = [0xFF, 0x0F, 0, 0] ∧
    (SysBrk hw1 lay1 initRuns8 0x20000).2.frame_bitmap = [0xFF, 0xFF, 0x03, 0] := by
  decide!

/-- C23 (amended): for every address that is 0, below `VMEM_1_BASE` or above
`VMEM_1_LIMIT`, that is, outside the closed interval
`[VMEM_1_BASE, VMEM_1_LIMIT]`, `SysBrk` returns `ERROR` and leaves the whole
kernel state, hence the page table and the break of the caller and the frame
bitmap, unchanged. -/
theorem brk_rejects_addresses_outside_region1 (hw : Hardware) (lay : Layout) (s : Kernel)
    (addr : Nat) (h : addr = 0 ∨ ¬ (lay.VMEM_1_BASE ≤ addr ∧ addr ≤ lay.VMEM_1_LIMIT)) :
    SysBrk hw lay s addr = (ERROR, s) := by
  unfold SysBrk
  have h1 : addr = 0 ∨ addr < lay.VMEM_1_BASE ∨ addr > lay.VMEM_1_LIMIT := by
    rcases h with h | h
    · exact Or.inl h
    · by_cases hb : lay.VMEM_1_BASE ≤ addr
      · right; right
        have : ¬ addr ≤ lay.VMEM_1_LIMIT := fun hl => h ⟨hb, hl⟩
        omega
      · right; left; omega
  rw [if_pos h1]

/-- Witness for C23: `Brk(0)` of the test programs, and the first address
above the limit, on `hw1`. -/
theorem brk_rejects_addresses_outside_region1_witness :
    SysBrk hw1 lay1 initRuns8 0 = (ERROR, initRuns8) ∧
    SysBrk hw1 lay1 initRuns8 0x20001 = (ERROR, initRuns8) :=
  ⟨brk_rejects_addresses_outside_region1 hw1 lay1 initRuns8 0 (Or.inl rfl),
   brk_rejects_addresses_outside_region1 hw1 lay1 initRuns8 0x20001 (Or.inr (by decide))⟩

/-- C24 (the code breaks the claim): on `hw1` init has its lowest valid stack
page at index 6 (frame 10). `SysBrk(0x1E000)` asks for the break at page 7,
above that stack page; it returns 0, and the stack entry of page 6 is
rewritten to the fresh frame 16. Frame 10 stays marked used in the bitmap
while no entry refers to it any more. -/
theorem brk_grows_into_the_stack :
    (initRuns8.pcb 1).brk = none ∧
    (initRuns8.pcb 1).page_table =
      [⟨1, 5, 8⟩, ⟨1, 3, 9⟩, ⟨0, 0, 0⟩, ⟨0, 0, 0⟩, ⟨0, 0, 0⟩, ⟨0, 0, 0⟩, ⟨1, 3, 10⟩, ⟨1, 3, 11⟩] ∧
    IsRegion1Address lay1 0x1E000 = true ∧
    ((0x1E000 >>> lay1.PAGESHIFT : Nat) : Int) - (hw1.NUM_PAGES_REGION1 : Int) = 7 ∧
    (SysBrk hw1 lay1 initRuns8 0x1E000).1 = 0 ∧
    ((SysBrk hw1 lay1 initRuns8 0x1E000).2.pcb 1).page_table =
      [⟨1, 5, 8⟩, ⟨1, 3, 9⟩, ⟨1, 3, 12⟩, ⟨1, 3, 13⟩, ⟨1, 3, 14⟩, ⟨1, 3, 15⟩, ⟨1, 3, 16⟩,
       ⟨1, 3, 11⟩] ∧
    (SysBrk hw1 lay1 initRuns8 0x1E000).2.frame_bitmap = [0xFF, 0xFF, 0x01, 0] ∧
    frameBit (SysBrk hw1 lay1 initRuns8 0x1E000).2.frame_bitmap 10 = true := by
  decide!

/-- C25 (the code breaks the claim): on `hw1`, with `a = 0x16000` and
`b = 0x1E000`, both region-1 addresses, the three calls `brk(a); brk(b);
brk(a)` of init all return 0. Right after the first `brk(a)` the valid pages
are 0, 1, 2, 6, 7; after the round trip they are 0, 1, 2, 7: the stack page 6,
which `brk(b)` had rewritten, was unmapped by the second `brk(a)`. The
number of set bits is 13 both times, but frame 10 (the former stack frame) is
still marked used and no entry maps it. -/
theorem brk_round_trip_unmaps_a_stack_page :
    IsRegion1Address lay1 0x16000 = true ∧ IsRegion1Address lay1 0x1E000 = true ∧
    (SysBrk hw1 lay1 initRuns8 0x16000).1 = 0 ∧
    (SysBrk hw1 lay1 (SysBrk hw1 lay1 initRuns8 0x16000).2 0x1E000).1 = 0 ∧
    (SysBrk hw1 lay1 (SysBrk hw1 lay1 (SysBrk hw1 lay1 initRuns8 0x16000).2 0x1E000).2
      0x16000).1 = 0 ∧
    validPages ((SysBrk hw1 lay1 initRuns8 0x16000).2.pcb 1).page_table = [0, 1, 2, 6, 7] ∧
    validPages ((SysBrk hw1 lay1 (SysBrk hw1 lay1 (SysBrk hw1 lay1 initRuns8 0x16000).2
      0x1E000).2 0x16000).2.pcb 1).page_table = [0, 1, 2, 7] ∧
    setBits (SysBrk hw1 lay1 initRuns8 0x16000).2.frame_bitmap = 13 ∧
    setBits (SysBrk hw1 lay1 (SysBrk hw1 lay1 (SysBrk hw1 lay1 initRuns8 0x16000).2
      0x1E000).2 0x16000).2.frame_bitmap = 13 ∧
    ((SysBrk hw1 lay1 (SysBrk hw1 lay1 (SysBrk hw1 lay1 initRuns8 0x16000).2
      0x1E000).2 0x16000).2.pcb 1).page_table =
      [⟨1, 5, 8⟩, ⟨1, 3, 9⟩, ⟨1, 3, 12⟩, ⟨0, 3, 13⟩, ⟨0, 3, 14⟩, ⟨0, 3, 15⟩, ⟨0, 3, 16⟩,
       ⟨1, 3, 11⟩] := by
  decide!

/-- C33 (the code breaks the claim): `SysBrk` returns `ERROR` for lack of a
frame and leaves changes behind. First call of a process (`lastFrame8`, one
free frame): `SysBrk(0x18000)` maps page 2 to frame 15, fails on page 3 and
returns `ERROR`; page 2 stays mapped and the bitmap is full. Later call
(`lowMem8`, two free frames, break set to `0x16000` by a first call):
`SysBrk(0x1C000)` maps page 3 to frame 15, sets the valid bit of page 4, fails
and returns `ERROR`; page 3 stays mapped, page 4 is valid with frame number 0
and no access rights, the bitmap is full, the break is still `0x16000`. -/
theorem brk_failure_leaves_pages_mapped :
    (SysBrk hw1 lay1 lastFrame8 0x18000).1 = ERROR ∧
    (lastFrame8.pcb 1).page_table =
      [⟨1, 5, 8⟩, ⟨1, 3, 9⟩, ⟨0, 0, 0⟩, ⟨0, 0, 0⟩, ⟨0, 0, 0⟩, ⟨0, 0, 0⟩, ⟨1, 3, 10⟩, ⟨1, 3, 11⟩] ∧
    ((SysBrk hw1 lay1 lastFrame8 0x18000).2.pcb 1).page_table =
      [⟨1, 5, 8⟩, ⟨1, 3, 9⟩, ⟨1, 3, 15⟩, ⟨0, 0, 0⟩, ⟨0, 0, 0⟩, ⟨0, 0, 0⟩, ⟨1, 3, 10⟩,
       ⟨1, 3, 11⟩] ∧
    lastFrame8.frame_bitmap = [0xFF, 0x7F] ∧
    (SysBrk hw1 lay1 lastFrame8 0x18000).2.frame_bitmap = [0xFF, 0xFF] ∧
    (SysBrk hw1 lay1 lowMem8 0x16000).1 = 0 ∧
    ((SysBrk hw1 lay1 lowMem8 0x16000).2.pcb 1).page_table =
      [⟨1, 5, 8⟩, ⟨1, 3, 9⟩, ⟨1, 3, 14⟩, ⟨0, 0, 0⟩, ⟨0, 0, 0⟩, ⟨0, 0, 0⟩, ⟨1, 3, 10⟩,
       ⟨1, 3, 11⟩] ∧
    (SysBrk hw1 lay1 lowMem8 0x16000).2.frame_bitmap = [0xFF, 0x7F] ∧
    (SysBrk hw1 lay1 (SysBrk hw1 lay1 lowMem8 0x16000).2 0x1C000).1 = ERROR ∧
    ((SysBrk hw1 lay1 (SysBrk hw1 lay1 lowMem8 0x16000).2 0x1C000).2.pcb 1).page_table =
      [⟨1, 5, 8⟩, ⟨1, 3, 9⟩, ⟨1, 3, 14⟩, ⟨1, 3, 15⟩, ⟨1, 0, 0⟩, ⟨0, 0, 0⟩, ⟨1, 3, 10⟩,
       ⟨1, 3, 11⟩] ∧
    ((SysBrk hw1 lay1 (SysBrk hw1 lay1 lowMem8 0x16000).2 0x1C000).2.pcb 1).brk =
      some 0x16000 ∧
    (SysBrk hw1 lay1 (SysBrk hw1 lay1 lowMem8 0x16000).2 0x1C000).2.frame_bitmap =
      [0xFF, 0xFF] := by
  decide!

/-- C34 (the code breaks the claim): PCBs 7, 5, 9 are enqueued on an empty
queue and `pcb_dequeue` returns PCB 7. `pcb_dequeue` writes no field of any
PCB: afterwards PCB 7 still has `next` pointing at PCB 5, and the new head,
PCB 5, still has `prev` pointing at PCB 7. -/
theorem dequeue_leaves_the_links_in_place :
    (pcb_dequeue (enqueueAll bootKernel.heap pcb_queue_create [7, 5, 9]).1
      (enqueueAll bootKernel.heap pcb_queue_create [7, 5, 9]).2).1 = some 7 ∧
    (pcb_dequeue (enqueueAll bootKernel.heap pcb_queue_create [7, 5, 9]).1
      (enqueueAll bootKernel.heap pcb_queue_create [7, 5, 9]).2).2.head = some 5 ∧
    ((enqueueAll bootKernel.heap pcb_queue_create [7, 5, 9]).1.pcb 7).next = some 5 ∧
    ((enqueueAll bootKernel.heap pcb_queue_create [7, 5, 9]).1.pcb 7).prev = none ∧
    ((enqueueAll bootKernel.heap pcb_queue_create [7, 5, 9]).1.pcb 5).prev = some 7 := by
  decide!

/-! ### Kernel heap and the frames of the machine -/

/-- C35 (the code breaks the claim): before virtual memory is enabled,
`SetKernelBrk(addr)` with `addr` at or above the original break returns 0 and
changes nothing: `current_kernel_brk_page` keeps its value, whatever the page
of `addr` is. -/
theorem SetKernelBrk_before_vm_records_nothing (hw : Hardware) (lay : Layout)
    (orig_kernel_brk_page : Nat) (m : KernelHeap) (addr : Nat)
    (hvm : m.is_vm_enabled = 0) (ha : orig_kernel_brk_page ≤ addr >>> lay.PAGESHIFT) :
    SetKernelBrk hw lay orig_kernel_brk_page m addr = (0, m) := by
  unfold SetKernelBrk
  simp only
  rw [if_neg (by omega), if_pos hvm]

/-- Witness for C35: on `hw1` with a kernel image of three pages, the boot
allocations raise the break to `0xA000` (page 5) before virtual memory is on.
The call returns 0 and the recorded break page is still 3; after the region-0
loops of `KernelStart` pages 3 and 4 are not mapped and frames 3 and 4 are
free, so the next `GetFrame()` hands out frame 3. -/
theorem SetKernelBrk_before_vm_records_nothing_witness :
    SetKernelBrk hw1 lay1 3
        { current_kernel_brk_page := 3, is_vm_enabled := 0,
          page_table_region0 := List.replicate 8 ⟨0, 0, 0⟩, frame_bitmap := [0, 0, 0, 0] }
        0xA000 =
      (0, { current_kernel_brk_page := 3, is_vm_enabled := 0,
            page_table_region0 := List.replicate 8 ⟨0, 0, 0⟩, frame_bitmap := [0, 0, 0, 0] }) ∧
    (0xA000 >>> lay1.PAGESHIFT = 5) ∧
    (KernelStart_memory hw1 lay1 3 2 0x40000 [0xA000]).current_kernel_brk_page = 3 ∧
    (KernelStart_memory hw1 lay1 3 2 0x40000 [0xA000]).page_table_region0 =
      [⟨1, 5, 0⟩, ⟨1, 5, 1⟩, ⟨1, 3, 2⟩, ⟨0, 0, 0⟩, ⟨0, 0, 0⟩, ⟨0, 0, 0⟩, ⟨1, 3, 6⟩, ⟨1, 3, 7⟩] ∧
    (KernelStart_memory hw1 lay1 3 2 0x40000 [0xA000]).frame_bitmap = [0x07, 0, 0, 0] ∧
    (GetFrame (KernelStart_memory hw1 lay1 3 2 0x40000 [0xA000]).frame_bitmap).1 = 3 :=
  ⟨SetKernelBrk_before_vm_records_nothing hw1 lay1 3 _ 0xA000 rfl (by decide),
   by decide, by decide!, by decide!, by decide!, by decide!⟩

/-- C39 (the code breaks the claim): with a physical memory of 12 pages
(`pmem_size = 0x18000`, pages of `0x2000` bytes) `NUM_FRAMES` is 12 and the
bitmap has `BIT_VECTOR_SIZE(12) = 2` bytes, that is 16 bits. The first twelve
`GetFrame()` calls return frames 0 to 11; the next four return 12, 13, 14 and
15, which are not smaller than `NUM_FRAMES(pmem_size)`; only the seventeenth
call returns -1. -/
theorem GetFrame_returns_frames_beyond_physical_memory :
    NUM_FRAMES lay1 0x18000 = 12 ∧
    initialBitmap lay1 0x18000 = [0, 0] ∧
    (getFrames 17 (initialBitmap lay1 0x18000)).1 =
      [0, 1, 2, 3, 4, 5, 6, 7, 8, 9, 10, 11, 12, 13, 14, 15, -1] ∧
    (GetFrame [0xFF, 0x0F]).1 = 12 ∧
    ¬ ((GetFrame [0xFF, 0x0F]).1 < (NUM_FRAMES lay1 0x18000 : Int)) := by
  decide!

/-! ### Pipes: indices and pending writers -/

/-- C36: starting without pipes, after every sequence of `PipeInit`,
`PipeRead` (both halves), `PipeWrite` and `Reclaim` calls, every pipe has
`0 ≤ read_index < PIPE_BUFFER_LEN`, `0 ≤ write_index < PIPE_BUFFER_LEN` and
`(read_index + bytes_available) mod PIPE_BUFFER_LEN = write_index`. -/
theorem pipe_indices_invariant (hw : Hardware) (LEN : Nat) (hL : 0 < LEN) (s : Kernel)
    (calls : List PipeCall) (hs : s.global_pipes = [])
    (hc : ∀ c ∈ calls, c.argsChecked = true) :
    ∀ p ∈ (runPipeCalls hw LEN s calls).global_pipes,
      0 ≤ p.read_index ∧ p.read_index < LEN ∧ 0 ≤ p.write_index ∧ p.write_index < LEN ∧
      (p.read_index + p.bytes_available) % (LEN : Int) = p.write_index := by
  intro p hp
  have h0 : pipesInv LEN s := by
    intro q hq; rw [hs] at hq; simp at hq
  obtain ⟨h1, h2, h3, h4, _, _, h7, _⟩ := runPipeCalls_pipesInv hw LEN hL calls s hc h0 p hp
  refine ⟨h1, h2, h3, h4, ?_⟩
  have e : (p.read_index + p.bytes_available) % (LEN : Int) =
      (p.read_index + (p.write_index - p.read_index)) % (LEN : Int) := by
    rw [Int.add_emod, ← h7, ← Int.add_emod]
  rw [e]
  have : p.read_index + (p.write_index - p.read_index) = p.write_index := by omega
  rw [this]
  exact Int.emod_eq_of_lt h3 h4

/-- Witness for C36: a pipe of four bytes is created and filled completely,
two bytes are read, three are written (two fit, the writer is suspended with
one pending), and three are read. -/
theorem pipe_indices_invariant_witness :
    initRuns.global_pipes = [] ∧
    ∀ p ∈ (runPipeCalls hw0 4 initRuns
        [.pipeInit 1, .pipeWrite 196609 1 [1, 2, 3, 4] 4, .pipeRead 196609 1 2,
         .pipeWrite 196609 1 [5, 6, 7] 3, .pipeRead 196609 1 3]).global_pipes,
      0 ≤ p.read_index ∧ p.read_index < ((4 : Nat) : Int) ∧
      0 ≤ p.write_index ∧ p.write_index < ((4 : Nat) : Int) ∧
      (p.read_index + p.bytes_available) % ((4 : Nat) : Int) = p.write_index :=
  ⟨by decide!, pipe_indices_invariant hw0 4 (by decide) initRuns _ (by decide!) (by decide)⟩

/-- C37 (the code breaks the claim): a pipe of four bytes; while its child is
ready, init writes ten bytes: four are placed, a request for the last six is
queued and init is suspended on the blocked queue. The child then reads all
four available bytes. The pipe is empty, but `0 + 6 <= 4` is false, so the
head request stays queued, its bytes are not placed and init stays blocked;
no later read can change that, since a read of the empty pipe suspends the
reader before the requests are looked at. -/
theorem drained_pipe_does_not_serve_a_long_request :
    (PipeWrite hw0 4 (PipeInit 4 forkedOnce 1).2.2 196609 1
      [1, 2, 3, 4, 5, 6, 7, 8, 9, 10] 10).1 = .suspended 10 ∧
    (FindPipe (PipeWrite hw0 4 (PipeInit 4 forkedOnce 1).2.2 196609 1
      [1, 2, 3, 4, 5, 6, 7, 8, 9, 10] 10).2 196609).map
        (fun p => (p.bytes_available, p.write_queue)) =
      some (4, [{ pcb := 1, buffer := [5, 6, 7, 8, 9, 10], length := 6 }]) ∧
    (PipeWrite hw0 4 (PipeInit 4 forkedOnce 1).2.2 196609 1
      [1, 2, 3, 4, 5, 6, 7, 8, 9, 10] 10).2.current_process = 2 ∧
    (PipeRead hw0 4 (PipeWrite hw0 4 (PipeInit 4 forkedOnce 1).2.2 196609 1
      [1, 2, 3, 4, 5, 6, 7, 8, 9, 10] 10).2 196609 1 4).rc = some 4 ∧
    (PipeRead hw0 4 (PipeWrite hw0 4 (PipeInit 4 forkedOnce 1).2.2 196609 1
      [1, 2, 3, 4, 5, 6, 7, 8, 9, 10] 10).2 196609 1 4).out = [1, 2, 3, 4] ∧
    (FindPipe (PipeRead hw0 4 (PipeWrite hw0 4 (PipeInit 4 forkedOnce 1).2.2 196609 1
      [1, 2, 3, 4, 5, 6, 7, 8, 9, 10] 10).2 196609 1 4).state 196609).map
        (fun p => (p.bytes_available, p.write_queue)) =
      some (0, [{ pcb := 1, buffer := [5, 6, 7, 8, 9, 10], length := 6 }]) ∧
    ((PipeRead hw0 4 (PipeWrite hw0 4 (PipeInit 4 forkedOnce 1).2.2 196609 1
      [1, 2, 3, 4, 5, 6, 7, 8, 9, 10] 10).2 196609 1 4).state.pcb 1).state = .BLOCKED ∧
    queueIs (PipeRead hw0 4 (PipeWrite hw0 4 (PipeInit 4 forkedOnce 1).2.2 196609 1
      [1, 2, 3, 4, 5, 6, 7, 8, 9, 10] 10).2 196609 1 4).state.heap
      (PipeRead hw0 4 (PipeWrite hw0 4 (PipeInit 4 forkedOnce 1).2.2 196609 1
        [1, 2, 3, 4, 5, 6, 7, 8, 9, 10] 10).2 196609 1 4).state.blocked_processes [1] ∧
    queueIs (PipeRead hw0 4 (PipeWrite hw0 4 (PipeInit 4 forkedOnce 1).2.2 196609 1
      [1, 2, 3, 4, 5, 6, 7, 8, 9, 10] 10).2 196609 1 4).state.heap
      (PipeRead hw0 4 (PipeWrite hw0 4 (PipeInit 4 forkedOnce 1).2.2 196609 1
        [1, 2, 3, 4, 5, 6, 7, 8, 9, 10] 10).2 196609 1 4).state.ready_processes [] := by
  decide!

/-! ### A failing wait on a condition variable -/

/-- C38 (the code breaks the claim): init holds lock `65537`; no condition
variable has the id `131075`. `CvarWait(131075, 65537)` returns `ERROR`, but
only after `Release(lock_id)` and `pcb->state = PCB_STATE_BLOCKED`: the lock
is no longer held, has no owner, and init, still the current process, is
tagged `BLOCKED`. -/
theorem failing_CvarWait_releases_the_lock :
    syncReady.current_process = 1 ∧
    FindLock syncReady 65537 =
      some { is_locked := 1, id := 65537, owner := some 1, wait_queue := pcb_queue_create } ∧
    (syncReady.pcb 1).state = .RUNNING ∧
    FindCondvar syncReady 131075 = none ∧
    (CvarWait hw0 syncReady 131075 65537).1 = some ERROR ∧
    FindLock (CvarWait hw0 syncReady 131075 65537).2 65537 =
      some { is_locked := 0, id := 65537, owner := none, wait_queue := pcb_queue_create } ∧
    (CvarWait hw0 syncReady 131075 65537).2.current_process = 1 ∧
    ((CvarWait hw0 syncReady 131075 65537).2.pcb 1).state = .BLOCKED := by
  decide!

/-! ### Stack growth -/

/-- C31 (the code breaks the claim): init on `hw1` has its stack in pages 6
and 7 and one free frame (15) is left. A fault at `0x18000` (page 4) passes
both tests of the memory-fault handler. `GrowStackToAddress` maps page 4 to
frame 15, finds no frame for page 5 and returns `ERROR`; page 4 stays mapped
and frame 15 stays marked used. -/
theorem failed_stack_growth_keeps_its_pages :
    IsRegion1Address lay1 0x18000 = true ∧
    IsAddressBelowStackAndAboveBreak hw1 lay1 lastFrame8 0x18000 = true ∧
    (GrowStackToAddress hw1 lay1 lastFrame8 0x18000).1 = ERROR ∧
    (lastFrame8.pcb 1).page_table =
      [⟨1, 5, 8⟩, ⟨1, 3, 9⟩, ⟨0, 0, 0⟩, ⟨0, 0, 0⟩, ⟨0, 0, 0⟩, ⟨0, 0, 0⟩, ⟨1, 3, 10⟩, ⟨1, 3, 11⟩] ∧
    ((GrowStackToAddress hw1 lay1 lastFrame8 0x18000).2.pcb 1).page_table =
      [⟨1, 5, 8⟩, ⟨1, 3, 9⟩, ⟨0, 0, 0⟩, ⟨0, 0, 0⟩, ⟨1, 3, 15⟩, ⟨0, 0, 0⟩, ⟨1, 3, 10⟩,
       ⟨1, 3, 11⟩] ∧
    lastFrame8.frame_bitmap = [0xFF, 0x7F] ∧
    (GrowStackToAddress hw1 lay1 lastFrame8 0x18000).2.frame_bitmap = [0xFF, 0xFF] := by
  decide!

/-- C40 (the code breaks the claim): init on `hw1` has never called `Brk`, so
its break is null, and every region-1 address below the stack is "above the
break". For the faulting address `0x10010`, in the text page, both tests of
the memory-fault handler hold and `GrowStackToAddress` returns `SUCCESS`
after rewriting pages 0 to 5: the valid text page 0 (frame 8, read/execute)
and the valid data page 1 (frame 9) now map the zeroed frames 12 and 13 with
read/write protection, and frames 8 and 9 stay marked used. -/
theorem stack_growth_replaces_valid_pages :
    (initRuns8.pcb 1).brk = none ∧
    IsRegion1Address lay1 0x10010 = true ∧
    IsAddressBelowStackAndAboveBreak hw1 lay1 initRuns8 0x10010 = true ∧
    (GrowStackToAddress hw1 lay1 initRuns8 0x10010).1 = SUCCESS ∧
    (initRuns8.pcb 1).page_table =
      [⟨1, 5, 8⟩, ⟨1, 3, 9⟩, ⟨0, 0, 0⟩, ⟨0, 0, 0⟩, ⟨0, 0, 0⟩, ⟨0, 0, 0⟩, ⟨1, 3, 10⟩, ⟨1, 3, 11⟩] ∧
    ((GrowStackToAddress hw1 lay1 initRuns8 0x10010).2.pcb 1).page_table =
      [⟨1, 3, 12⟩, ⟨1, 3, 13⟩, ⟨1, 3, 14⟩, ⟨1, 3, 15⟩, ⟨1, 3, 16⟩, ⟨1, 3, 17⟩, ⟨1, 3, 10⟩,
       ⟨1, 3, 11⟩] ∧
    (GrowStackToAddress hw1 lay1 initRuns8 0x10010).2.pmem 12 = [0] ∧
    (GrowStackToAddress hw1 lay1 initRuns8 0x10010).2.frame_bitmap = [0xFF, 0xFF, 0x03, 0] ∧
    (TrapMemoryHandler hw1 lay1 initRuns8 0x10010).current_process = 1 ∧
    ((TrapMemoryHandler hw1 lay1 initRuns8 0x10010).pcb 1).page_table =
      [⟨1, 3, 12⟩, ⟨1, 3, 13⟩, ⟨1, 3, 14⟩, ⟨1, 3, 15⟩, ⟨1, 3, 16⟩, ⟨1, 3, 17⟩, ⟨1, 3, 10⟩,
       ⟨1, 3, 11⟩] := by
  decide!

/-! ### Exec and the loader -/

theorem SysExec_state (lay : Layout) (KILL : Int) (s : Kernel) (prog : Program) :
    (SysExec lay KILL s prog).2 = (LoadProgramCore lay s prog s.current_process).2 := by
  unfold SysExec
  split <;> rfl

theorem SysExec_rc (lay : Layout) (KILL : Int) (s : Kernel) (prog : Program) :
    (SysExec lay KILL s prog).1 =
      if (LoadProgramCore lay s prog s.current_process).1.toInt KILL ≠ SUCCESS then ERROR
      else SUCCESS := by
  unfold SysExec
  split <;> rename_i h
  · exact (if_pos (show (LoadProgramCore lay s prog s.current_process).1.toInt KILL ≠ SUCCESS
      from h)).symm
  · exact (if_neg (show ¬ (LoadProgramCore lay s prog s.current_process).1.toInt KILL ≠ SUCCESS
      from h)).symm

/-- C21 (the code breaks the claim): init on `hw1` (text, data and two stack
pages in frames 8 to 11, one more free frame) calls `Exec` for a program of
two text, three data and one stack page. The loader wipes region 1, maps text
and data to frames 8, 9, 10, 11, 15 and finds no frame for the stack page; it
returns `ERROR`, and so does `SysExec`, whatever the value of `KILL`. The page
table of the caller is that of the new program without a stack, not the one
before the call, and the bitmap went from `[0xFF, 0x7F]` to `[0xFF, 0xFF]`. -/
theorem failed_exec_destroys_the_image (KILL : Int) :
    (SysExec lay1 KILL lastFrame8 sixPages).1 = ERROR ∧
    (lastFrame8.pcb 1).page_table =
      [⟨1, 5, 8⟩, ⟨1, 3, 9⟩, ⟨0, 0, 0⟩, ⟨0, 0, 0⟩, ⟨0, 0, 0⟩, ⟨0, 0, 0⟩, ⟨1, 3, 10⟩, ⟨1, 3, 11⟩] ∧
    ((SysExec lay1 KILL lastFrame8 sixPages).2.pcb 1).page_table =
      [⟨1, 3, 8⟩, ⟨1, 3, 9⟩, ⟨1, 3, 10⟩, ⟨1, 3, 11⟩, ⟨1, 3, 15⟩, ⟨0, 0, 0⟩, ⟨0, 3, 10⟩,
       ⟨0, 3, 11⟩] ∧
    lastFrame8.frame_bitmap = [0xFF, 0x7F] ∧
    (SysExec lay1 KILL lastFrame8 sixPages).2.frame_bitmap = [0xFF, 0xFF] ∧
    (SysExec lay1 KILL lastFrame8 sixPages).2.current_process = 1 := by
  have h1 : (LoadProgramCore lay1 lastFrame8 sixPages lastFrame8.current_process).1 = .error := by
    decide!
  rw [SysExec_rc, SysExec_state, h1]
  have h2 : LoadCode.toInt KILL .error ≠ SUCCESS := by
    show ERROR ≠ SUCCESS
    decide
  refine ⟨if_pos h2, by decide!, by decide!, by decide!, by decide!, by decide!⟩

/-- C22 (the code breaks the claim): init on `hw1` calls `Exec` for a program
whose text segment cannot be read. The loader has wiped region 1 and mapped
the pages of the new program when the `read` fails, and returns `KILL`.
`SysExec` turns every value other than `SUCCESS` into `ERROR`, and the
handler returns to user mode: init is still the current process, tagged
`RUNNING`, the defunct queue is empty, the machine is not halted, and the
page table is that of the partially loaded program (text page still
read/write, one stack page). -/
theorem exec_returns_after_kill (KILL : Int) :
    (LoadProgram lay1 KILL initRuns8 unreadable 1).1 = KILL ∧
    (TrapKernelHandler_EXEC lay1 KILL initRuns8 unreadable).1 =
      (if KILL ≠ SUCCESS then ERROR else SUCCESS) ∧
    (TrapKernelHandler_EXEC lay1 KILL initRuns8 unreadable).2.current_process = 1 ∧
    ((TrapKernelHandler_EXEC lay1 KILL initRuns8 unreadable).2.pcb 1).state = .RUNNING ∧
    (TrapKernelHandler_EXEC lay1 KILL initRuns8 unreadable).2.defunct_processes =
      pcb_queue_create ∧
    (TrapKernelHandler_EXEC lay1 KILL initRuns8 unreadable).2.halted = false ∧
    (initRuns8.pcb 1).page_table =
      [⟨1, 5, 8⟩, ⟨1, 3, 9⟩, ⟨0, 0, 0⟩, ⟨0, 0, 0⟩, ⟨0, 0, 0⟩, ⟨0, 0, 0⟩, ⟨1, 3, 10⟩, ⟨1, 3, 11⟩] ∧
    ((TrapKernelHandler_EXEC lay1 KILL initRuns8 unreadable).2.pcb 1).page_table =
      [⟨1, 3, 8⟩, ⟨1, 3, 9⟩, ⟨1, 3, 10⟩, ⟨0, 0, 0⟩, ⟨0, 0, 0⟩, ⟨0, 0, 0⟩, ⟨0, 3, 10⟩,
       ⟨1, 3, 11⟩] := by
  have h1 : (LoadProgramCore lay1 initRuns8 unreadable 1).1 = .kill := by decide!
  have h2 : (LoadProgramCore lay1 initRuns8 unreadable initRuns8.current_process).1 = .kill := by
    decide!
  unfold TrapKernelHandler_EXEC
  rw [SysExec_rc, SysExec_state, h2]
  refine ⟨?_, rfl, by decide!, by decide!, by decide!, by decide!, by decide!, by decide!⟩
  show (LoadProgramCore lay1 initRuns8 unreadable 1).1.toInt KILL = KILL
  rw [h1]; rfl

/-- C32 (the code breaks the claim): init on `hw1` with five frames available
after the wipe loads a program of two text, four data and one stack page. The
text pages get frames 8 and 9, three data pages get frames 10, 11 and 15, and
`GetFrame` fails for the fourth data page. The loader frees the valid pages
of the data segment only and returns `ERROR`: the text pages 0 and 1 are
still valid and frames 8 and 9 are still marked used. -/
theorem loader_rollback_keeps_the_text_frames (KILL : Int) :
    (LoadProgram lay1 KILL lastFrame8 sevenPages 1).1 = ERROR ∧
    ((LoadProgram lay1 KILL lastFrame8 sevenPages 1).2.pcb 1).page_table =
      [⟨1, 3, 8⟩, ⟨1, 3, 9⟩, ⟨0, 3, 10⟩, ⟨0, 3, 11⟩, ⟨0, 3, 15⟩, ⟨0, 0, 0⟩, ⟨0, 3, 10⟩,
       ⟨0, 3, 11⟩] ∧
    (LoadProgram lay1 KILL lastFrame8 sevenPages 1).2.frame_bitmap = [0xFF, 0x73] ∧
    frameBit (LoadProgram lay1 KILL lastFrame8 sevenPages 1).2.frame_bitmap 8 = true ∧
    frameBit (LoadProgram lay1 KILL lastFrame8 sevenPages 1).2.frame_bitmap 9 = true := by
  have h1 : (LoadProgramCore lay1 lastFrame8 sevenPages 1).1 = .error := by decide!
  refine ⟨?_, ?_, ?_, ?_, ?_⟩
  · show (LoadProgramCore lay1 lastFrame8 sevenPages 1).1.toInt KILL = ERROR
    rw [h1]; rfl
  · show ((LoadProgramCore lay1 lastFrame8 sevenPages 1).2.pcb 1).page_table = _
    decide!
  · show (LoadProgramCore lay1 lastFrame8 sevenPages 1).2.frame_bitmap = _
    decide!
  · show frameBit (LoadProgramCore lay1 lastFrame8 sevenPages 1).2.frame_bitmap 8 = true
    decide!
  · show frameBit (LoadProgramCore lay1 lastFrame8 sevenPages 1).2.frame_bitmap 9 = true
    decide!

/-! ### Pointer checks of the system-call handler -/

/-- C26 (the code breaks the claim): on `hw0` region 1 ends at `0x18000`.
Init, whose child has exited, calls `Wait` with the status pointer `0x17FFE`:
the last two bytes of the `int` it points to lie outside region 1. The
`YALNIX_WAIT` case tests the first byte only, so `SysExit` is not called;
`SysWait` returns the pid of the child and stores the exit status to the
four bytes `0x17FFE .. 0x18001`. Init is still the running process. The test
of the `int *` argument of `LockInit`, `CvarInit` and `PipeInit` rejects the
same pointer. -/
theorem wait_accepts_a_status_pointer_across_the_limit :
    IsRegion1Address lay0 0x17FFE = true ∧
    IsRegion1Address lay0 0x18000 = false ∧
    IsRegion1Address lay0 0x18001 = false ∧
    childExited.current_process = 1 ∧
    (TrapKernelHandler_WAIT hw0 lay0 childExited 0x17FFE).exited = false ∧
    (TrapKernelHandler_WAIT hw0 lay0 childExited 0x17FFE).rc = some 2 ∧
    (TrapKernelHandler_WAIT hw0 lay0 childExited 0x17FFE).stored =
      [0x17FFE, 0x17FFF, 0x18000, 0x18001] ∧
    (TrapKernelHandler_WAIT hw0 lay0 childExited 0x17FFE).state.current_process = 1 ∧
    ((TrapKernelHandler_WAIT hw0 lay0 childExited 0x17FFE).state.pcb 1).state = .RUNNING ∧
    (TrapKernelHandler_WAIT hw0 lay0 childExited 0x17FFE).state.halted = false ∧
    intPointerRejected lay0 0x17FFE = true := by
  decide!

/-! ### Terminals -/

theorem memmoveFront_take (buffer : List Nat) (k n : Nat) (h : k + n ≤ buffer.length) :
    (memmoveFront buffer k n).take n = (buffer.take (k + n)).drop k := by
  unfold memmoveFront
  have h1 : ((buffer.drop k).take n).length = n := by
    rw [List.length_take, List.length_drop]; omega
  rw [List.take_append_of_le_length (by omega), List.take_of_length_le (by omega),
    List.drop_take]
  congr 1
  omega

theorem ttyReceive_length (MAX : Nat) (tty : tty_data_t) (line : List Nat)
    (h0 : 0 ≤ tty.read_buffer_len) (h1 : tty.read_buffer_len ≤ MAX)
    (h2 : tty.read_buffer.length = MAX) :
    (ttyReceive MAX tty line).read_buffer_len ≤ (ttyReceive MAX tty line).read_buffer.length := by
  unfold ttyReceive
  simp only [List.length_append, List.length_take, List.length_drop, h2]
  have : (line.take ((MAX : Int) - tty.read_buffer_len).toNat).length ≤
      ((MAX : Int) - tty.read_buffer_len).toNat := by
    rw [List.length_take]; omega
  omega

theorem SysTtyRead_immediate (hw : Hardware) (NUM : Nat) (t : TtyKernel) (tty_id : Int)
    (buf : Nat) (n : Int) (hid : 0 ≤ tty_id) (hid2 : tty_id < NUM) (hbuf : buf ≠ 0) (hn : 0 < n)
    (hb : 0 < (t.tty_data tty_id).read_buffer_len)
    (hlen : (t.tty_data tty_id).read_buffer_len ≤ (t.tty_data tty_id).read_buffer.length) :
    (SysTtyRead hw NUM t tty_id buf n).1 = some (min n (t.tty_data tty_id).read_buffer_len) ∧
    ((SysTtyRead hw NUM t tty_id buf n).2.tty_pcb t.kernel.current_process).kernel_read_buffer =
      some ((t.tty_data tty_id).read_buffer.take
        (min n (t.tty_data tty_id).read_buffer_len).toNat) ∧
    ((SysTtyRead hw NUM t tty_id buf n).2.tty_pcb t.kernel.current_process).kernel_read_size =
      min n (t.tty_data tty_id).read_buffer_len ∧
    ((SysTtyRead hw NUM t tty_id buf n).2.tty_data tty_id).read_buffer_len =
      (t.tty_data tty_id).read_buffer_len - min n (t.tty_data tty_id).read_buffer_len ∧
    ((SysTtyRead hw NUM t tty_id buf n).2.tty_data tty_id).read_buffer.take
        ((t.tty_data tty_id).read_buffer_len -
          min n (t.tty_data tty_id).read_buffer_len).toNat =
      ((t.tty_data tty_id).read_buffer.take (t.tty_data tty_id).read_buffer_len.toNat).drop
        (min n (t.tty_data tty_id).read_buffer_len).toNat := by
  have hargs : ¬ (tty_id < 0 ∨ tty_id ≥ NUM ∨ buf = 0 ∨ n ≤ 0) := by
    intro h
    rcases h with h | h | h | h
    · omega
    · omega
    · exact hbuf h
    · omega
  unfold SysTtyRead
  rw [if_neg hargs]
  simp only
  rw [if_pos hb]
  by_cases hk : n < (t.tty_data tty_id).read_buffer_len
  · have hmin : min n (t.tty_data tty_id).read_buffer_len = n := min_eq_left (le_of_lt hk)
    rw [hmin]
    simp only [if_pos hk, TtyKernel.setTty, TtyKernel.setPcbTty, if_true]
    refine ⟨trivial, trivial, trivial, trivial, ?_⟩
    rw [memmoveFront_take _ _ _ (by omega)]
    congr 2
    omega
  · have hmin : min n (t.tty_data tty_id).read_buffer_len = (t.tty_data tty_id).read_buffer_len :=
      min_eq_right (by omega)
    rw [hmin]
    simp only [if_neg hk, lt_self_iff_false, if_false, TtyKernel.setTty, TtyKernel.setPcbTty,
      if_true]
    refine ⟨trivial, trivial, trivial, trivial, ?_⟩
    simp

theorem ttyReceive_read_queue (MAX : Nat) (tty : tty_data_t) (line : List Nat) :
    (ttyReceive MAX tty line).read_queue = tty.read_queue := rfl

theorem TrapTtyReceiveHandler_serves (MAX : Nat) (u : TtyKernel) (terminal : Int)
    (line : List Nat) (reader : Ptr) (n : Int)
    (hq : (u.tty_data terminal).read_queue.head = some reader)
    (hrn : (u.tty_pcb reader).tty_read_len = n) (hn : 0 < n)
    (hlen : (ttyReceive MAX (u.tty_data terminal) line).read_buffer_len ≤
      (ttyReceive MAX (u.tty_data terminal) line).read_buffer.length)
    (hub : 0 < (ttyReceive MAX (u.tty_data terminal) line).read_buffer_len) :
    ((TrapTtyReceiveHandler MAX u terminal line).tty_pcb reader).regs0 =
      min n (ttyReceive MAX (u.tty_data terminal) line).read_buffer_len ∧
    ((TrapTtyReceiveHandler MAX u terminal line).tty_pcb reader).kernel_read_buffer =
      some ((ttyReceive MAX (u.tty_data terminal) line).read_buffer.take
        (min n (ttyReceive MAX (u.tty_data terminal) line).read_buffer_len).toNat) ∧
    ((TrapTtyReceiveHandler MAX u terminal line).tty_pcb reader).kernel_read_size =
      min n (ttyReceive MAX (u.tty_data terminal) line).read_buffer_len ∧
    ((TrapTtyReceiveHandler MAX u terminal line).tty_data terminal).read_buffer_len =
      (ttyReceive MAX (u.tty_data terminal) line).read_buffer_len -
        min n (ttyReceive MAX (u.tty_data terminal) line).read_buffer_len ∧
    ((TrapTtyReceiveHandler MAX u terminal line).tty_data terminal).read_buffer.take
        ((ttyReceive MAX (u.tty_data terminal) line).read_buffer_len -
          min n (ttyReceive MAX (u.tty_data terminal) line).read_buffer_len).toNat =
      ((ttyReceive MAX (u.tty_data terminal) line).read_buffer.take
          (ttyReceive MAX (u.tty_data terminal) line).read_buffer_len.toNat).drop
        (min n (ttyReceive MAX (u.tty_data terminal) line).read_buffer_len).toNat := by
  unfold TrapTtyReceiveHandler
  simp only [TtyKernel.setTty, TtyKernel.setPcbTty, if_true, ttyReceive_read_queue, hq, hrn]
  by_cases hk : n < (ttyReceive MAX (u.tty_data terminal) line).read_buffer_len
  · have hmin : min n (ttyReceive MAX (u.tty_data terminal) line).read_buffer_len = n :=
      min_eq_left (le_of_lt hk)
    rw [hmin]
    simp only [if_pos hk, if_true]
    refine ⟨trivial, trivial, trivial, trivial, ?_⟩
    rw [memmoveFront_take _ _ _ (by omega)]
    congr 2
    omega
  · have hmin : min n (ttyReceive MAX (u.tty_data terminal) line).read_buffer_len =
        (ttyReceive MAX (u.tty_data terminal) line).read_buffer_len := min_eq_right (by omega)
    rw [hmin]
    simp only [if_neg hk, lt_self_iff_false, if_false, if_true]
    refine ⟨trivial, trivial, trivial, ?_, ?_⟩
    · omega
    · simp

/-- C27: terminal read delivers a prefix and keeps the rest. Immediate read:
in a state `t` in which the terminal holds `b > 0` bytes (at most the size of
its buffer), `SysTtyRead` of `n > 0` bytes returns `min(n, b)`, stages the
first `min(n, b)` buffered bytes in the PCB of the caller and leaves the other
`b - min(n, b)` bytes, in order, at the start of the buffer. Waiting reader:
in a state `u` in which `reader` heads the read queue of the terminal with a
pending request for `n > 0` bytes, and the terminal holds `b > 0` bytes once
the receive interrupt has appended the incoming line, `TrapTtyReceiveHandler`
sets the saved register 0 of `reader` to `min(n, b)`, stages the first
`min(n, b)` bytes in its PCB and leaves the rest at the start of the buffer. -/
theorem tty_read_delivers_the_first_bytes (hw : Hardware) (NUM MAX : Nat) (t u : TtyKernel)
    (tty_id : Int) (buf : Nat) (n : Int) (line : List Nat) (reader : Ptr)
    (hid : 0 ≤ tty_id) (hid2 : tty_id < NUM) (hbuf : buf ≠ 0) (hn : 0 < n)
    (hb : 0 < (t.tty_data tty_id).read_buffer_len)
    (hlen : (t.tty_data tty_id).read_buffer_len ≤ (t.tty_data tty_id).read_buffer.length)
    (hq : (u.tty_data tty_id).read_queue.head = some reader)
    (hrn : (u.tty_pcb reader).tty_read_len = n)
    (hu0 : 0 ≤ (u.tty_data tty_id).read_buffer_len)
    (hu1 : (u.tty_data tty_id).read_buffer_len ≤ MAX)
    (hu2 : (u.tty_data tty_id).read_buffer.length = MAX)
    (hub : 0 < (ttyReceive MAX (u.tty_data tty_id) line).read_buffer_len) :
    (∃ count, (SysTtyRead hw NUM t tty_id buf n).1 = some count ∧
      deliversFirstBytes (t.tty_data tty_id) n count
        ((SysTtyRead hw NUM t tty_id buf n).2.tty_pcb t.kernel.current_process).kernel_read_buffer
        ((SysTtyRead hw NUM t tty_id buf n).2.tty_pcb t.kernel.current_process).kernel_read_size
        ((SysTtyRead hw NUM t tty_id buf n).2.tty_data tty_id)) ∧
    deliversFirstBytes (ttyReceive MAX (u.tty_data tty_id) line) n
      ((TrapTtyReceiveHandler MAX u tty_id line).tty_pcb reader).regs0
      ((TrapTtyReceiveHandler MAX u tty_id line).tty_pcb reader).kernel_read_buffer
      ((TrapTtyReceiveHandler MAX u tty_id line).tty_pcb reader).kernel_read_size
      ((TrapTtyReceiveHandler MAX u tty_id line).tty_data tty_id) := by
  constructor
  · obtain ⟨h1, h2, h3, h4, h5⟩ := SysTtyRead_immediate hw NUM t tty_id buf n hid hid2 hbuf hn hb hlen
    exact ⟨_, h1, rfl, h2, h3, h4, h5⟩
  · exact TrapTtyReceiveHandler_serves MAX u tty_id line reader n hq hrn hn
      (ttyReceive_length MAX _ line hu0 hu1 hu2) hub

/-- Witness for C27 on terminal 0 of `hw0` with lines of at most 4 bytes. In
`lineBuffered` the terminal holds 10, 20, 30 and init reads 2 bytes: it gets
2, the staging buffer holds 10, 20 and the byte 30 is left. In `readerWaits`
init waits for 2 bytes when the same line arrives: register 0 becomes 2, the
staging buffer holds 10, 20 and the byte 30 is left. -/
theorem tty_read_delivers_the_first_bytes_witness :
    (lineBuffered.tty_data 0).read_buffer_len = 3 ∧
    (lineBuffered.tty_data 0).read_buffer = [10, 20, 30, 0] ∧
    (SysTtyRead hw0 1 lineBuffered 0 0x16000 2).1 = some 2 ∧
    ((SysTtyRead hw0 1 lineBuffered 0 0x16000 2).2.tty_pcb 1).kernel_read_buffer =
      some [10, 20] ∧
    ((SysTtyRead hw0 1 lineBuffered 0 0x16000 2).2.tty_data 0).read_buffer_len = 1 ∧
    ((SysTtyRead hw0 1 lineBuffered 0 0x16000 2).2.tty_data 0).read_buffer.take 1 = [30] ∧
    (readerWaits.tty_data 0).read_queue.head = some 1 ∧
    ((TrapTtyReceiveHandler 4 readerWaits 0 [10, 20, 30]).tty_pcb 1).regs0 = 2 ∧
    ((TrapTtyReceiveHandler 4 readerWaits 0 [10, 20, 30]).tty_pcb 1).kernel_read_buffer =
      some [10, 20] ∧
    ((TrapTtyReceiveHandler 4 readerWaits 0 [10, 20, 30]).tty_data 0).read_buffer.take 1 =
      [30] ∧
    ((∃ count, (SysTtyRead hw0 1 lineBuffered 0 0x16000 2).1 = some count ∧
      deliversFirstBytes (lineBuffered.tty_data 0) 2 count
        ((SysTtyRead hw0 1 lineBuffered 0 0x16000 2).2.tty_pcb
          lineBuffered.kernel.current_process).kernel_read_buffer
        ((SysTtyRead hw0 1 lineBuffered 0 0x16000 2).2.tty_pcb
          lineBuffered.kernel.current_process).kernel_read_size
        ((SysTtyRead hw0 1 lineBuffered 0 0x16000 2).2.tty_data 0)) ∧
    deliversFirstBytes (ttyReceive 4 (readerWaits.tty_data 0) [10, 20, 30]) 2
      ((TrapTtyReceiveHandler 4 readerWaits 0 [10, 20, 30]).tty_pcb 1).regs0
      ((TrapTtyReceiveHandler 4 readerWaits 0 [10, 20, 30]).tty_pcb 1).kernel_read_buffer
      ((TrapTtyReceiveHandler 4 readerWaits 0 [10, 20, 30]).tty_pcb 1).kernel_read_size
      ((TrapTtyReceiveHandler 4 readerWaits 0 [10, 20, 30]).tty_data 0)) :=
  ⟨by decide!, by decide!, by decide!, by decide!, by decide!, by decide!, by decide!,
   by decide!, by decide!, by decide!,
   tty_read_delivers_the_first_bytes hw0 1 4 lineBuffered readerWaits 0 0x16000 2 [10, 20, 30] 1
     (by decide) (by decide) (by decide) (by decide) (by decide!) (by decide!) (by decide!)
     (by decide!) (by decide!) (by decide!) (by decide!) (by decide!)⟩

/-- C28 (the code breaks the claim): terminal 0 of `hw0`. Init writes the two
bytes 65, 66 at its address `0x16000`; the terminal is free, the bytes are
copied from the address space of init and handed to the device. The child
then writes the two bytes 67, 68 at its address `0x16000`; the terminal is
busy, the child is queued and idle runs. When the transmit interrupt for the
first write arrives, the handler wakes init and starts the write of the
child with `StartTtyWrite`, whose `memcpy` reads address `0x16000` in the
address space that is active then, that of idle: the chunk handed to the
device is 3, 0, the start of the stack page of idle. After the next transmit
interrupt the child is ready with return value 2 and the terminal is free;
the bytes 67, 68 were never transmitted. -/
theorem queued_terminal_write_sends_foreign_bytes :
    twoWriters.kernel.current_process = 1 ∧
    userBytes lay0 twoWriters.kernel 0x16000 2 = some [65, 66] ∧
    (TrapKernelHandler_TTY_WRITE hw0 lay0 1 4 twoWriters 0 0x16000 2).1 = .suspended 2 ∧
    firstWrite.transmitted = [(0, [65, 66])] ∧
    firstWrite.kernel.current_process = 2 ∧
    userBytes lay0 firstWrite.kernel 0x16000 2 = some [67, 68] ∧
    (TrapKernelHandler_TTY_WRITE hw0 lay0 1 4 firstWrite 0 0x16000 2).1 = .suspended 2 ∧
    secondWrite.transmitted = [(0, [65, 66])] ∧
    (secondWrite.tty_data 0).write_queue = { head := some 2, tail := some 2, size := 1 } ∧
    secondWrite.kernel.current_process = 0 ∧
    userBytes lay0 secondWrite.kernel 0x16000 2 = some [3, 0] ∧
    firstDone.transmitted = [(0, [65, 66]), (0, [3, 0])] ∧
    (firstDone.tty_data 0).current_writer = some 2 ∧
    (firstDone.tty_data 0).write_buffer = some [3, 0] ∧
    (firstDone.tty_pcb 1).regs0 = 2 ∧
    secondDone.transmitted = [(0, [65, 66]), (0, [3, 0])] ∧
    (secondDone.tty_pcb 2).regs0 = 2 ∧
    (secondDone.kernel.pcb 2).state = .READY ∧
    (secondDone.tty_data 0).in_use = 0 := by
  decide!

end Yalnix
